import Mathlib

/-!
# BE-Ecommerce: token codec, token verifier and access guard

A shallow embedding of `utils/jwt.go` and of the guarded handlers of
`handler/user.go`, with the properties the specification states about them.

Conventions of the embedding.

* A Go `string` is a sequence of bytes.  It is written as a `String` whose
  characters stand for the bytes, so `len(s)` is `s.data.length` and `s[7:]`
  drops seven characters.  All literals of the source are ASCII.
* A clock reading is the number of Unix seconds that `time.Now().Unix()`
  returns; both `GenerateJWT` and the token library read the clock at that
  resolution.  `VerifyOTP` and `ResetPassword` compare `time.Now()` itself
  with a stored date: there a `time.Time` is the number of nanoseconds since
  the Unix epoch, and a stored date (`Value.time`) is a BSON datetime, the
  number of milliseconds since the Unix epoch.
* JSON numbers are integers (the `exp` written by `GenerateJWT` is one).
* `encoding/json`, `encoding/base64` and the hash functions of `crypto` are
  parameters of the model (`jwt.Lib`); the theorems name the facts about them
  that they use.  `hexLib` is a small instance on which the model runs.
* The token library is `github.com/golang-jwt/jwt/v4` (4.5.1 and later, where
  `Parse` verifies the signature before it validates the claims).
-/

set_option autoImplicit false
set_option maxRecDepth 100000

/-! ## Values, documents -/

/-- A 12-byte MongoDB identifier (`primitive.ObjectID`). -/
abbrev ObjectID := List Nat

/-- A JSON or BSON value, as held by `interface{}`, `bson.M`, `fiber.Map`
and `jwt.MapClaims`. -/
inductive Value where
  | null
  | bool (b : Bool)
  | num (n : Int)
  | str (s : String)
  | oid (o : ObjectID)
  | time (t : Int)
  | arr (xs : List Value)
  | doc (fs : List (String × Value))
  deriving Repr, Inhabited

mutual
/-- Equality of two values, constructor by constructor. -/
def Value.beq : Value → Value → Bool
  | Value.null, Value.null => true
  | Value.bool a, Value.bool b => a == b
  | Value.num a, Value.num b => a == b
  | Value.str a, Value.str b => a == b
  | Value.oid a, Value.oid b => a == b
  | Value.time a, Value.time b => a == b
  | Value.arr a, Value.arr b => Value.beqList a b
  | Value.doc a, Value.doc b => Value.beqFields a b
  | _, _ => false
/-- Equality of two arrays of values. -/
def Value.beqList : List Value → List Value → Bool
  | [], [] => true
  | a :: as, b :: bs => Value.beq a b && Value.beqList as bs
  | _, _ => false
/-- Equality of two lists of bindings. -/
def Value.beqFields : List (String × Value) → List (String × Value) → Bool
  | [], [] => true
  | (k, a) :: as, (l, b) :: bs => k == l && Value.beq a b && Value.beqFields as bs
  | _, _ => false
end

/-- A map with string keys (`bson.M`, `fiber.Map`, `jwt.MapClaims`,
`map[string]interface{}`): the first binding of a key is its value. -/
abbrev Doc := List (String × Value)

namespace Doc

/-- Go `m[k]` with the comma-ok form: the value bound to `k`, if any. -/
def get : Doc → String → Option Value
  | [], _ => none
  | (k, v) :: rest, key => if k = key then some v else get rest key

/-- Go `m[k] = v`. -/
def set : Doc → String → Value → Doc
  | [], key, val => [(key, val)]
  | (k, v) :: rest, key, val =>
    if k = key then (k, val) :: rest else (k, v) :: set rest key val

/-- Go `_, exists := m[k]`. -/
def has (d : Doc) (key : String) : Bool := (get d key).isSome

/-- The type assertion `m[k].(string)`. -/
def getString (d : Doc) (key : String) : Option String :=
  match get d key with
  | some (Value.str s) => some s
  | _ => none

end Doc

/-! ## Package `strings` and slicing -/

namespace strings

/-- Go `strings.HasPrefix`. -/
def HasPrefix (s pre : String) : Bool := pre.data.isPrefixOf s.data

/-- Go `strings.TrimPrefix`: `s` without the leading `pre`, or `s` itself when
it does not start with `pre`. -/
def TrimPrefix (s pre : String) : String :=
  if HasPrefix s pre then String.mk (s.data.drop pre.data.length) else s

/-- The pieces of a character list between the occurrences of `sep`. -/
def splitChars (sep : Char) : List Char → List (List Char)
  | [] => [[]]
  | c :: cs =>
    if c = sep then [] :: splitChars sep cs
    else
      match splitChars sep cs with
      | [] => [[c]]
      | p :: ps => (c :: p) :: ps

/-- Go `strings.Split(s, ".")`. -/
def SplitDot (s : String) : List String := (splitChars '.' s.data).map String.mk

/-- Go `strings.Join(parts, ".")` for two parts. -/
def JoinDot (a b : String) : String := a ++ "." ++ b

/-- Go `s[n:]`: the bytes from offset `n` on; `none` is the run-time panic
"slice bounds out of range" of an offset past the end. -/
def sliceFrom (s : String) (n : Nat) : Option String :=
  if n ≤ s.data.length then some (String.mk (s.data.drop n)) else none

end strings

/-! ## Package `encoding/hex` and `primitive` -/

namespace hex

/-- The value of one hexadecimal digit, either case. -/
def fromHexChar (c : Char) : Option Nat :=
  if 48 ≤ c.toNat ∧ c.toNat ≤ 57 then some (c.toNat - 48)
  else if 97 ≤ c.toNat ∧ c.toNat ≤ 102 then some (c.toNat - 87)
  else if 65 ≤ c.toNat ∧ c.toNat ≤ 70 then some (c.toNat - 55)
  else none

/-- Go `hex.Decode`: two digits a byte; an odd length or a non-digit is an error. -/
def Decode : List Char → Option (List Nat)
  | [] => some []
  | [_] => none
  | a :: b :: rest =>
    match fromHexChar a, fromHexChar b, Decode rest with
    | some x, some y, some bs => some ((16 * x + y) :: bs)
    | _, _, _ => none

/-- The lower-case digit of a value below sixteen. -/
def digit (n : Nat) : Char :=
  if n < 10 then Char.ofNat (48 + n) else Char.ofNat (87 + n)

/-- Go `hex.EncodeToString`. -/
def Encode : List Nat → List Char
  | [] => []
  | b :: bs => digit (b / 16 % 16) :: digit (b % 16) :: Encode bs

end hex

namespace primitive

/-- Go `primitive.NilObjectID`. -/
def NilObjectID : ObjectID := List.replicate 12 0

/-- Go `primitive.ObjectIDFromHex`: exactly 24 hexadecimal digits. -/
def ObjectIDFromHex (s : String) : Option ObjectID :=
  if s.data.length ≠ 24 then none else hex.Decode s.data

/-- Go `ObjectID.Hex`. -/
def Hex (o : ObjectID) : String := String.mk (hex.Encode o)

end primitive

/-! ## Package `strconv` -/

namespace strconv

/-- The number written by a list of decimal digits, most significant first;
`none` when a character is not a digit. -/
def digitsValue : List Char → Nat → Option Nat
  | [], acc => some acc
  | c :: cs, acc =>
    if 48 ≤ c.toNat ∧ c.toNat ≤ 57 then digitsValue cs (10 * acc + (c.toNat - 48)) else none

/-- Go `strconv.Atoi` on a 64-bit platform: an optional sign, at least one
decimal digit, and a value that fits `int`; `none` is the error result. -/
def Atoi (s : String) : Option Int :=
  let body (cs : List Char) (neg : Bool) : Option Int :=
    match cs with
    | [] => none
    | _ =>
      match digitsValue cs 0 with
      | none => none
      | some n =>
        if neg then (if n ≤ 2 ^ 63 then some (-(n : Int)) else none)
        else (if n < 2 ^ 63 then some (n : Int) else none)
  match s.data with
  | '-' :: cs => body cs true
  | '+' :: cs => body cs false
  | cs => body cs false

end strconv

/-! ## The token library `github.com/golang-jwt/jwt/v4` -/

namespace jwt

/-- The hash functions of the HMAC, RSA and ECDSA signing methods. -/
inductive Hash where
  | SHA256
  | SHA384
  | SHA512
  deriving DecidableEq, Repr

/-- The primitives the token library takes from the standard library:
`json.Marshal` and `json.Unmarshal` on a map, `base64.RawURLEncoding`
(`EncodeSegment`, `DecodeSegment`) and the digest of each hash function. -/
structure Lib where
  Marshal : Doc → String
  Unmarshal : String → Option Doc
  EncodeSegment : String → String
  DecodeSegment : String → Option String
  Sum : Hash → String → String

/-- Go `hash.BlockSize()`. -/
def Hash.BlockSize : Hash → Nat
  | Hash.SHA256 => 64
  | Hash.SHA384 => 128
  | Hash.SHA512 => 128

/-- One byte xor a constant. -/
def xorByte (k : Nat) (c : Char) : Char := Char.ofNat (c.toNat ^^^ k)

/-- The key block of `hmac.New`: a key longer than the block is hashed first,
then the key is copied into a zeroed block. -/
def keyBlock (L : Lib) (h : Hash) (key : String) : List Char :=
  let k := if key.data.length > h.BlockSize then L.Sum h key else key
  (k.data ++ List.replicate (h.BlockSize - k.data.length) (Char.ofNat 0)).take h.BlockSize

/-- The inner input of the HMAC: the key block xor `ipad`, then the message. -/
def hmacInner (L : Lib) (h : Hash) (key msg : String) : String :=
  String.mk ((keyBlock L h key).map (xorByte 0x36)) ++ msg

/-- The outer input of the HMAC: the key block xor `opad`, then the inner digest. -/
def hmacOuter (L : Lib) (h : Hash) (key msg : String) : String :=
  String.mk ((keyBlock L h key).map (xorByte 0x5c)) ++ L.Sum h (hmacInner L h key msg)

/-- Go `hmac.New(h, key)`, `Write(msg)`, `Sum(nil)` (RFC 2104): the digest
of the outer input. -/
def hmacSum (L : Lib) (h : Hash) (key msg : String) : String :=
  L.Sum h (hmacOuter L h key msg)

/-- The signing methods the library registers. -/
inductive SigningMethod where
  | HMAC (h : Hash)
  | RSA (h : Hash)
  | RSAPSS (h : Hash)
  | ECDSA (h : Hash)
  | Ed25519
  | none
  deriving DecidableEq, Repr

/-- Go `jwt.GetSigningMethod`: the method registered under an `alg` name. -/
def GetSigningMethod (alg : String) : Option SigningMethod :=
  if alg = "HS256" then some (SigningMethod.HMAC Hash.SHA256)
  else if alg = "HS384" then some (SigningMethod.HMAC Hash.SHA384)
  else if alg = "HS512" then some (SigningMethod.HMAC Hash.SHA512)
  else if alg = "RS256" then some (SigningMethod.RSA Hash.SHA256)
  else if alg = "RS384" then some (SigningMethod.RSA Hash.SHA384)
  else if alg = "RS512" then some (SigningMethod.RSA Hash.SHA512)
  else if alg = "PS256" then some (SigningMethod.RSAPSS Hash.SHA256)
  else if alg = "PS384" then some (SigningMethod.RSAPSS Hash.SHA384)
  else if alg = "PS512" then some (SigningMethod.RSAPSS Hash.SHA512)
  else if alg = "ES256" then some (SigningMethod.ECDSA Hash.SHA256)
  else if alg = "ES384" then some (SigningMethod.ECDSA Hash.SHA384)
  else if alg = "ES512" then some (SigningMethod.ECDSA Hash.SHA512)
  else if alg = "EdDSA" then some SigningMethod.Ed25519
  else if alg = "none" then some SigningMethod.none
  else Option.none

/-- Go `SigningMethod.Alg()`. -/
def SigningMethod.Alg : SigningMethod → String
  | SigningMethod.HMAC Hash.SHA256 => "HS256"
  | SigningMethod.HMAC Hash.SHA384 => "HS384"
  | SigningMethod.HMAC Hash.SHA512 => "HS512"
  | SigningMethod.RSA Hash.SHA256 => "RS256"
  | SigningMethod.RSA Hash.SHA384 => "RS384"
  | SigningMethod.RSA Hash.SHA512 => "RS512"
  | SigningMethod.RSAPSS Hash.SHA256 => "PS256"
  | SigningMethod.RSAPSS Hash.SHA384 => "PS384"
  | SigningMethod.RSAPSS Hash.SHA512 => "PS512"
  | SigningMethod.ECDSA Hash.SHA256 => "ES256"
  | SigningMethod.ECDSA Hash.SHA384 => "ES384"
  | SigningMethod.ECDSA Hash.SHA512 => "ES512"
  | SigningMethod.Ed25519 => "EdDSA"
  | SigningMethod.none => "none"

/-- The type test `token.Method.(*jwt.SigningMethodHMAC)`. -/
def SigningMethod.isHMAC : SigningMethod → Bool
  | SigningMethod.HMAC _ => true
  | _ => false

/-- Go `jwt.SigningMethodHS256`. -/
def SigningMethodHS256 : SigningMethod := SigningMethod.HMAC Hash.SHA256

/-- Go `Method.Verify(signingString, signature, key)` for a key of type
`[]byte`; `true` is the `nil` error.  The HMAC methods recompute the MAC and
compare; every other method refuses a byte-slice key. -/
def SigningMethod.Verify (L : Lib) (m : SigningMethod)
    (signingString signature key : String) : Bool :=
  match m with
  | SigningMethod.HMAC h =>
    match L.DecodeSegment signature with
    | Option.none => false
    | some sig => decide (sig = hmacSum L h key signingString)
  | _ => false

/-- Go `Method.Sign(signingString, key)` for a key of type `[]byte`; `none` is
the error `ErrInvalidKeyType` of the methods that need a private key. -/
def SigningMethod.Sign (L : Lib) (m : SigningMethod)
    (signingString key : String) : Option String :=
  match m with
  | SigningMethod.HMAC h => some (L.EncodeSegment (hmacSum L h key signingString))
  | _ => Option.none

/-- Go `jwt.ValidationError`: the bit set `Errors`. -/
structure ValidationError where
  Errors : Nat
  deriving DecidableEq, Repr

def ValidationErrorMalformed : Nat := 1
def ValidationErrorUnverifiable : Nat := 2
def ValidationErrorSignatureInvalid : Nat := 4
def ValidationErrorExpired : Nat := 16
def ValidationErrorIssuedAt : Nat := 32
def ValidationErrorNotValidYet : Nat := 128
def ValidationErrorClaimsInvalid : Nat := 512

/-- Go `jwt.NewValidationError(text, flags)`. -/
def NewValidationError (flags : Nat) : ValidationError := ⟨flags⟩

/-- A Go `error` value of this program: a `*jwt.ValidationError` or the
result of `errors.New`. -/
inductive Error where
  | validation (e : ValidationError)
  | text (msg : String)
  deriving DecidableEq, Repr

/-- Go `jwt.Token`. -/
structure Token where
  Raw : String
  Method : SigningMethod
  Header : Doc
  Claims : Doc
  Signature : String
  Valid : Bool

/-- Go `MapClaims.VerifyExpiresAt(now, false)`: no `exp`, or a zero one,
passes; a number passes while `now` is before it; any other value fails. -/
def VerifyExpiresAt (m : Doc) (now : Int) : Bool :=
  match m.get "exp" with
  | Option.none => true
  | some (Value.num exp) => if exp = 0 then true else decide (now < exp)
  | some _ => false

/-- Go `MapClaims.VerifyIssuedAt(now, false)`. -/
def VerifyIssuedAt (m : Doc) (now : Int) : Bool :=
  match m.get "iat" with
  | Option.none => true
  | some (Value.num iat) => if iat = 0 then true else decide (iat ≤ now)
  | some _ => false

/-- Go `MapClaims.VerifyNotBefore(now, false)`. -/
def VerifyNotBefore (m : Doc) (now : Int) : Bool :=
  match m.get "nbf" with
  | Option.none => true
  | some (Value.num nbf) => if nbf = 0 then true else decide (nbf ≤ now)
  | some _ => false

/-- Go `MapClaims.Valid()`: the flags of the failed time checks; zero is the
`nil` error. -/
def Valid (m : Doc) (now : Int) : Nat :=
  (if VerifyExpiresAt m now then 0 else ValidationErrorExpired) |||
  (if VerifyIssuedAt m now then 0 else ValidationErrorIssuedAt) |||
  (if VerifyNotBefore m now then 0 else ValidationErrorNotValidYet)

/-- Go `Parser.ParseUnverified` into `MapClaims`: three segments, a header
and a claims segment that decode, and a registered `alg`. -/
def ParseUnverified (L : Lib) (tokenString : String) :
    Except ValidationError (Token × List String) :=
  match strings.SplitDot tokenString with
  | [p0, p1, p2] =>
    match (L.DecodeSegment p0).bind L.Unmarshal with
    | Option.none => Except.error (NewValidationError ValidationErrorMalformed)
    | some header =>
      match (L.DecodeSegment p1).bind L.Unmarshal with
      | Option.none => Except.error (NewValidationError ValidationErrorMalformed)
      | some claims =>
        match header.getString "alg" with
        | Option.none => Except.error (NewValidationError ValidationErrorUnverifiable)
        | some alg =>
          match GetSigningMethod alg with
          | Option.none => Except.error (NewValidationError ValidationErrorUnverifiable)
          | some method =>
            Except.ok
              ({ Raw := tokenString, Method := method, Header := header,
                 Claims := claims, Signature := "", Valid := false }, [p0, p1, p2])
  | _ => Except.error (NewValidationError ValidationErrorMalformed)

/-- What `jwt.Parse` returns, with the key it handed to `Method.Verify`
(`none` when `Verify` was not reached). -/
structure Parsed where
  result : Except ValidationError Token
  verifyKey : Option String

/-- Go `jwt.Parse(tokenString, keyFunc)`: parse, ask `keyFunc` for the key,
verify the signature, validate the claims. -/
def Parse (L : Lib) (now : Int) (tokenString : String)
    (keyFunc : Token → Except Error String) : Parsed :=
  match ParseUnverified L tokenString with
  | Except.error e => ⟨Except.error e, Option.none⟩
  | Except.ok (token, parts) =>
    match keyFunc token with
    | Except.error (Error.validation ve) => ⟨Except.error ve, Option.none⟩
    | Except.error (Error.text _) =>
      ⟨Except.error (NewValidationError ValidationErrorUnverifiable), Option.none⟩
    | Except.ok key =>
      let signingString := strings.JoinDot (parts.getD 0 "") (parts.getD 1 "")
      let signature := parts.getD 2 ""
      if token.Method.Verify L signingString signature key then
        let flags := Valid token.Claims now
        if flags = 0 then
          ⟨Except.ok { token with Signature := signature, Valid := true }, some key⟩
        else ⟨Except.error ⟨flags⟩, some key⟩
      else ⟨Except.error (NewValidationError ValidationErrorSignatureInvalid), some key⟩

/-- Go `jwt.NewWithClaims(method, claims)`. -/
def NewWithClaims (method : SigningMethod) (claims : Doc) : Token :=
  { Raw := "", Method := method,
    Header := [("typ", Value.str "JWT"), ("alg", Value.str method.Alg)],
    Claims := claims, Signature := "", Valid := false }

/-- Go `Token.SigningString()`. -/
def Token.SigningString (L : Lib) (t : Token) : String :=
  strings.JoinDot (L.EncodeSegment (L.Marshal t.Header)) (L.EncodeSegment (L.Marshal t.Claims))

/-- Go `Token.SignedString(key)` for a key of type `[]byte`. -/
def Token.SignedString (L : Lib) (t : Token) (key : String) : Except Error String :=
  match t.Method.Sign L (t.SigningString L) key with
  | Option.none => Except.error (Error.text "key is of invalid type")
  | some sig => Except.ok (strings.JoinDot (t.SigningString L) sig)

/-- The unverified reading of a token string, if it has one. -/
def unverified (L : Lib) (tokenString : String) : Option (Token × List String) :=
  match ParseUnverified L tokenString with
  | Except.ok r => some r
  | Except.error _ => Option.none

/-- The claims a token string carries, if it parses. -/
def claimsOf (L : Lib) (tokenString : String) : Option Doc :=
  (unverified L tokenString).map fun r => r.1.Claims

/-- The `alg` string of the header of a token string, if the header decodes
and binds one. -/
def headerAlg (L : Lib) (tokenString : String) : Option String :=
  match strings.SplitDot tokenString with
  | p0 :: _ => ((L.DecodeSegment p0).bind L.Unmarshal).bind fun h => h.getString "alg"
  | [] => Option.none

/-- Whether the signature of a token string verifies under `key`: the token
parses and `Method.Verify` returns no error. -/
def signatureValid (L : Lib) (key tokenString : String) : Bool :=
  match ParseUnverified L tokenString with
  | Except.error _ => false
  | Except.ok (token, parts) =>
    token.Method.Verify L (strings.JoinDot (parts.getD 0 "") (parts.getD 1 ""))
      (parts.getD 2 "") key

/-- The claims segment of a token string. -/
def claimsSegment (tokenString : String) : String :=
  (strings.SplitDot tokenString).getD 1 ""

/-- The token string with its claims segment replaced; header and signature
segment stay. -/
def withClaimsSegment (tokenString seg : String) : String :=
  match strings.SplitDot tokenString with
  | [p0, _, p2] => strings.JoinDot (strings.JoinDot p0 seg) p2
  | _ => tokenString

/-- The segment codec carries a document: its encoded segment has no dot and
decodes to a map with the same bindings. -/
def Lib.CarriesDoc (L : Lib) (d : Doc) : Prop :=
  '.' ∉ (L.EncodeSegment (L.Marshal d)).data ∧
  ∃ d', (L.DecodeSegment (L.EncodeSegment (L.Marshal d))).bind L.Unmarshal = some d' ∧
    ∀ k, Doc.get d' k = Doc.get d k

/-- The segment codec carries a byte string: its encoded segment has no dot
and decodes to the same bytes. -/
def Lib.CarriesBytes (L : Lib) (s : String) : Prop :=
  '.' ∉ (L.EncodeSegment s).data ∧ L.DecodeSegment (L.EncodeSegment s) = some s

/-- The digest does not collide on two given inputs. -/
def Lib.NoCollision (L : Lib) (h : Hash) (a b : String) : Prop :=
  a ≠ b → L.Sum h a ≠ L.Sum h b

/-- The digest collides neither on the inner nor on the outer inputs of the
HMACs of two messages under one key. -/
def Lib.MacNoCollision (L : Lib) (h : Hash) (key m1 m2 : String) : Prop :=
  L.NoCollision h (hmacInner L h key m1) (hmacInner L h key m2) ∧
  L.NoCollision h (hmacOuter L h key m1) (hmacOuter L h key m2)

end jwt

/-! ## Package `utils` (`utils/jwt.go`) -/

namespace utils

/-- Go `tokenExpiry = 24 * time.Hour`, in seconds. -/
def tokenExpiry : Int := 24 * 3600

/-- The claims that `GenerateJWT` builds: `user_id`, `role`, `exp`, and
`seller_id` when it is not empty. -/
def GenerateJWT.claims (now : Int) (userID role sellerID : String) : Doc :=
  let claims : Doc :=
    [("user_id", Value.str userID), ("role", Value.str role),
     ("exp", Value.num (now + tokenExpiry))]
  if sellerID ≠ "" then claims.set "seller_id" (Value.str sellerID) else claims

/-- Go `GenerateJWT`, with the package variable `jwtSecret` and the clock
reading `time.Now().Unix()` as arguments. -/
def GenerateJWT (L : jwt.Lib) (jwtSecret : String) (now : Int)
    (userID role sellerID : String) : Except jwt.Error String :=
  let claims := GenerateJWT.claims now userID role sellerID
  let token := jwt.NewWithClaims jwt.SigningMethodHS256 claims
  match token.SignedString L jwtSecret with
  | Except.error e => Except.error e
  | Except.ok tokenString => Except.ok tokenString

/-- The key function of `ValidateJWT`: the secret for an HMAC method, an
"invalid signing method" validation error otherwise. -/
def validateKeyFunc (jwtSecret : String) (token : jwt.Token) : Except jwt.Error String :=
  if token.Method.isHMAC then Except.ok jwtSecret
  else Except.error
    (jwt.Error.validation (jwt.NewValidationError jwt.ValidationErrorSignatureInvalid))

/-- The `jwt.Parse` call of `ValidateJWT`. -/
def ValidateJWT.parse (L : jwt.Lib) (jwtSecret : String) (now : Int)
    (tokenString : String) : jwt.Parsed :=
  jwt.Parse L now tokenString (validateKeyFunc jwtSecret)

/-- Go `ValidateJWT`: the claims of a valid token, or the error. -/
def ValidateJWT (L : jwt.Lib) (jwtSecret : String) (now : Int)
    (tokenString : String) : Except jwt.Error Doc :=
  match (ValidateJWT.parse L jwtSecret now tokenString).result with
  | Except.error e => Except.error (jwt.Error.validation e)
  | Except.ok token =>
    if token.Valid then Except.ok token.Claims
    else Except.error
      (jwt.Error.validation (jwt.NewValidationError jwt.ValidationErrorClaimsInvalid))

/-- The key function of `ParseToken`: the secret for an HMAC method, the plain
error "unexpected signing method" otherwise. -/
def parseKeyFunc (jwtSecret : String) (token : jwt.Token) : Except jwt.Error String :=
  if token.Method.isHMAC then Except.ok jwtSecret
  else Except.error (jwt.Error.text "unexpected signing method")

/-- The `jwt.Parse` call of `ParseToken`. -/
def ParseToken.parse (L : jwt.Lib) (jwtSecret : String) (now : Int)
    (tokenString : String) : jwt.Parsed :=
  jwt.Parse L now tokenString (parseKeyFunc jwtSecret)

/-- Go `ParseToken`. -/
def ParseToken (L : jwt.Lib) (jwtSecret : String) (now : Int)
    (tokenString : String) : Except jwt.Error Doc :=
  match (ParseToken.parse L jwtSecret now tokenString).result with
  | Except.error e => Except.error (jwt.Error.validation e)
  | Except.ok token =>
    if token.Valid then Except.ok token.Claims
    else Except.error (jwt.Error.text "invalid token")

/-- The `jwt.Parse` call of `GetUserIDFromToken`: its key function returns the
literal `SECRET_KEY` for every token. -/
def GetUserIDFromToken.parse (L : jwt.Lib) (now : Int) (tokenString : String) : jwt.Parsed :=
  jwt.Parse L now tokenString (fun _ => Except.ok "SECRET_KEY")

/-- Go `GetUserIDFromToken`, on the value of the `Authorization` header: the
identifier and the error (`none` is `nil`). -/
def GetUserIDFromToken (L : jwt.Lib) (now : Int) (authHeader : String) :
    ObjectID × Option jwt.Error :=
  if authHeader = "" then
    (primitive.NilObjectID, some (jwt.Error.text "authorization header missing"))
  else
    let tokenString := strings.TrimPrefix authHeader "Bearer "
    match (GetUserIDFromToken.parse L now tokenString).result with
    | Except.error _ => (primitive.NilObjectID, some (jwt.Error.text "invalid token"))
    | Except.ok token =>
      if !token.Valid then (primitive.NilObjectID, some (jwt.Error.text "invalid token"))
      else
        match token.Claims.getString "user_id" with
        | none => (primitive.NilObjectID, some (jwt.Error.text "user ID not found in token"))
        | some userIDStr =>
          match primitive.ObjectIDFromHex userIDStr with
          | none => (primitive.NilObjectID, some (jwt.Error.text "invalid user ID format"))
          | some userID => (userID, none)

end utils

/-! ## A small instance of the library primitives -/

namespace hexLib

/-- One value as text: `s` and the string, `n` and the decimal number. -/
def renderValue : Value → String
  | Value.str s => "s" ++ s
  | Value.num n => if n < 0 then "n-" ++ Nat.repr n.natAbs else "n" ++ Nat.repr n.natAbs
  | _ => "?"

/-- A document as text: `key=value;` for each binding. -/
def Marshal : Doc → String
  | [] => ""
  | (k, v) :: rest => k ++ "=" ++ renderValue v ++ ";" ++ Marshal rest

/-- The value a text stands for. -/
def parseValue : List Char → Option Value
  | 's' :: cs => some (Value.str (String.mk cs))
  | 'n' :: '-' :: cs => (strconv.digitsValue cs 0).map fun n => Value.num (-(n : Int))
  | 'n' :: cs => (strconv.digitsValue cs 0).map fun n => Value.num (n : Int)
  | _ => none

/-- The binding a `key=value` text stands for. -/
def parseField (cs : List Char) : Option (String × Value) :=
  match strings.splitChars '=' cs with
  | [k, v] => (parseValue v).map fun x => (String.mk k, x)
  | _ => none

/-- The bindings of a list of `key=value` texts that ends with the empty text. -/
def parseFields : List (List Char) → Option Doc
  | [] => none
  | [last] => if last = [] then some [] else none
  | f :: rest =>
    match parseField f, parseFields rest with
    | some b, some d => some (b :: d)
    | _, _ => none

/-- The document a text stands for. -/
def Unmarshal (s : String) : Option Doc := parseFields (strings.splitChars ';' s.data)

/-- Two lower-case hexadecimal digits for each byte. -/
def EncodeSegment (s : String) : String := String.mk (hex.Encode (s.data.map Char.toNat))

/-- The bytes a hexadecimal text stands for. -/
def DecodeSegment (s : String) : Option String :=
  (hex.Decode s.data).map fun bs => String.mk (bs.map Char.ofNat)

/-- A four-byte checksum standing in for a digest. -/
def Sum (h : jwt.Hash) (s : String) : String :=
  let seed : Nat := match h with
    | jwt.Hash.SHA256 => 256
    | jwt.Hash.SHA384 => 384
    | jwt.Hash.SHA512 => 512
  let x := s.data.foldl (fun acc c => (acc * 131 + c.toNat + 7) % 4294967296) seed
  String.mk [Char.ofNat (x / 16777216 % 256), Char.ofNat (x / 65536 % 256),
             Char.ofNat (x / 256 % 256), Char.ofNat (x % 256)]

end hexLib

/-- An instance of the primitives: text for JSON, hexadecimal for base64url, a
checksum for the digests.  The model is run on it. -/
def hexLib : jwt.Lib :=
  { Marshal := hexLib.Marshal, Unmarshal := hexLib.Unmarshal,
    EncodeSegment := hexLib.EncodeSegment, DecodeSegment := hexLib.DecodeSegment,
    Sum := hexLib.Sum }

/-! ## The document store (`mongo`) -/

namespace mongo

/-- The condition a filter puts on one field: equality with a value
(`{"k": v}`) or `{"k": {"$all": vs}}`. -/
inductive Cond where
  | eq (v : Value)
  | all (vs : List Value)

/-- A filter `bson.M`: every field condition must hold. -/
abbrev Filter := List (String × Cond)

/-- A field value meets an equality: it is the value, or an array that holds it. -/
def eqHolds (v : Value) : Option Value → Bool
  | some (Value.arr xs) => Value.beq (Value.arr xs) v || xs.any fun x => Value.beq x v
  | some x => Value.beq x v
  | none => false

/-- Whether a field value meets a condition. -/
def Cond.holds : Cond → Option Value → Bool
  | Cond.eq v, field => eqHolds v field
  | Cond.all vs, field => !vs.isEmpty && vs.all fun v => eqHolds v field

/-- Whether a document matches a filter. -/
def Filter.matches (f : Filter) (d : Doc) : Bool :=
  f.all fun kc => kc.2.holds (d.get kc.1)

/-- The collections of database `ecommerce` that the handlers use. -/
inductive Coll where
  | users
  | products
  deriving DecidableEq, Repr

/-- The store: the documents of each collection, and `down`, the error every
operation returns while the store cannot be reached (`none`: reachable). -/
structure Store where
  users : List Doc
  products : List Doc
  down : Option String

/-- The documents of a collection. -/
def Store.coll (db : Store) : Coll → List Doc
  | Coll.users => db.users
  | Coll.products => db.products

/-- The store with the documents of one collection replaced. -/
def Store.withColl (db : Store) (c : Coll) (docs : List Doc) : Store :=
  match c with
  | Coll.users => { db with users := docs }
  | Coll.products => { db with products := docs }

/-- The query of a `Find`: one filter, or `{"$or": [f1, ...]}`. -/
inductive Query where
  | filter (f : Filter)
  | or (fs : List Filter)

/-- Whether a document matches a query. -/
def Query.matches : Query → Doc → Bool
  | Query.filter f, d => f.matches d
  | Query.or fs, d => fs.any fun f => f.matches d

/-- One call of the driver. -/
inductive StoreOp where
  | FindOne (c : Coll) (f : Filter)
  | UpdateOne (c : Coll) (f : Filter) (set : Doc)
  | DeleteOne (c : Coll) (f : Filter)
  | Find (c : Coll) (q : Query)
  | UpdateOneUnset (c : Coll) (f : Filter) (set : Doc) (unset : List String)

/-- The store together with the driver calls made so far, oldest first. -/
structure World where
  db : Store
  log : List StoreOp

/-- The result of `FindOne(...).Decode`. -/
inductive FindResult where
  | found (d : Doc)
  | ErrNoDocuments
  | err (msg : String)

/-- Go `collection.FindOne(ctx, filter)`: the first matching document. -/
def FindOne (w : World) (c : Coll) (f : Filter) : FindResult × World :=
  let w1 : World := { w with log := w.log ++ [StoreOp.FindOne c f] }
  match w.db.down with
  | some msg => (FindResult.err msg, w1)
  | none =>
    match (w.db.coll c).find? f.matches with
    | some d => (FindResult.found d, w1)
    | none => (FindResult.ErrNoDocuments, w1)

/-- The update `{"$set": set}` applied to a document. -/
def applySet (d : Doc) (set : Doc) : Doc :=
  set.foldl (fun acc kv => acc.set kv.1 kv.2) d

/-- The documents with the first match of `f` replaced by its update. -/
def updateFirst (f : Filter) (set : Doc) : List Doc → List Doc
  | [] => []
  | d :: ds => if f.matches d then applySet d set :: ds else d :: updateFirst f set ds

/-- The documents without the first match of `f`. -/
def deleteFirst (f : Filter) : List Doc → List Doc
  | [] => []
  | d :: ds => if f.matches d then ds else d :: deleteFirst f ds

/-- Go `mongo.UpdateResult`. -/
structure UpdateResult where
  MatchedCount : Nat
  ModifiedCount : Nat

/-- Whether `{"$set": set}` would give the document another `_id`; the store
refuses such an update. -/
def changesID (d : Doc) (set : Doc) : Bool :=
  match set.get "_id", d.get "_id" with
  | some v, some x => !Value.beq x v
  | some _, none => true
  | none, _ => false

/-- Go `collection.UpdateOne(ctx, filter, {"$set": set})`. -/
def UpdateOne (w : World) (c : Coll) (f : Filter) (set : Doc) :
    Except String UpdateResult × World :=
  let log := w.log ++ [StoreOp.UpdateOne c f set]
  match w.db.down with
  | some msg => (Except.error msg, { w with log := log })
  | none =>
    match (w.db.coll c).find? f.matches with
    | none => (Except.ok ⟨0, 0⟩, { w with log := log })
    | some d =>
      if changesID d set then (Except.error "the immutable field _id would be modified",
        { w with log := log })
      else
        (Except.ok ⟨1, if Value.beq (Value.doc (applySet d set)) (Value.doc d) then 0 else 1⟩,
         { db := w.db.withColl c (updateFirst f set (w.db.coll c)), log := log })

/-- Go `collection.DeleteOne(ctx, filter)`: the deleted count. -/
def DeleteOne (w : World) (c : Coll) (f : Filter) : Except String Nat × World :=
  let log := w.log ++ [StoreOp.DeleteOne c f]
  match w.db.down with
  | some msg => (Except.error msg, { w with log := log })
  | none =>
    match (w.db.coll c).find? f.matches with
    | none => (Except.ok 0, { w with log := log })
    | some _ =>
      (Except.ok 1, { db := w.db.withColl c (deleteFirst f (w.db.coll c)), log := log })

end mongo

/-! ## Package `model` -/

namespace model

/-- Modelled from the spec: the `store_info` of a user record (store name,
address, national ID, photo path); the struct `model.StoreInfo` is not among
the sources.  The keys are the ones `GetSellers` reads. -/
structure StoreInfo where
  StoreName : String
  FullAddress : String
  NIK : String
  PhotoPath : String

/-- Modelled from the spec: the user record (identifier, username, email,
password hash, roles, optional store status and store info, suspended flag,
password-reset token and its expiry); the struct `model.User` is not among the
sources.  The keys are the ones the handlers use in filters and updates. -/
structure User where
  ID : ObjectID
  Username : String
  Email : String
  Password : String
  Roles : List String
  StoreStatus : Option String
  StoreInfo : Option StoreInfo
  Suspended : Bool
  ResetToken : String
  ResetTokenExpiry : Int

/-- Modelled from the spec: the product record (identifier, `seller_id`,
name, price, stock, discount, description, category linkage, image path); the
struct `model.Product` is not among the sources.  The keys are the ones
`UpdateProductForSeller` writes. -/
structure Product where
  ID : ObjectID
  SellerID : ObjectID
  Name : String
  Price : Int
  Stock : Int
  Discount : Int
  Description : String
  CategoryID : ObjectID
  SubCategoryID : ObjectID
  Image : String

/-- A string field: absent is the zero value, another type is a decode error. -/
def strField (d : Doc) (k : String) : Option String :=
  match d.get k with
  | none => some ""
  | some (Value.str s) => some s
  | some _ => none

/-- An integer field: absent is the zero value, another type is a decode error. -/
def intField (d : Doc) (k : String) : Option Int :=
  match d.get k with
  | none => some 0
  | some (Value.num n) => some n
  | some _ => none

/-- An identifier field: absent is the zero value, another type is a decode error. -/
def oidField (d : Doc) (k : String) : Option ObjectID :=
  match d.get k with
  | none => some primitive.NilObjectID
  | some (Value.oid o) => some o
  | some _ => none

/-- An optional string field (`*string`). -/
def optStrField (d : Doc) (k : String) : Option (Option String) :=
  match d.get k with
  | none => some none
  | some Value.null => some none
  | some (Value.str s) => some (some s)
  | some _ => none

/-- A boolean field. -/
def boolField (d : Doc) (k : String) : Option Bool :=
  match d.get k with
  | none => some false
  | some (Value.bool b) => some b
  | some _ => none

/-- The zero `time.Time` (1 January of year 1, second -62135596800 of the
Unix era), in nanoseconds since the Unix epoch. -/
def zeroTime : Int := -62135596800 * 1000000000

/-- A time field as a `time.Time`, in nanoseconds since the Unix epoch: the
stored BSON datetime counts milliseconds; absent is the zero time. -/
def timeField (d : Doc) (k : String) : Option Int :=
  match d.get k with
  | none => some zeroTime
  | some (Value.time ms) => some (ms * 1000000)
  | some _ => none

/-- The strings of an array of strings. -/
def strings : List Value → Option (List String)
  | [] => some []
  | Value.str s :: rest => (strings rest).map fun ss => s :: ss
  | _ :: _ => none

/-- The `roles` field: an array of strings. -/
def rolesField (d : Doc) : Option (List String) :=
  match d.get "roles" with
  | none => some []
  | some Value.null => some []
  | some (Value.arr xs) => strings xs
  | some _ => none

/-- The `store_info` field (`*StoreInfo`). -/
def storeInfoField (d : Doc) : Option (Option StoreInfo) :=
  match d.get "store_info" with
  | none => some none
  | some Value.null => some none
  | some (Value.doc fs) =>
    match strField fs "store_name", strField fs "full_address", strField fs "nik",
      strField fs "photo_path" with
    | some a, some b, some c, some e => some (some ⟨a, b, c, e⟩)
    | _, _, _, _ => none
  | some _ => none

/-- Modelled from the spec: `Decode(&user)` of a stored document into
`model.User`; `none` is the decode error. -/
def decodeUser (d : Doc) : Option User :=
  match oidField d "_id", strField d "username", strField d "email", strField d "password",
    rolesField d with
  | some id, some username, some email, some password, some roles =>
    match optStrField d "store_status", storeInfoField d, boolField d "suspended",
      strField d "reset_token", timeField d "reset_token_expiry" with
    | some status, some info, some suspended, some resetToken, some expiry =>
      some ⟨id, username, email, password, roles, status, info, suspended, resetToken, expiry⟩
    | _, _, _, _, _ => none
  | _, _, _, _, _ => none

/-- Modelled from the spec: `Decode(&existingProduct)` of a stored document
into `model.Product`; `none` is the decode error. -/
def decodeProduct (d : Doc) : Option Product :=
  match oidField d "_id", oidField d "seller_id", strField d "name", intField d "price",
    intField d "stock" with
  | some id, some seller, some name, some price, some stock =>
    match intField d "discount", strField d "description", oidField d "category_id",
      oidField d "sub_category_id", strField d "image" with
    | some discount, some description, some category, some subCategory, some image =>
      some ⟨id, seller, name, price, stock, discount, description, category, subCategory, image⟩
    | _, _, _, _, _ => none
  | _, _, _, _, _ => none

/-- The JSON object of a `StoreInfo`. -/
def StoreInfo.toValue (s : StoreInfo) : Value :=
  Value.doc [("store_name", Value.str s.StoreName), ("full_address", Value.str s.FullAddress),
    ("nik", Value.str s.NIK), ("photo_path", Value.str s.PhotoPath)]

end model

/-! ## The web framework (`fiber`) -/

namespace fiber

def StatusOK : Nat := 200
def StatusBadRequest : Nat := 400
def StatusUnauthorized : Nat := 401
def StatusForbidden : Nat := 403
def StatusNotFound : Nat := 404
def StatusInternalServerError : Nat := 500

/-- What a handler reads from `*fiber.Ctx`: the `Authorization` header
(`c.Get`) and the `id` route parameter (`c.Params`). -/
structure Ctx where
  Authorization : String
  id : String

/-- A response: `c.Status(status).JSON(body)`. -/
structure Response where
  status : Nat
  body : Value

/-- How a handler ends: with a response, or with a run-time panic. -/
inductive Outcome where
  | response (r : Response)
  | panic

/-- The status of the response, if there is one. -/
def Outcome.status : Outcome → Option Nat
  | Outcome.response r => some r.status
  | Outcome.panic => none

/-- One file of a multipart form. -/
structure FileHeader where
  Filename : String

/-- Go `multipart.Form`: the values and the files of each field. -/
structure Form where
  Value : List (String × List String)
  File : List (String × List FileHeader)

/-- Go `form.Value[k]`. -/
def Form.values (f : Form) (k : String) : List String :=
  match f.Value.find? fun kv => kv.1 = k with
  | some kv => kv.2
  | none => []

/-- Go `form.File[k]`. -/
def Form.files (f : Form) (k : String) : List FileHeader :=
  match f.File.find? fun kv => kv.1 = k with
  | some kv => kv.2
  | none => []

end fiber

/-! ## Package `handler` (`handler/user.go`) -/

namespace handler

open fiber mongo

/-- What the handlers take from their surroundings: the library primitives,
the package variable `utils.jwtSecret`, the clock reading in whole seconds
that the token library takes, `c.SaveFile` (`some msg` is its error),
`utils.HashPassword`, and `nowNano`, the reading of `time.Now()` in `VerifyOTP`
and `ResetPassword`, in nanoseconds since the Unix epoch. -/
structure Env where
  L : jwt.Lib
  jwtSecret : String
  now : Int
  SaveFile : String → Option String
  HashPassword : String → Except String String
  nowNano : Int

/-- The handler result `c.Status(status).JSON(body)`. -/
def reply (status : Nat) (body : Doc) (w : World) : Outcome × World :=
  (Outcome.response ⟨status, Value.doc body⟩, w)

/-- The body `fiber.Map{"message": m}`. -/
def message (m : String) : Doc := [("message", Value.str m)]

/-- The `data` of the profile response. -/
def profileData (user : model.User) : Doc :=
  let response : Doc :=
    [("id", Value.str (primitive.Hex user.ID)), ("username", Value.str user.Username),
     ("email", Value.str user.Email), ("roles", Value.arr (user.Roles.map Value.str))]
  let response :=
    match user.StoreStatus with
    | some s => response.set "store_status" (Value.str s)
    | none => response
  match user.StoreInfo with
  | some info => response.set "store_info" info.toValue
  | none => response

/-- Go `GetUserProfile`. -/
def GetUserProfile (E : Env) (c : Ctx) (w : World) : Outcome × World :=
  let token := c.Authorization
  if token = "" then reply StatusUnauthorized (message "Authorization token is required") w
  else
    let token := strings.TrimPrefix token "Bearer "
    match utils.ValidateJWT E.L E.jwtSecret E.now token with
    | Except.error _ => reply StatusUnauthorized (message "Invalid or expired token") w
    | Except.ok claims =>
      match claims.getString "user_id" with
      | none => reply StatusUnauthorized (message "Invalid token payload") w
      | some userID =>
        if userID = "" then reply StatusUnauthorized (message "Invalid token payload") w
        else
          match primitive.ObjectIDFromHex userID with
          | none => reply StatusBadRequest (message "Invalid user ID format") w
          | some objectID =>
            match FindOne w Coll.users [("_id", Cond.eq (Value.oid objectID))] with
            | (FindResult.ErrNoDocuments, w1) =>
              reply StatusNotFound (message "User not found") w1
            | (FindResult.err _, w1) =>
              reply StatusInternalServerError (message "Failed to fetch user data") w1
            | (FindResult.found d, w1) =>
              match model.decodeUser d with
              | none => reply StatusInternalServerError (message "Failed to fetch user data") w1
              | some user =>
                reply StatusOK
                  [("message", Value.str "User profile fetched successfully"),
                   ("data", Value.doc (profileData user))] w1

/-- The body of an `EditProfile` request after `c.BodyParser`. -/
structure EditProfileBody where
  Username : String

/-- Go `EditProfile`; `body` is the result of `c.BodyParser` (`none`: error). -/
def EditProfile (E : Env) (c : Ctx) (body : Option EditProfileBody) (w : World) :
    Outcome × World :=
  let authHeader := c.Authorization
  if authHeader = "" then reply StatusUnauthorized (message "Authorization token is required") w
  else
    let token := strings.TrimPrefix authHeader "Bearer "
    if token = "" then reply StatusUnauthorized (message "Invalid token format") w
    else
      match utils.ValidateJWT E.L E.jwtSecret E.now token with
      | Except.error _ => reply StatusUnauthorized (message "Invalid or expired token") w
      | Except.ok claims =>
        match claims.getString "user_id" with
        | none => reply StatusUnauthorized (message "Invalid token payload") w
        | some userID =>
          if userID = "" then reply StatusUnauthorized (message "Invalid token payload") w
          else
            match primitive.ObjectIDFromHex userID with
            | none => reply StatusBadRequest (message "Invalid user ID") w
            | some objectID =>
              match body with
              | none => reply StatusBadRequest (message "Invalid request body") w
              | some updatedData =>
                if updatedData.Username = "" then
                  reply StatusBadRequest (message "Username cannot be empty") w
                else
                  match UpdateOne w Coll.users [("_id", Cond.eq (Value.oid objectID))]
                      [("username", Value.str updatedData.Username)] with
                  | (Except.error _, w1) =>
                    reply StatusInternalServerError (message "Failed to update profile") w1
                  | (Except.ok _, w1) => reply StatusOK (message "Profile updated successfully") w1

/-- The body of an `UpdateCustomer` request after `c.BodyParser`. -/
structure UpdateCustomerBody where
  UserID : String
  Updates : Doc

/-- The first of the listed fields that the map binds. -/
def firstDisallowed (updates : Doc) : List String → Option String
  | [] => none
  | field :: rest => if updates.has field then some field else firstDisallowed updates rest

/-- Go `UpdateCustomer`; `body` is the result of `c.BodyParser` (`none`: error). -/
def UpdateCustomer (_c : Ctx) (body : Option UpdateCustomerBody) (w : World) :
    Outcome × World :=
  match body with
  | none => reply StatusBadRequest (message "Invalid request body") w
  | some body =>
    if body.UserID = "" then reply StatusBadRequest (message "User ID is required") w
    else
      match primitive.ObjectIDFromHex body.UserID with
      | none => reply StatusBadRequest (message "Invalid User ID format") w
      | some userID =>
        let disallowedFields := ["_id", "password", "roles"]
        match firstDisallowed body.Updates disallowedFields with
        | some field =>
          reply StatusBadRequest (message ("Field '" ++ field ++ "' cannot be updated")) w
        | none =>
          if body.Updates.length = 0 then reply StatusBadRequest (message "No updates provided") w
          else
            let filter : Filter :=
              [("_id", Cond.eq (Value.oid userID)), ("roles", Cond.eq (Value.str "customer"))]
            match UpdateOne w Coll.users filter body.Updates with
            | (Except.error _, w1) =>
              reply StatusInternalServerError (message "Error updating customer") w1
            | (Except.ok result, w1) =>
              if result.MatchedCount = 0 then
                reply StatusNotFound (message "Customer not found or no changes made") w1
              else reply StatusOK (message "Customer updated successfully") w1

/-- The `updateData` that `UpdateProductForSeller` builds from the form values. -/
def formUpdate (form : Form) : Doc :=
  let updateData : Doc := []
  let updateData :=
    match form.values "name" with
    | v :: _ => updateData.set "name" (Value.str v)
    | [] => updateData
  let updateData :=
    match form.values "price" with
    | v :: _ =>
      match strconv.Atoi v with
      | some price => updateData.set "price" (Value.num price)
      | none => updateData
    | [] => updateData
  let updateData :=
    match form.values "stock" with
    | v :: _ =>
      match strconv.Atoi v with
      | some stock => updateData.set "stock" (Value.num stock)
      | none => updateData
    | [] => updateData
  let updateData :=
    match form.values "discount" with
    | v :: _ =>
      match strconv.Atoi v with
      | some discount => updateData.set "discount" (Value.num discount)
      | none => updateData
    | [] => updateData
  let updateData :=
    match form.values "description" with
    | v :: _ => updateData.set "description" (Value.str v)
    | [] => updateData
  let updateData :=
    match form.values "category_id" with
    | v :: _ =>
      match primitive.ObjectIDFromHex v with
      | some categoryID => updateData.set "category_id" (Value.oid categoryID)
      | none => updateData
    | [] => updateData
  match form.values "sub_category_id" with
  | v :: _ =>
    match primitive.ObjectIDFromHex v with
    | some subCategoryID => updateData.set "sub_category_id" (Value.oid subCategoryID)
    | none => updateData
  | [] => updateData

/-- The part of `UpdateProductForSeller` after the ownership check: the form,
the image file and the update. -/
def updateOwnedProduct (E : Env) (objectID : ObjectID) (form : Except String Form)
    (w : World) : Outcome × World :=
  match form with
  | Except.error err =>
    reply StatusBadRequest
      [("message", Value.str "Invalid form data"), ("error", Value.str err)] w
  | Except.ok form =>
    let updateData := formUpdate form
    let saved : Except String Doc :=
      match form.files "image" with
      | file :: _ =>
        let imagePath := "./uploads/" ++ file.Filename
        match E.SaveFile imagePath with
        | some err => Except.error err
        | none => Except.ok (updateData.set "image" (Value.str imagePath))
      | [] => Except.ok updateData
    match saved with
    | Except.error err =>
      reply StatusInternalServerError
        [("message", Value.str "Failed to save image"), ("error", Value.str err)] w
    | Except.ok updateData =>
      match UpdateOne w Coll.products [("_id", Cond.eq (Value.oid objectID))] updateData with
      | (Except.error err, w1) =>
        reply StatusInternalServerError
          [("message", Value.str "Failed to update product"), ("error", Value.str err)] w1
      | (Except.ok _, w1) =>
        reply StatusOK
          [("message", Value.str "Product updated successfully"),
           ("status", Value.str "success")] w1

/-- Go `UpdateProductForSeller`; `form` is the result of `c.MultipartForm()`. -/
def UpdateProductForSeller (E : Env) (c : Ctx) (form : Except String Form) (w : World) :
    Outcome × World :=
  let token := c.Authorization
  if token = "" then reply StatusUnauthorized (message "Unauthorized: Missing token") w
  else
    match strings.sliceFrom token 7 with
    | none => (Outcome.panic, w)
    | some bearer =>
      match utils.ValidateJWT E.L E.jwtSecret E.now bearer with
      | Except.error _ => reply StatusUnauthorized (message "Unauthorized: Invalid token") w
      | Except.ok claims =>
        match claims.getString "user_id" with
        | none => reply StatusUnauthorized (message "Unauthorized: Invalid user ID") w
        | some userID =>
          if userID = "" then
            reply StatusUnauthorized (message "Unauthorized: Invalid user ID") w
          else
            match primitive.ObjectIDFromHex userID with
            | none => reply StatusBadRequest (message "Invalid User ID format") w
            | some sellerID =>
              let productID := c.id
              match primitive.ObjectIDFromHex productID with
              | none => reply StatusBadRequest (message "Invalid Product ID format") w
              | some objectID =>
                let filter : Filter :=
                  [("_id", Cond.eq (Value.oid objectID)),
                   ("seller_id", Cond.eq (Value.oid sellerID))]
                let forbidden :=
                  message "Forbidden: You do not have permission to update this product"
                match FindOne w Coll.products filter with
                | (FindResult.err _, w1) => reply StatusForbidden forbidden w1
                | (FindResult.ErrNoDocuments, w1) => reply StatusForbidden forbidden w1
                | (FindResult.found d, w1) =>
                  match model.decodeProduct d with
                  | none => reply StatusForbidden forbidden w1
                  | some _ => updateOwnedProduct E objectID form w1

/-- Go `DeleteProductForSeller`. -/
def DeleteProductForSeller (E : Env) (c : Ctx) (w : World) : Outcome × World :=
  let token := c.Authorization
  if token = "" then reply StatusUnauthorized (message "Unauthorized: Missing token") w
  else
    match strings.sliceFrom token 7 with
    | none => (Outcome.panic, w)
    | some bearer =>
      match utils.ValidateJWT E.L E.jwtSecret E.now bearer with
      | Except.error _ => reply StatusUnauthorized (message "Unauthorized: Invalid token") w
      | Except.ok claims =>
        match claims.getString "user_id" with
        | none => reply StatusUnauthorized (message "Unauthorized: Invalid user ID") w
        | some userID =>
          if userID = "" then
            reply StatusUnauthorized (message "Unauthorized: Invalid user ID") w
          else
            match primitive.ObjectIDFromHex userID with
            | none => reply StatusBadRequest (message "Invalid User ID format") w
            | some sellerID =>
              let productID := c.id
              match primitive.ObjectIDFromHex productID with
              | none => reply StatusBadRequest (message "Invalid Product ID format") w
              | some objectID =>
                let filter : Filter :=
                  [("_id", Cond.eq (Value.oid objectID)),
                   ("seller_id", Cond.eq (Value.oid sellerID))]
                match DeleteOne w Coll.products filter with
                | (Except.error err, w1) =>
                  reply StatusInternalServerError
                    [("message", Value.str "Failed to delete product"),
                     ("error", Value.str err)] w1
                | (Except.ok deletedCount, w1) =>
                  if deletedCount = 0 then
                    reply StatusForbidden
                      (message "Forbidden: You do not have permission to delete this product") w1
                  else
                    reply StatusOK
                      [("message", Value.str "Product deleted successfully"),
                       ("status", Value.str "success")] w1

end handler

/-! ## More of the store and of package `utils` -/

namespace mongo

/-- Go `collection.Find(ctx, query)` followed by `cursor.All`: the matching
documents, in order. -/
def Find (w : World) (c : Coll) (q : Query) : Except String (List Doc) × World :=
  let w1 : World := { w with log := w.log ++ [StoreOp.Find c q] }
  match w.db.down with
  | some msg => (Except.error msg, w1)
  | none => (Except.ok ((w.db.coll c).filter q.matches), w1)

/-- A document without the bindings of a key. -/
def unsetKey (d : Doc) (key : String) : Doc := d.filter fun kv => kv.1 ≠ key

/-- The update `{"$set": set, "$unset": unset}` applied to a document. -/
def applySetUnset (d : Doc) (set : Doc) (unset : List String) : Doc :=
  unset.foldl unsetKey (applySet d set)

/-- The documents with the first match of `f` replaced by its update. -/
def updateFirstUnset (f : Filter) (set : Doc) (unset : List String) : List Doc → List Doc
  | [] => []
  | d :: ds =>
    if f.matches d then applySetUnset d set unset :: ds
    else d :: updateFirstUnset f set unset ds

/-- Go `collection.UpdateOne(ctx, filter, {"$set": set, "$unset": unset})`. -/
def UpdateOneUnset (w : World) (c : Coll) (f : Filter) (set : Doc) (unset : List String) :
    Except String UpdateResult × World :=
  let log := w.log ++ [StoreOp.UpdateOneUnset c f set unset]
  match w.db.down with
  | some msg => (Except.error msg, { w with log := log })
  | none =>
    match (w.db.coll c).find? f.matches with
    | none => (Except.ok ⟨0, 0⟩, { w with log := log })
    | some d =>
      if changesID d set then (Except.error "the immutable field _id would be modified",
        { w with log := log })
      else
        (Except.ok ⟨1, if Value.beq (Value.doc (applySetUnset d set unset)) (Value.doc d)
            then 0 else 1⟩,
         { db := w.db.withColl c (updateFirstUnset f set unset (w.db.coll c)), log := log })

end mongo

namespace utils

/-- Go `os.Getenv`: the value of a variable of the process environment, the
empty string when it is not set. -/
def Getenv (environ : List (String × String)) (key : String) : String :=
  match environ.find? fun kv => kv.1 = key with
  | some kv => kv.2
  | none => ""

/-- The initial value of the package variable `jwtSecret`:
`[]byte(os.Getenv("JWT_SECRET_KEY"))`. -/
def jwtSecret (environ : List (String × String)) : String := Getenv environ "JWT_SECRET_KEY"

end utils

/-! ## More of package `handler`: the CRUD handlers on user records -/

namespace handler

open fiber mongo

/-- The handler result `c.Status(status).JSON(body)` for a body that is not a map. -/
def replyValue (status : Nat) (body : Value) (w : World) : Outcome × World :=
  (Outcome.response ⟨status, body⟩, w)

/-- Go `doc[key]` as a JSON value: `null` when the key is not bound. -/
def field (d : Doc) (key : String) : Value := (d.get key).getD Value.null

/-- Go `getStringOrDefault`: the string at `doc[key][nestedKey]`, or the empty
string. -/
def getStringOrDefault (doc : Doc) (key nestedKey : String) : String :=
  match doc.get key with
  | some (Value.doc outer) =>
    match Doc.get outer nestedKey with
    | some (Value.str value) => value
    | _ => ""
  | _ => ""

/-- The entry of one customer in the response of `GetCustomers`. -/
def customerView (customer : Doc) : Value :=
  Value.doc [("id", field customer "_id"), ("username", field customer "username"),
    ("email", field customer "email"), ("roles", field customer "roles")]

/-- Go `GetCustomers`. -/
def GetCustomers (w : World) : Outcome × World :=
  match Find w Coll.users (Query.filter [("roles", Cond.eq (Value.str "customer"))]) with
  | (Except.error _, w1) => reply StatusInternalServerError (message "Error fetching customers") w1
  | (Except.ok customers, w1) => replyValue StatusOK (Value.arr (customers.map customerView)) w1

/-- The entry of one seller in the response of `GetSellers`. -/
def sellerView (seller : Doc) : Value :=
  Value.doc [("id", field seller "_id"), ("username", field seller "username"),
    ("email", field seller "email"), ("roles", field seller "roles"),
    ("store_status", field seller "store_status"),
    ("store_info", Value.doc
      [("store_name", Value.str (getStringOrDefault seller "store_info" "store_name")),
       ("full_address", Value.str (getStringOrDefault seller "store_info" "full_address")),
       ("nik", Value.str (getStringOrDefault seller "store_info" "nik")),
       ("photo_path", Value.str (getStringOrDefault seller "store_info" "photo_path"))])]

/-- Go `GetSellers`. -/
def GetSellers (w : World) : Outcome × World :=
  let query := Query.or [[("roles", Cond.eq (Value.str "seller"))],
    [("store_status", Cond.eq (Value.str "rejected"))]]
  match Find w Coll.users query with
  | (Except.error _, w1) => reply StatusInternalServerError (message "Error fetching sellers") w1
  | (Except.ok sellers, w1) =>
    reply StatusOK
      [("data", Value.arr (sellers.map sellerView)),
       ("message", Value.str "Sellers fetched successfully")] w1

/-- The filter of `GetUserByID`: the identifier for 24 hexadecimal digits, the
string itself for another length, and the unset (nil) map, which the driver
sends as the empty filter, for 24 characters that are not hexadecimal. -/
def userByIDFilter (userID : String) : Filter :=
  if userID.data.length = 24 then
    match primitive.ObjectIDFromHex userID with
    | some objectID => [("_id", Cond.eq (Value.oid objectID))]
    | none => []
  else [("_id", Cond.eq (Value.str userID))]

/-- The `data` of the response of `GetUserByID`. -/
def userByIDData (user : model.User) : Doc :=
  [("id", Value.str (primitive.Hex user.ID)), ("username", Value.str user.Username),
   ("email", Value.str user.Email), ("roles", Value.arr (user.Roles.map Value.str)),
   ("store_name", Value.str (match user.StoreInfo with
      | some info => info.StoreName
      | none => "")),
   ("full_address", Value.str (match user.StoreInfo with
      | some info => info.FullAddress
      | none => "")),
   ("nik", Value.str (match user.StoreInfo with
      | some info => info.NIK
      | none => "")),
   ("store_status", Value.str (match user.StoreStatus with
      | some status => status
      | none => "not_available"))]

/-- Go `GetUserByID`. -/
def GetUserByID (c : Ctx) (w : World) : Outcome × World :=
  let notFound : Doc := [("status", Value.str "error"), ("message", Value.str "User not found")]
  match FindOne w Coll.users (userByIDFilter c.id) with
  | (FindResult.err _, w1) => reply StatusNotFound notFound w1
  | (FindResult.ErrNoDocuments, w1) => reply StatusNotFound notFound w1
  | (FindResult.found d, w1) =>
    match model.decodeUser d with
    | none => reply StatusNotFound notFound w1
    | some user =>
      reply StatusOK
        [("status", Value.str "success"), ("data", Value.doc (userByIDData user))] w1

/-- The response of `GetSellerByID`. -/
def sellerByIDData (seller : model.User) : Doc :=
  [("id", Value.str (primitive.Hex seller.ID)), ("username", Value.str seller.Username),
   ("email", Value.str seller.Email),
   ("store_name", Value.str (match seller.StoreInfo with
      | some info => info.StoreName
      | none => "")),
   ("full_address", Value.str (match seller.StoreInfo with
      | some info => info.FullAddress
      | none => "")),
   ("nik", Value.str (match seller.StoreInfo with
      | some info => info.NIK
      | none => "")),
   ("store_status", Value.str (match seller.StoreStatus with
      | some status => status
      | none => "unknown")),
   ("suspended", Value.bool (match seller.StoreStatus with
      | some status => decide (status = "suspended")
      | none => false))]

/-- Go `GetSellerByID`. -/
def GetSellerByID (c : Ctx) (w : World) : Outcome × World :=
  match primitive.ObjectIDFromHex c.id with
  | none => reply StatusBadRequest (message "Invalid seller ID") w
  | some userID =>
    let filter : Filter :=
      [("_id", Cond.eq (Value.oid userID)), ("roles", Cond.eq (Value.str "seller"))]
    match FindOne w Coll.users filter with
    | (FindResult.err _, w1) => reply StatusNotFound (message "Seller not found") w1
    | (FindResult.ErrNoDocuments, w1) => reply StatusNotFound (message "Seller not found") w1
    | (FindResult.found d, w1) =>
      match model.decodeUser d with
      | none => reply StatusNotFound (message "Seller not found") w1
      | some seller => reply StatusOK (sellerByIDData seller) w1

end handler

/-! ## More of package `handler`: updates, deletions, suspension, password reset -/

namespace handler

open fiber mongo

/-- Go `DeleteCustomer`. -/
def DeleteCustomer (c : Ctx) (w : World) : Outcome × World :=
  match primitive.ObjectIDFromHex c.id with
  | none => reply StatusBadRequest (message "Invalid ID") w
  | some userID =>
    match DeleteOne w Coll.users
        [("_id", Cond.eq (Value.oid userID)), ("roles", Cond.eq (Value.str "customer"))] with
    | (Except.error _, w1) =>
      reply StatusInternalServerError (message "Error deleting customer") w1
    | (Except.ok _, w1) => reply StatusOK (message "Customer deleted successfully") w1

/-- The filter of `UpdateSeller` and `DeleteSeller`. -/
def sellerFilter (userID : ObjectID) : Filter :=
  [("_id", Cond.eq (Value.oid userID)), ("roles", Cond.eq (Value.str "seller"))]

/-- Go `UpdateSeller`; `body` is the result of `c.BodyParser` into a `bson.M`
(`none`: error). -/
def UpdateSeller (c : Ctx) (body : Option Doc) (w : World) : Outcome × World :=
  match primitive.ObjectIDFromHex c.id with
  | none => reply StatusBadRequest (message "Invalid ID") w
  | some userID =>
    match body with
    | none => reply StatusBadRequest (message "Invalid request body") w
    | some updates =>
      match UpdateOne w Coll.users (sellerFilter userID) updates with
      | (Except.error _, w1) =>
        reply StatusInternalServerError (message "Error updating seller") w1
      | (Except.ok _, w1) => reply StatusOK (message "Seller updated successfully") w1

/-- Go `DeleteSeller`. -/
def DeleteSeller (c : Ctx) (w : World) : Outcome × World :=
  match primitive.ObjectIDFromHex c.id with
  | none => reply StatusBadRequest (message "Invalid ID") w
  | some userID =>
    match DeleteOne w Coll.users (sellerFilter userID) with
    | (Except.error _, w1) =>
      reply StatusInternalServerError (message "Error deleting seller") w1
    | (Except.ok _, w1) => reply StatusOK (message "Seller deleted successfully") w1

/-- The filter of `UpdateCustomerSeller` and `DeleteCustomerSeller`. -/
def customerSellerFilter (userID : ObjectID) : Filter :=
  [("_id", Cond.eq (Value.oid userID)),
   ("roles", Cond.all [Value.str "customer", Value.str "seller"])]

/-- Go `UpdateCustomerSeller`; `body` is the result of `c.BodyParser` into a
`bson.M` (`none`: error). -/
def UpdateCustomerSeller (c : Ctx) (body : Option Doc) (w : World) : Outcome × World :=
  match primitive.ObjectIDFromHex c.id with
  | none => reply StatusBadRequest (message "Invalid ID") w
  | some userID =>
    match body with
    | none => reply StatusBadRequest (message "Invalid request body") w
    | some updates =>
      match UpdateOne w Coll.users (customerSellerFilter userID) updates with
      | (Except.error _, w1) =>
        reply StatusInternalServerError (message "Error updating customer-seller") w1
      | (Except.ok _, w1) => reply StatusOK (message "Customer-seller updated successfully") w1

/-- Go `DeleteCustomerSeller`. -/
def DeleteCustomerSeller (c : Ctx) (w : World) : Outcome × World :=
  match primitive.ObjectIDFromHex c.id with
  | none => reply StatusBadRequest (message "Invalid ID") w
  | some userID =>
    match DeleteOne w Coll.users (customerSellerFilter userID) with
    | (Except.error _, w1) =>
      reply StatusInternalServerError (message "Error deleting customer-seller") w1
    | (Except.ok _, w1) => reply StatusOK (message "Customer-seller deleted successfully") w1

/-- Go `SuspendUser`. -/
def SuspendUser (c : Ctx) (w : World) : Outcome × World :=
  match primitive.ObjectIDFromHex c.id with
  | none => reply StatusBadRequest (message "Invalid ID") w
  | some userID =>
    match UpdateOne w Coll.users [("_id", Cond.eq (Value.oid userID))]
        [("suspended", Value.bool true)] with
    | (Except.error _, w1) =>
      reply StatusInternalServerError (message "Error suspending user") w1
    | (Except.ok _, w1) => reply StatusOK (message "User account suspended successfully") w1

/-- Go `UnsuspendUser`. -/
def UnsuspendUser (c : Ctx) (w : World) : Outcome × World :=
  match primitive.ObjectIDFromHex c.id with
  | none => reply StatusBadRequest (message "Invalid ID") w
  | some userID =>
    match UpdateOne w Coll.users [("_id", Cond.eq (Value.oid userID))]
        [("suspended", Value.bool false)] with
    | (Except.error _, w1) =>
      reply StatusInternalServerError (message "Error unsuspending user") w1
    | (Except.ok _, w1) => reply StatusOK (message "User account unsuspended successfully") w1

/-- The filter of `SuspendSeller` and `UnsuspendSeller`. -/
def suspendSellerFilter (objectID : ObjectID) : Filter :=
  [("_id", Cond.eq (Value.oid objectID)), ("roles", Cond.all [Value.str "seller"])]

/-- Go `SuspendSeller`. -/
def SuspendSeller (c : Ctx) (w : World) : Outcome × World :=
  match primitive.ObjectIDFromHex c.id with
  | none => reply StatusBadRequest (message "Invalid seller ID format") w
  | some objectID =>
    match UpdateOne w Coll.users (suspendSellerFilter objectID)
        [("suspended", Value.bool true)] with
    | (Except.error _, w1) =>
      reply StatusInternalServerError (message "Failed to suspend seller") w1
    | (Except.ok result, w1) =>
      if result.ModifiedCount = 0 then
        reply StatusNotFound (message "Seller not found or already suspended") w1
      else reply StatusOK (message "Seller suspended successfully") w1

/-- Go `UnsuspendSeller`. -/
def UnsuspendSeller (c : Ctx) (w : World) : Outcome × World :=
  match primitive.ObjectIDFromHex c.id with
  | none => reply StatusBadRequest (message "Invalid seller ID format") w
  | some objectID =>
    match UpdateOne w Coll.users (suspendSellerFilter objectID)
        [("suspended", Value.bool false)] with
    | (Except.error _, w1) =>
      reply StatusInternalServerError (message "Failed to unsuspend seller") w1
    | (Except.ok result, w1) =>
      if result.ModifiedCount = 0 then
        reply StatusNotFound (message "Seller not found or already unsuspended") w1
      else reply StatusOK (message "Seller unsuspended successfully") w1

/-- The body of a `VerifyOTP` request after `c.BodyParser`. -/
structure VerifyOTPBody where
  Email : String
  ResetToken : String

/-- The filter of the reset-token lookup. -/
def resetFilter (email resetToken : String) : Filter :=
  [("email", Cond.eq (Value.str email)), ("reset_token", Cond.eq (Value.str resetToken))]

/-- Go `VerifyOTP`; `body` is the result of `c.BodyParser` (`none`: error). -/
def VerifyOTP (E : Env) (body : Option VerifyOTPBody) (w : World) : Outcome × World :=
  match body with
  | none => reply StatusBadRequest (message "Invalid request body") w
  | some body =>
    match FindOne w Coll.users (resetFilter body.Email body.ResetToken) with
    | (FindResult.ErrNoDocuments, w1) => reply StatusUnauthorized (message "Invalid OTP") w1
    | (FindResult.err _, w1) => reply StatusInternalServerError (message "Server error") w1
    | (FindResult.found d, w1) =>
      match model.decodeUser d with
      | none => reply StatusInternalServerError (message "Server error") w1
      | some user =>
        if E.nowNano > user.ResetTokenExpiry then
          reply StatusUnauthorized (message "OTP expired") w1
        else reply StatusOK (message "OTP verified successfully") w1

/-- The body of a `ResetPassword` request after `c.BodyParser`. -/
structure ResetPasswordBody where
  Email : String
  ResetToken : String
  NewPassword : String

/-- Go `ResetPassword`; `body` is the result of `c.BodyParser` (`none`: error). -/
def ResetPassword (E : Env) (body : Option ResetPasswordBody) (w : World) : Outcome × World :=
  match body with
  | none => reply StatusBadRequest (message "Invalid request body") w
  | some body =>
    match FindOne w Coll.users (resetFilter body.Email body.ResetToken) with
    | (FindResult.ErrNoDocuments, w1) =>
      reply StatusUnauthorized (message "Invalid or expired reset token") w1
    | (FindResult.err _, w1) =>
      reply StatusInternalServerError (message "Failed to verify reset token") w1
    | (FindResult.found d, w1) =>
      match model.decodeUser d with
      | none => reply StatusInternalServerError (message "Failed to verify reset token") w1
      | some user =>
        if E.nowNano > user.ResetTokenExpiry then
          reply StatusUnauthorized (message "Reset token expired") w1
        else
          match E.HashPassword body.NewPassword with
          | Except.error _ =>
            reply StatusInternalServerError (message "Failed to hash password") w1
          | Except.ok hashedPassword =>
            match UpdateOneUnset w1 Coll.users [("email", Cond.eq (Value.str body.Email))]
                [("password", Value.str hashedPassword)]
                ["reset_token", "reset_token_expiry"] with
            | (Except.error _, w2) =>
              reply StatusInternalServerError (message "Failed to update password") w2
            | (Except.ok _, w2) => reply StatusOK (message "Password reset successfully") w2

/-- The call `utils.GetUserIDFromToken(c)` in an environment. -/
def userIDFromToken (E : Env) (c : Ctx) : ObjectID × Option jwt.Error :=
  utils.GetUserIDFromToken E.L E.now c.Authorization

/-- Whether the `roles` of a record hold a role: as an element of the array,
or as the value itself. -/
def hasRole (d : Doc) (role : String) : Bool :=
  match d.get "roles" with
  | some (Value.arr xs) => xs.any fun x => Value.beq x (Value.str role)
  | some (Value.str s) => s == role
  | _ => false

end handler

/-! ## Records that differ only in their secrets -/

namespace model

/-- The keys of a user record that hold the password hash, the reset token and
its expiry. -/
def secretKeys : List String := ["password", "reset_token", "reset_token_expiry"]

/-- The secrets of a record have the types of `model.User`: the password hash
and the reset token are strings, the expiry is a time (each may be absent). -/
def secretsTyped (d : Doc) : Bool :=
  (strField d "password").isSome && (strField d "reset_token").isSome &&
    (timeField d "reset_token_expiry").isSome

/-- Two user records differ at most in their password hash, reset token and
reset-token expiry. -/
def sameButSecrets (d1 d2 : Doc) : Prop :=
  secretsTyped d1 = true ∧ secretsTyped d2 = true ∧
  ∀ k, k ∉ secretKeys → Doc.get d1 k = Doc.get d2 k

end model

namespace mongo

/-- Two stores hold the same records up to the secrets of the user records. -/
def Store.sameButSecrets (db1 db2 : Store) : Prop :=
  List.Forall₂ model.sameButSecrets db1.users db2.users ∧
  db1.products = db2.products ∧ db1.down = db2.down

end mongo

/-! ## Concrete inputs -/

namespace demo

/-- An environment on the small instance: secret `k`, clock at second 2000,
a file store that saves every file, a password hash that marks its input. -/
def env : handler.Env :=
  ⟨hexLib, "k", 2000, fun _ => none, fun password => Except.ok ("$2a$10$" ++ password),
    2000000000000⟩

/-- The environment `env` with `time.Now()` one nanosecond after millisecond
1500. -/
def envAtExpiry : handler.Env := { env with nowNano := 1500000001 }

/-- The identifier `507f1f77bcf86cd799439011`. -/
def sellerID : ObjectID := [80, 127, 31, 119, 188, 248, 108, 215, 153, 67, 144, 17]

/-- The identifier `000000000000000000000001`. -/
def productID : ObjectID := [0, 0, 0, 0, 0, 0, 0, 0, 0, 0, 0, 1]

/-- The identifier `0000000000000000000000aa`. -/
def otherID : ObjectID := [0, 0, 0, 0, 0, 0, 0, 0, 0, 0, 0, 170]

/-- The token `GenerateJWT` issues at second 1000 under secret `k` for user
`507f1f77bcf86cd799439011` with role `seller` and no `seller_id`. -/
def sellerToken : String :=
  "7479703d734a57543b616c673d7348533235363b.757365725f69643d733530376631663737626366383663643739393433393031313b726f6c653d7373656c6c65723b6578703d6e38373430303b.07b86ebd"

/-- The token `GenerateJWT` issues at second 1000 under secret `k` for the
user id `u1` with role `seller`. -/
def shortIDToken : String :=
  "7479703d734a57543b616c673d7348533235363b.757365725f69643d7375313b726f6c653d7373656c6c65723b6578703d6e38373430303b.f52470f0"

/-- The token `GenerateJWT` issues at second 1000 under the secret `k2` for
user `507f1f77bcf86cd799439011` with role `seller`. -/
def foreignToken : String :=
  "7479703d734a57543b616c673d7348533235363b.757365725f69643d733530376631663737626366383663643739393433393031313b726f6c653d7373656c6c65723b6578703d6e38373430303b.97511e68"

/-- The token the library signs under secret `k` for the claims of
`sellerToken` with `exp` 0. -/
def zeroExpToken : String :=
  "7479703d734a57543b616c673d7348533235363b.757365725f69643d733530376631663737626366383663643739393433393031313b726f6c653d7373656c6c65723b6578703d6e303b.0a5c5a6c"

/-- The token `sellerToken` with a header that names `RS256`. -/
def rs256Token : String :=
  "7479703d734a57543b616c673d7352533235363b.757365725f69643d733530376631663737626366383663643739393433393031313b726f6c653d7373656c6c65723b6578703d6e38373430303b.07b86ebd"

/-- The claims segment of `sellerToken` with role `admin` in place of `seller`. -/
def adminSegment : String :=
  "757365725f69643d733530376631663737626366383663643739393433393031313b726f6c653d7361646d696e3b6578703d6e38373430303b"

/-- The claims of `sellerToken`. -/
def sellerClaims : Doc :=
  [("user_id", Value.str "507f1f77bcf86cd799439011"), ("role", Value.str "seller"),
   ("exp", Value.num 87400)]

/-- A request with the given `Authorization` header for product
`000000000000000000000001`. -/
def request (authorization : String) : fiber.Ctx :=
  ⟨authorization, "000000000000000000000001"⟩

/-- A store with one customer and one product that belongs to `otherID`. -/
def store : mongo.Store :=
  { users :=
      [[("_id", Value.oid sellerID), ("username", Value.str "ani"),
        ("email", Value.str "ani@example.com"), ("password", Value.str "$2a$10$hash"),
        ("roles", Value.arr [Value.str "customer"])]],
    products :=
      [[("_id", Value.oid productID), ("seller_id", Value.oid otherID),
        ("name", Value.str "lamp"), ("price", Value.num 10)]],
    down := none }

/-- The store before any driver call. -/
def world : mongo.World := ⟨store, []⟩

/-- The token the library signs under secret `k` for claims without a
`user_id`: role `seller`, `exp` 87400. -/
def noUserIDToken : String :=
  "7479703d734a57543b616c673d7348533235363b.726f6c653d7373656c6c65723b6578703d6e38373430303b.f75f1c45"

/-- The token `GenerateJWT` issues at second 1000 under the empty secret for
user `507f1f77bcf86cd799439011` with role `seller`. -/
def emptySecretToken : String :=
  "7479703d734a57543b616c673d7348533235363b.757365725f69643d733530376631663737626366383663643739393433393031313b726f6c653d7373656c6c65723b6578703d6e38373430303b.e212c149"

/-- The token `GenerateJWT` issues at second 1000 under secret `k` for user
`0000000000000000000000aa`, the owner of the product of `store`. -/
def ownerToken : String :=
  "7479703d734a57543b616c673d7348533235363b.757365725f69643d733030303030303030303030303030303030303030303061613b726f6c653d7373656c6c65723b6578703d6e38373430303b.ff421b28"

/-- The token `GenerateJWT` issues at second 1000 under the secret `SECRET_KEY`
for user `507f1f77bcf86cd799439011` with role `seller`. -/
def literalKeyToken : String :=
  "7479703d734a57543b616c673d7348533235363b.757365725f69643d733530376631663737626366383663643739393433393031313b726f6c653d7373656c6c65723b6578703d6e38373430303b.ff1370b0"

/-- A request with the given `Authorization` header for the record
`507f1f77bcf86cd799439011`. -/
def userRequest (authorization : String) : fiber.Ctx :=
  ⟨authorization, "507f1f77bcf86cd799439011"⟩

/-- A request with the given `Authorization` header for the record
`0000000000000000000000aa`. -/
def otherRequest (authorization : String) : fiber.Ctx :=
  ⟨authorization, "0000000000000000000000aa"⟩

/-- A seller record with a reset token that expired at millisecond 1500
(1.5 s after the Unix epoch). -/
def sellerRecord : Doc :=
  [("_id", Value.oid otherID), ("username", Value.str "sari"),
   ("email", Value.str "sari@example.com"), ("password", Value.str "$2a$10$old"),
   ("roles", Value.arr [Value.str "seller"]), ("reset_token", Value.str "123456"),
   ("reset_token_expiry", Value.time 1500)]

/-- The seller record with another password hash, reset token and expiry. -/
def sellerRecordOtherSecrets : Doc :=
  [("_id", Value.oid otherID), ("username", Value.str "sari"),
   ("email", Value.str "sari@example.com"), ("password", Value.str "$2a$10$new"),
   ("roles", Value.arr [Value.str "seller"]), ("reset_token", Value.str "654321"),
   ("reset_token_expiry", Value.time 9000)]

/-- The customer record of `store`. -/
def customerRecord : Doc :=
  [("_id", Value.oid sellerID), ("username", Value.str "ani"),
   ("email", Value.str "ani@example.com"), ("password", Value.str "$2a$10$hash"),
   ("roles", Value.arr [Value.str "customer"])]

/-- A store with the seller and the customer. -/
def userStore : mongo.Store :=
  { users := [sellerRecord, customerRecord], products := [], down := none }

/-- The same store with the other secrets of the seller. -/
def userStoreOtherSecrets : mongo.Store :=
  { users := [sellerRecordOtherSecrets, customerRecord], products := [], down := none }

/-- The user store before any driver call. -/
def userWorld : mongo.World := ⟨userStore, []⟩

/-- A record with both roles, under the identifier `507f1f77bcf86cd799439011`. -/
def dualRecord : Doc :=
  [("_id", Value.oid sellerID), ("username", Value.str "dewi"),
   ("email", Value.str "dewi@example.com"), ("password", Value.str "$2a$10$dual"),
   ("roles", Value.arr [Value.str "customer", Value.str "seller"])]

/-- A store with the dual-role record only, before any driver call. -/
def dualWorld : mongo.World := ⟨{ users := [dualRecord], products := [], down := none }, []⟩

/-- A reachable store without documents, before any driver call. -/
def emptyWorld : mongo.World := ⟨{ users := [], products := [], down := none }, []⟩

end demo

/-! ## Lemmas on strings and documents -/

theorem splitChars_no_sep (sep : Char) (a : List Char) (h : sep ∉ a) :
    strings.splitChars sep a = [a] := by
  induction a with
  | nil => rfl
  | cons c cs ih =>
    have hc : c ≠ sep := fun e => h (by simp [e])
    have hcs : sep ∉ cs := fun e => h (by simp [e])
    simp [strings.splitChars, hc, ih hcs]

theorem splitChars_append_sep (sep : Char) (a b : List Char) (h : sep ∉ a) :
    strings.splitChars sep (a ++ sep :: b) = a :: strings.splitChars sep b := by
  induction a with
  | nil => simp [strings.splitChars]
  | cons c cs ih =>
    have hc : c ≠ sep := fun e => h (by simp [e])
    have hcs : sep ∉ cs := fun e => h (by simp [e])
    simp [strings.splitChars, hc, ih hcs]

theorem splitDot_join3 (a b c : String) (ha : '.' ∉ a.data) (hb : '.' ∉ b.data)
    (hc : '.' ∉ c.data) :
    strings.SplitDot (strings.JoinDot (strings.JoinDot a b) c) = [a, b, c] := by
  have h1 : (strings.JoinDot (strings.JoinDot a b) c).data
      = a.data ++ '.' :: (b.data ++ '.' :: c.data) := by
    simp [strings.JoinDot, String.data_append]
  simp [strings.SplitDot, h1, splitChars_append_sep _ _ _ ha, splitChars_append_sep _ _ _ hb,
    splitChars_no_sep _ _ hc]

theorem getSigningMethod_alg (m : jwt.SigningMethod) : jwt.GetSigningMethod m.Alg = some m := by
  cases m with
  | HMAC h => cases h <;> rfl
  | RSA h => cases h <;> rfl
  | RSAPSS h => cases h <;> rfl
  | ECDSA h => cases h <;> rfl
  | Ed25519 => rfl
  | none => rfl

theorem getString_congr (d d' : Doc) (k : String) (h : Doc.get d' k = Doc.get d k) :
    Doc.getString d' k = Doc.getString d k := by
  simp [Doc.getString, h]

theorem valid_congr (d d' : Doc) (now : Int) (h : ∀ k, Doc.get d' k = Doc.get d k) :
    jwt.Valid d' now = jwt.Valid d now := by
  simp [jwt.Valid, jwt.VerifyExpiresAt, jwt.VerifyIssuedAt, jwt.VerifyNotBefore, h]

theorem header_alg (m : jwt.SigningMethod) (claims : Doc) :
    Doc.getString (jwt.NewWithClaims m claims).Header "alg" = some m.Alg := by
  simp [jwt.NewWithClaims, Doc.getString, Doc.get]

/-- A token signed by the library parses back: the method is the signing
method, the parts are the three segments, the claims bind what was signed. -/
theorem parseUnverified_signed (L : jwt.Lib) (m : jwt.SigningMethod) (claims : Doc)
    (sig : String) (hH : L.CarriesDoc (jwt.NewWithClaims m claims).Header)
    (hC : L.CarriesDoc claims) (hs : '.' ∉ sig.data) :
    ∃ token, jwt.ParseUnverified L
        (strings.JoinDot ((jwt.NewWithClaims m claims).SigningString L) sig)
        = Except.ok (token, [L.EncodeSegment (L.Marshal (jwt.NewWithClaims m claims).Header),
            L.EncodeSegment (L.Marshal claims), sig]) ∧
      token.Method = m ∧ token.Valid = false ∧ ∀ k, Doc.get token.Claims k = Doc.get claims k := by
  obtain ⟨hdot, hd, hdec, hget⟩ := hH
  obtain ⟨cdot, cl, cdec, cget⟩ := hC
  have halg : Doc.getString hd "alg" = some m.Alg := by
    rw [getString_congr _ _ _ (hget "alg")]; exact header_alg m claims
  have hsplit := splitDot_join3 _ _ _ hdot cdot hs
  refine ⟨{ Raw := strings.JoinDot ((jwt.NewWithClaims m claims).SigningString L) sig, Method := m, Header := hd, Claims := cl, Signature := "", Valid := false },
    ?_, rfl, rfl, cget⟩
  have hclaims : (jwt.NewWithClaims m claims).Claims = claims := rfl
  simp only [jwt.ParseUnverified, jwt.Token.SigningString, hclaims, hsplit, hdec, cdec, halg,
    getSigningMethod_alg]

/-- What `jwt.Parse` returns for a token signed by the library under
`signKey`, when the key function hands out `key`. -/
theorem parse_signed (L : jwt.Lib) (h : jwt.Hash) (claims : Doc) (signKey key : String)
    (now : Int) (keyFunc : jwt.Token → Except jwt.Error String)
    (hH : L.CarriesDoc (jwt.NewWithClaims (jwt.SigningMethod.HMAC h) claims).Header)
    (hC : L.CarriesDoc claims)
    (hS : L.CarriesBytes (jwt.hmacSum L h signKey
      ((jwt.NewWithClaims (jwt.SigningMethod.HMAC h) claims).SigningString L)))
    (hk : ∀ token : jwt.Token, token.Method = jwt.SigningMethod.HMAC h →
      keyFunc token = Except.ok key) :
    ∃ token : jwt.Token, (∀ k, Doc.get token.Claims k = Doc.get claims k) ∧
      (jwt.Parse L now
        (strings.JoinDot ((jwt.NewWithClaims (jwt.SigningMethod.HMAC h) claims).SigningString L)
          (L.EncodeSegment (jwt.hmacSum L h signKey
            ((jwt.NewWithClaims (jwt.SigningMethod.HMAC h) claims).SigningString L))))
        keyFunc).result =
      if jwt.hmacSum L h signKey
            ((jwt.NewWithClaims (jwt.SigningMethod.HMAC h) claims).SigningString L)
          = jwt.hmacSum L h key
            ((jwt.NewWithClaims (jwt.SigningMethod.HMAC h) claims).SigningString L) then
        (if jwt.Valid claims now = 0 then Except.ok { token with Valid := true }
         else Except.error ⟨jwt.Valid claims now⟩)
      else Except.error (jwt.NewValidationError jwt.ValidationErrorSignatureInvalid) := by
  obtain ⟨sdot, sdec⟩ := hS
  obtain ⟨token, hparse, hm, _, hget⟩ :=
    parseUnverified_signed L (jwt.SigningMethod.HMAC h) claims _ hH hC sdot
  refine ⟨{ token with Signature := L.EncodeSegment (jwt.hmacSum L h signKey
      ((jwt.NewWithClaims (jwt.SigningMethod.HMAC h) claims).SigningString L)) }, hget, ?_⟩
  have hv := valid_congr claims token.Claims now hget
  have hjoin : strings.JoinDot
      (L.EncodeSegment (L.Marshal (jwt.NewWithClaims (jwt.SigningMethod.HMAC h) claims).Header))
      (L.EncodeSegment (L.Marshal claims))
      = (jwt.NewWithClaims (jwt.SigningMethod.HMAC h) claims).SigningString L := rfl
  simp only [jwt.Parse, hparse, hk token hm, hm, jwt.SigningMethod.Verify, List.getD_cons_zero,
    List.getD_cons_succ, sdec, hv, hjoin]
  generalize (jwt.NewWithClaims (jwt.SigningMethod.HMAC h) claims).SigningString L = sstr
  by_cases hmac : jwt.hmacSum L h signKey sstr = jwt.hmacSum L h key sstr
  · by_cases hval : jwt.Valid claims now = 0
    · simp [hmac, hval, hm]
    · simp [hmac, hval]
  · simp [hmac]

theorem claims_get_exp (t : Int) (userID role sellerID : String) :
    Doc.get (utils.GenerateJWT.claims t userID role sellerID) "exp"
      = some (Value.num (t + utils.tokenExpiry)) := by
  by_cases hs : sellerID = "" <;> simp [utils.GenerateJWT.claims, hs, Doc.get, Doc.set]

theorem claims_get_iat (t : Int) (userID role sellerID : String) :
    Doc.get (utils.GenerateJWT.claims t userID role sellerID) "iat" = none := by
  by_cases hs : sellerID = "" <;> simp [utils.GenerateJWT.claims, hs, Doc.get, Doc.set]

theorem claims_get_nbf (t : Int) (userID role sellerID : String) :
    Doc.get (utils.GenerateJWT.claims t userID role sellerID) "nbf" = none := by
  by_cases hs : sellerID = "" <;> simp [utils.GenerateJWT.claims, hs, Doc.get, Doc.set]

theorem claims_get_user_id (t : Int) (userID role sellerID : String) :
    Doc.get (utils.GenerateJWT.claims t userID role sellerID) "user_id"
      = some (Value.str userID) := by
  by_cases hs : sellerID = "" <;> simp [utils.GenerateJWT.claims, hs, Doc.get, Doc.set]

theorem claims_get_role (t : Int) (userID role sellerID : String) :
    Doc.get (utils.GenerateJWT.claims t userID role sellerID) "role"
      = some (Value.str role) := by
  by_cases hs : sellerID = "" <;> simp [utils.GenerateJWT.claims, hs, Doc.get, Doc.set]

theorem claims_get_seller_id (t : Int) (userID role sellerID : String) (hs : sellerID ≠ "") :
    Doc.get (utils.GenerateJWT.claims t userID role sellerID) "seller_id"
      = some (Value.str sellerID) := by
  simp [utils.GenerateJWT.claims, hs, Doc.get, Doc.set]

theorem claims_valid (t now : Int) (userID role sellerID : String)
    (hnow : now < t + utils.tokenExpiry) :
    jwt.Valid (utils.GenerateJWT.claims t userID role sellerID) now = 0 := by
  simp [jwt.Valid, jwt.VerifyExpiresAt, jwt.VerifyIssuedAt, jwt.VerifyNotBefore,
    claims_get_exp, claims_get_iat, claims_get_nbf, hnow]

/-- C1. Round trip: the token that `GenerateJWT` issues at time `t` for
`userID`, `role` and `sellerID` is accepted by `ValidateJWT` under the same
secret at every time before `t + 24h`, and the claims returned bind `user_id`
to `userID`, `role` to `role`, and `seller_id` to `sellerID` when that is not
empty.  The segment codec is assumed to carry the header, the claims and the
MAC of this token. -/
theorem GenerateJWT_ValidateJWT_roundtrip (L : jwt.Lib) (jwtSecret : String) (t now : Int)
    (userID role sellerID : String)
    (hH : L.CarriesDoc (jwt.NewWithClaims jwt.SigningMethodHS256
      (utils.GenerateJWT.claims t userID role sellerID)).Header)
    (hC : L.CarriesDoc (utils.GenerateJWT.claims t userID role sellerID))
    (hS : L.CarriesBytes (jwt.hmacSum L jwt.Hash.SHA256 jwtSecret
      ((jwt.NewWithClaims jwt.SigningMethodHS256
        (utils.GenerateJWT.claims t userID role sellerID)).SigningString L)))
    (hnow : now < t + utils.tokenExpiry) :
    ∃ tokenString claims,
      utils.GenerateJWT L jwtSecret t userID role sellerID = Except.ok tokenString ∧
      utils.ValidateJWT L jwtSecret now tokenString = Except.ok claims ∧
      claims.getString "user_id" = some userID ∧
      claims.getString "role" = some role ∧
      (sellerID ≠ "" → claims.getString "seller_id" = some sellerID) := by
  obtain ⟨token, hget, hparse⟩ := parse_signed L jwt.Hash.SHA256
    (utils.GenerateJWT.claims t userID role sellerID) jwtSecret jwtSecret now
    (utils.validateKeyFunc jwtSecret) hH hC hS
    (by intro token hm; simp [utils.validateKeyFunc, hm, jwt.SigningMethod.isHMAC])
  refine ⟨_, token.Claims, rfl, ?_, ?_, ?_, ?_⟩
  · simp only [if_true, claims_valid t now userID role sellerID hnow] at hparse
    simp [utils.ValidateJWT, utils.ValidateJWT.parse, jwt.SigningMethodHS256, hparse]
  · simp [Doc.getString, hget, claims_get_user_id]
  · simp [Doc.getString, hget, claims_get_role]
  · intro hs
    simp [Doc.getString, hget, claims_get_seller_id _ _ _ _ hs]

/-- C1, at the example of the specification: the seller token issued at
second 1000 is accepted at second 2000. -/
theorem GenerateJWT_ValidateJWT_roundtrip_witness :
    ∃ tokenString claims,
      utils.GenerateJWT hexLib "k" 1000 "507f1f77bcf86cd799439011" "seller"
        "507f1f77bcf86cd799439011" = Except.ok tokenString ∧
      utils.ValidateJWT hexLib "k" 2000 tokenString = Except.ok claims ∧
      claims.getString "user_id" = some "507f1f77bcf86cd799439011" ∧
      claims.getString "role" = some "seller" ∧
      ("507f1f77bcf86cd799439011" ≠ "" →
        claims.getString "seller_id" = some "507f1f77bcf86cd799439011") :=
  GenerateJWT_ValidateJWT_roundtrip hexLib "k" 1000 2000 "507f1f77bcf86cd799439011" "seller"
    "507f1f77bcf86cd799439011"
    ⟨by decide, _, by rfl, fun _ => rfl⟩ ⟨by decide, _, by rfl, fun _ => rfl⟩
    ⟨by decide, by rfl⟩ (by decide)

/-! ## C2: expired tokens -/

theorem verify_true_isHMAC (L : jwt.Lib) (m : jwt.SigningMethod) (s sig key : String)
    (h : m.Verify L s sig key = true) : m.isHMAC = true := by
  cases m <;> simp_all [jwt.SigningMethod.Verify, jwt.SigningMethod.isHMAC]

theorem valid_expired_flag (claims : Doc) (now : Int)
    (h : jwt.VerifyExpiresAt claims now = false) :
    jwt.Valid claims now ≠ 0 ∧ jwt.Valid claims now &&& jwt.ValidationErrorExpired ≠ 0 := by
  unfold jwt.Valid
  rw [h]
  cases jwt.VerifyIssuedAt claims now <;> cases jwt.VerifyNotBefore claims now <;> decide

/-- C2, as amended. A token whose signature verifies under the configured
secret and whose `exp` claim is a number other than zero and earlier than the
current time is refused by `ValidateJWT`: the result is a validation error
with the `Expired` flag, and no claims. -/
theorem ValidateJWT_expired (L : jwt.Lib) (jwtSecret : String) (now : Int)
    (tokenString : String) (claims : Doc) (exp : Int)
    (hsig : jwt.signatureValid L jwtSecret tokenString = true)
    (hclaims : jwt.claimsOf L tokenString = some claims)
    (hexp : Doc.get claims "exp" = some (Value.num exp))
    (hne : exp ≠ 0) (hpast : exp < now) :
    ∃ ve, utils.ValidateJWT L jwtSecret now tokenString
        = Except.error (jwt.Error.validation ve) ∧
      ve.Errors &&& jwt.ValidationErrorExpired ≠ 0 := by
  unfold jwt.signatureValid at hsig
  unfold jwt.claimsOf jwt.unverified at hclaims
  cases hp : jwt.ParseUnverified L tokenString with
  | error e => simp [hp] at hsig
  | ok r =>
    obtain ⟨token, parts⟩ := r
    simp only [hp] at hsig
    simp only [hp, Option.map_some', Option.some.injEq] at hclaims
    have hm := verify_true_isHMAC L _ _ _ _ hsig
    have hve : jwt.VerifyExpiresAt token.Claims now = false := by
      have : ¬ now < exp := not_lt.mpr (le_of_lt hpast)
      simp [jwt.VerifyExpiresAt, hclaims, hexp, hne, this]
    obtain ⟨hv0, hvf⟩ := valid_expired_flag token.Claims now hve
    refine ⟨⟨jwt.Valid token.Claims now⟩, ?_, hvf⟩
    simp only [utils.ValidateJWT, utils.ValidateJWT.parse, jwt.Parse, hp, utils.validateKeyFunc,
      hm, hsig, hv0, if_true, if_false]

/-- C2 as amended, at a concrete input: the token issued at second 1000
(`exp` 87400) is refused at second 90000 with the `Expired` flag. -/
theorem ValidateJWT_expired_witness :
    ∃ ve, utils.ValidateJWT hexLib "k" 90000 demo.sellerToken
        = Except.error (jwt.Error.validation ve) ∧
      ve.Errors &&& jwt.ValidationErrorExpired ≠ 0 :=
  ValidateJWT_expired hexLib "k" 90000 demo.sellerToken demo.sellerClaims 87400
    (by rfl) (by rfl) (by rfl) (by decide) (by decide)

/-- C2 as stated fails: a correctly signed token whose `exp` claim is 0 (the
first second of 1970, earlier than any current time) is accepted, because the
library reads a zero `exp` as no expiry. -/
theorem ValidateJWT_zero_exp_accepted :
    (jwt.NewWithClaims jwt.SigningMethodHS256
        [("user_id", Value.str "507f1f77bcf86cd799439011"), ("role", Value.str "seller"),
         ("exp", Value.num 0)]).SignedString hexLib "k"
      = Except.ok demo.zeroExpToken ∧
    jwt.signatureValid hexLib "k" demo.zeroExpToken = true ∧
    (0 : Int) < 1700000000 ∧
    utils.ValidateJWT hexLib "k" 1700000000 demo.zeroExpToken
      = Except.ok
        [("user_id", Value.str "507f1f77bcf86cd799439011"), ("role", Value.str "seller"),
         ("exp", Value.num 0)] :=
  ⟨by rfl, by rfl, by decide, by rfl⟩

/-! ## C3: tokens signed under another secret -/

/-- C3, as amended. A token signed by the library under a secret whose MAC of
the signing input differs from the MAC under the configured secret is refused
by `ValidateJWT` with the `SignatureInvalid` flag and no claims, whatever its
claims are. -/
theorem ValidateJWT_other_secret (L : jwt.Lib) (jwtSecret other : String) (now : Int)
    (h : jwt.Hash) (claims : Doc) (tokenString : String)
    (hsigned : (jwt.NewWithClaims (jwt.SigningMethod.HMAC h) claims).SignedString L other
      = Except.ok tokenString)
    (hH : L.CarriesDoc (jwt.NewWithClaims (jwt.SigningMethod.HMAC h) claims).Header)
    (hC : L.CarriesDoc claims)
    (hS : L.CarriesBytes (jwt.hmacSum L h other
      ((jwt.NewWithClaims (jwt.SigningMethod.HMAC h) claims).SigningString L)))
    (hmac : jwt.hmacSum L h other
        ((jwt.NewWithClaims (jwt.SigningMethod.HMAC h) claims).SigningString L)
      ≠ jwt.hmacSum L h jwtSecret
        ((jwt.NewWithClaims (jwt.SigningMethod.HMAC h) claims).SigningString L)) :
    ∃ ve, utils.ValidateJWT L jwtSecret now tokenString
        = Except.error (jwt.Error.validation ve) ∧
      ve.Errors &&& jwt.ValidationErrorSignatureInvalid ≠ 0 := by
  obtain ⟨token, _, hparse⟩ := parse_signed L h claims other jwtSecret now
    (utils.validateKeyFunc jwtSecret) hH hC hS
    (by intro token hm; simp [utils.validateKeyFunc, hm, jwt.SigningMethod.isHMAC])
  have htok : tokenString = strings.JoinDot
      ((jwt.NewWithClaims (jwt.SigningMethod.HMAC h) claims).SigningString L)
      (L.EncodeSegment (jwt.hmacSum L h other
        ((jwt.NewWithClaims (jwt.SigningMethod.HMAC h) claims).SigningString L))) := by
    simp only [jwt.Token.SignedString, jwt.SigningMethod.Sign] at hsigned
    exact (Except.ok.inj hsigned).symm
  subst htok
  rw [if_neg hmac] at hparse
  refine ⟨jwt.NewValidationError jwt.ValidationErrorSignatureInvalid, ?_, by decide⟩
  simp only [utils.ValidateJWT, utils.ValidateJWT.parse, hparse]

/-- C3 as amended, at a concrete input: the token signed under `k2` is
refused under the configured secret `k`. -/
theorem ValidateJWT_other_secret_witness :
    ∃ ve, utils.ValidateJWT hexLib "k" 2000 demo.foreignToken
        = Except.error (jwt.Error.validation ve) ∧
      ve.Errors &&& jwt.ValidationErrorSignatureInvalid ≠ 0 :=
  ValidateJWT_other_secret hexLib "k" "k2" 2000 jwt.Hash.SHA256 demo.sellerClaims
    demo.foreignToken (by rfl)
    ⟨by decide, _, by rfl, fun _ => rfl⟩ ⟨by decide, _, by rfl, fun _ => rfl⟩
    ⟨by decide, by rfl⟩ (by decide)

/-- C3 as stated fails: the secret `k` followed by a zero byte differs from
the configured secret `k`, and the token `GenerateJWT` signs with it is
accepted by `ValidateJWT` under `k`.  HMAC pads a short key with zero bytes,
so the two keys give one MAC. -/
theorem ValidateJWT_zero_padded_secret_accepted :
    "k\x00" ≠ "k" ∧
    utils.GenerateJWT hexLib "k\x00" 1000 "507f1f77bcf86cd799439011" "seller" ""
      = Except.ok demo.sellerToken ∧
    utils.ValidateJWT hexLib "k" 2000 demo.sellerToken = Except.ok demo.sellerClaims :=
  ⟨by decide, by rfl, by rfl⟩

theorem keyBlock_zero_padded (L : jwt.Lib) (h : jwt.Hash) (key : String)
    (hlen : key.data.length < h.BlockSize) :
    jwt.keyBlock L h (key ++ "\x00") = jwt.keyBlock L h key := by
  have h3 : ("\x00" : String).data = [Char.ofNat 0] := by decide
  have h0 : (key ++ "\x00").data = key.data ++ [Char.ofNat 0] := by
    rw [String.data_append, h3]
  have hl : (key ++ "\x00").data.length = key.data.length + 1 := by
    rw [h0, List.length_append, List.length_singleton]
  have h1 : ¬ (key ++ "\x00").data.length > h.BlockSize := by omega
  have h2 : ¬ key.data.length > h.BlockSize := by omega
  have h4 : h.BlockSize - key.data.length = (h.BlockSize - (key.data.length + 1)) + 1 := by omega
  unfold jwt.keyBlock
  simp only [if_neg h1, if_neg h2]
  rw [hl, h0, h4, List.replicate_succ, List.append_assoc]
  rfl

/-- Whatever the digest is, a key shorter than the block and the same key
followed by a zero byte have the same HMAC on every message. -/
theorem hmacSum_zero_padded (L : jwt.Lib) (h : jwt.Hash) (key msg : String)
    (hlen : key.data.length < h.BlockSize) :
    jwt.hmacSum L h (key ++ "\x00") msg = jwt.hmacSum L h key msg := by
  simp only [jwt.hmacSum, jwt.hmacOuter, jwt.hmacInner, keyBlock_zero_padded L h key hlen]

/-! ## C4: a changed claims segment -/

theorem splitChars_length (sep : Char) (l : List Char) :
    (strings.splitChars sep l).length = l.count sep + 1 := by
  induction l with
  | nil => rfl
  | cons c cs ih =>
    by_cases hc : c = sep
    · subst hc
      simp [strings.splitChars, ih]
    · have hc' : (c == sep) = false := by simpa using hc
      cases hsp : strings.splitChars sep cs with
      | nil => simp [hsp] at ih
      | cons p ps =>
        rw [hsp] at ih
        simp only [strings.splitChars, hc, if_false, hsp, List.length_cons,
          List.count_cons, hc']
        simpa using ih

theorem parseUnverified_length (L : jwt.Lib) (tokenString : String)
    (h : (strings.SplitDot tokenString).length ≠ 3) :
    jwt.ParseUnverified L tokenString
      = Except.error (jwt.NewValidationError jwt.ValidationErrorMalformed) := by
  unfold jwt.ParseUnverified
  rcases hs : strings.SplitDot tokenString with _ | ⟨a, _ | ⟨b, _ | ⟨c, _ | ⟨d, r⟩⟩⟩⟩
  · rfl
  · rfl
  · rfl
  · rw [hs] at h; simp at h
  · rfl

theorem ValidateJWT_error_of_parse (L : jwt.Lib) (jwtSecret : String) (now : Int)
    (tokenString : String) (ve : jwt.ValidationError)
    (h : (utils.ValidateJWT.parse L jwtSecret now tokenString).result = Except.error ve) :
    utils.ValidateJWT L jwtSecret now tokenString = Except.error (jwt.Error.validation ve) := by
  simp only [utils.ValidateJWT, h]

theorem hmacSum_ne (L : jwt.Lib) (h : jwt.Hash) (key m1 m2 : String) (hne : m1 ≠ m2)
    (hcoll : L.MacNoCollision h key m1 m2) :
    jwt.hmacSum L h key m1 ≠ jwt.hmacSum L h key m2 := by
  obtain ⟨hin, hout⟩ := hcoll
  have h1 : jwt.hmacInner L h key m1 ≠ jwt.hmacInner L h key m2 := by
    intro e
    apply hne
    have := congrArg String.data e
    simp only [jwt.hmacInner, String.data_append, List.append_cancel_left_eq] at this
    exact String.ext this
  have h2 := hin h1
  have h3 : jwt.hmacOuter L h key m1 ≠ jwt.hmacOuter L h key m2 := by
    intro e
    apply h2
    have := congrArg String.data e
    simp only [jwt.hmacOuter, String.data_append, List.append_cancel_left_eq] at this
    exact String.ext this
  exact hout h3

theorem splitDot_join3_length (a b c : String) (hb : '.' ∈ b.data) :
    (strings.SplitDot (strings.JoinDot (strings.JoinDot a b) c)).length ≠ 3 := by
  have h1 : (strings.JoinDot (strings.JoinDot a b) c).data
      = a.data ++ '.' :: (b.data ++ '.' :: c.data) := by
    simp [strings.JoinDot, String.data_append]
  have hpos : 0 < b.data.count '.' := List.count_pos_iff.mpr hb
  simp only [strings.SplitDot, List.length_map, splitChars_length, h1, List.count_append,
    List.count_cons_self]
  omega

/-- C4. Take the token that `GenerateJWT` issues and replace its claims
segment by any other text, keeping the header and the signature segment: the
result is refused by `ValidateJWT`.  The segment codec is assumed to carry the
header, the claims and the MAC of the issued token, and the digest not to
collide on the inputs of the two MACs. -/
theorem ValidateJWT_tampered_claims (L : jwt.Lib) (jwtSecret : String) (t now : Int)
    (userID role sellerID tokenString seg : String)
    (hgen : utils.GenerateJWT L jwtSecret t userID role sellerID = Except.ok tokenString)
    (hH : L.CarriesDoc (jwt.NewWithClaims jwt.SigningMethodHS256
      (utils.GenerateJWT.claims t userID role sellerID)).Header)
    (hC : L.CarriesDoc (utils.GenerateJWT.claims t userID role sellerID))
    (hS : L.CarriesBytes (jwt.hmacSum L jwt.Hash.SHA256 jwtSecret
      ((jwt.NewWithClaims jwt.SigningMethodHS256
        (utils.GenerateJWT.claims t userID role sellerID)).SigningString L)))
    (hseg : seg ≠ jwt.claimsSegment tokenString)
    (hcoll : L.MacNoCollision jwt.Hash.SHA256 jwtSecret
      (strings.JoinDot (L.EncodeSegment (L.Marshal (jwt.NewWithClaims jwt.SigningMethodHS256
        (utils.GenerateJWT.claims t userID role sellerID)).Header)) seg)
      ((jwt.NewWithClaims jwt.SigningMethodHS256
        (utils.GenerateJWT.claims t userID role sellerID)).SigningString L)) :
    ∃ e, utils.ValidateJWT L jwtSecret now (jwt.withClaimsSegment tokenString seg)
      = Except.error e := by
  obtain ⟨hdot, hd, hdec, hget⟩ := hH
  obtain ⟨cdot, _, _, _⟩ := hC
  obtain ⟨sdot, sdec⟩ := hS
  generalize hclaims : utils.GenerateJWT.claims t userID role sellerID = claims at *
  have htok : tokenString = strings.JoinDot
      (strings.JoinDot (L.EncodeSegment (L.Marshal
          (jwt.NewWithClaims jwt.SigningMethodHS256 claims).Header))
        (L.EncodeSegment (L.Marshal claims)))
      (L.EncodeSegment (jwt.hmacSum L jwt.Hash.SHA256 jwtSecret
        ((jwt.NewWithClaims jwt.SigningMethodHS256 claims).SigningString L))) := by
    simp only [utils.GenerateJWT, hclaims] at hgen
    exact (Except.ok.inj hgen).symm
  have hsplit := splitDot_join3 _ _ _ hdot cdot sdot
  rw [← htok] at hsplit
  have hcs : jwt.claimsSegment tokenString = L.EncodeSegment (L.Marshal claims) := by
    simp [jwt.claimsSegment, hsplit]
  have hwith : jwt.withClaimsSegment tokenString seg = strings.JoinDot
      (strings.JoinDot (L.EncodeSegment (L.Marshal
          (jwt.NewWithClaims jwt.SigningMethodHS256 claims).Header)) seg)
      (L.EncodeSegment (jwt.hmacSum L jwt.Hash.SHA256 jwtSecret
        ((jwt.NewWithClaims jwt.SigningMethodHS256 claims).SigningString L))) := by
    simp [jwt.withClaimsSegment, hsplit]
  rw [hwith]
  by_cases hsd : '.' ∈ seg.data
  · refine ⟨_, ValidateJWT_error_of_parse L jwtSecret now _
      (jwt.NewValidationError jwt.ValidationErrorMalformed) ?_⟩
    simp only [utils.ValidateJWT.parse, jwt.Parse,
      parseUnverified_length L _ (splitDot_join3_length _ _ _ hsd)]
  · have hsplit' := splitDot_join3 _ seg _ hdot hsd sdot
    have halg : Doc.getString hd "alg" = some "HS256" := by
      rw [getString_congr _ _ _ (hget "alg")]; rfl
    have hne : strings.JoinDot (L.EncodeSegment (L.Marshal
          (jwt.NewWithClaims jwt.SigningMethodHS256 claims).Header)) seg
        ≠ (jwt.NewWithClaims jwt.SigningMethodHS256 claims).SigningString L := by
      intro e
      apply hseg
      rw [hcs]
      have := congrArg String.data e
      simp only [jwt.Token.SigningString, strings.JoinDot, String.data_append,
        List.append_cancel_left_eq] at this
      exact String.ext this
    have hmac := hmacSum_ne L _ jwtSecret _ _ hne hcoll
    cases hcl : (L.DecodeSegment seg).bind L.Unmarshal with
    | none =>
      refine ⟨_, ValidateJWT_error_of_parse L jwtSecret now _
        (jwt.NewValidationError jwt.ValidationErrorMalformed) ?_⟩
      simp only [utils.ValidateJWT.parse, jwt.Parse, jwt.ParseUnverified, hsplit', hdec, hcl]
    | some cl =>
      refine ⟨_, ValidateJWT_error_of_parse L jwtSecret now _
        (jwt.NewValidationError jwt.ValidationErrorSignatureInvalid) ?_⟩
      have hg : jwt.GetSigningMethod "HS256" = some (jwt.SigningMethod.HMAC jwt.Hash.SHA256) := rfl
      simp only [utils.ValidateJWT.parse, jwt.Parse, jwt.ParseUnverified, hsplit', hdec, hcl,
        halg, hg, utils.validateKeyFunc, jwt.SigningMethod.isHMAC, if_true,
        jwt.SigningMethod.Verify, List.getD_cons_zero, List.getD_cons_succ, sdec]
      simp [Ne.symm hmac]

/-- C4 at a concrete input: the seller token with its claims segment replaced
by the segment of the same claims with role `admin` is refused. -/
theorem ValidateJWT_tampered_claims_witness :
    ∃ e, utils.ValidateJWT hexLib "k" 2000
        (jwt.withClaimsSegment demo.sellerToken demo.adminSegment)
      = Except.error e :=
  ValidateJWT_tampered_claims hexLib "k" 1000 2000 "507f1f77bcf86cd799439011" "seller" ""
    demo.sellerToken demo.adminSegment
    (by rfl) ⟨by decide, _, by rfl, fun _ => rfl⟩ ⟨by decide, _, by rfl, fun _ => rfl⟩
    ⟨by decide, by rfl⟩ (by decide) ⟨fun _ => by decide, fun _ => by decide⟩

/-! ## C5: signing methods outside the HMAC family -/

theorem isHMAC_false_of_ne (m : jwt.SigningMethod)
    (h : ∀ x, m ≠ jwt.SigningMethod.HMAC x) : m.isHMAC = false := by
  cases m with
  | HMAC x => exact absurd rfl (h x)
  | _ => rfl

theorem parse_non_HMAC (L : jwt.Lib) (now : Int) (tokenString alg : String)
    (keyFunc : jwt.Token → Except jwt.Error String)
    (halg : jwt.headerAlg L tokenString = some alg)
    (hn : ∀ h, jwt.GetSigningMethod alg ≠ some (jwt.SigningMethod.HMAC h))
    (hk : ∀ token : jwt.Token, token.Method.isHMAC = false → ∃ e, keyFunc token = Except.error e) :
    (jwt.Parse L now tokenString keyFunc).verifyKey = none ∧
    ∃ ve, (jwt.Parse L now tokenString keyFunc).result = Except.error ve := by
  unfold jwt.Parse jwt.ParseUnverified
  unfold jwt.headerAlg at halg
  rcases hs : strings.SplitDot tokenString with _ | ⟨p0, _ | ⟨p1, _ | ⟨p2, _ | ⟨p3, r⟩⟩⟩⟩
  · exact ⟨rfl, _, rfl⟩
  · exact ⟨rfl, _, rfl⟩
  · exact ⟨rfl, _, rfl⟩
  · rw [hs] at halg
    simp only at halg
    cases hh : (L.DecodeSegment p0).bind L.Unmarshal with
    | none => rw [hh] at halg; simp at halg
    | some hd =>
      rw [hh] at halg
      simp only [Option.some_bind] at halg
      cases hc : (L.DecodeSegment p1).bind L.Unmarshal with
      | none =>
        simp only [hh, hc]
        exact ⟨trivial, _, rfl⟩
      | some cl =>
        cases hg : jwt.GetSigningMethod alg with
        | none =>
          simp only [hh, hc, halg, hg]
          exact ⟨trivial, _, rfl⟩
        | some m =>
          have hm : m.isHMAC = false :=
            isHMAC_false_of_ne m (fun x e => hn x (by rw [hg, e]))
          obtain ⟨e, he⟩ := hk ⟨tokenString, m, hd, cl, "", false⟩ hm
          simp only [hh, hc, halg, hg, he]
          cases e with
          | validation ve => exact ⟨rfl, _, rfl⟩
          | text msg => exact ⟨rfl, _, rfl⟩
  · exact ⟨rfl, _, rfl⟩

/-- C5. A token whose header names a signing method that is not one of the
HMAC methods is refused by `ValidateJWT` and by `ParseToken`, and neither
hands a key to the verification step (`Method.Verify` is not called), whatever
the signature and the claims of the token are. -/
theorem non_HMAC_method_refused (L : jwt.Lib) (jwtSecret : String) (now : Int)
    (tokenString alg : String)
    (halg : jwt.headerAlg L tokenString = some alg)
    (hn : ∀ h, jwt.GetSigningMethod alg ≠ some (jwt.SigningMethod.HMAC h)) :
    (utils.ValidateJWT.parse L jwtSecret now tokenString).verifyKey = none ∧
    (∃ e, utils.ValidateJWT L jwtSecret now tokenString = Except.error e) ∧
    (utils.ParseToken.parse L jwtSecret now tokenString).verifyKey = none ∧
    (∃ e, utils.ParseToken L jwtSecret now tokenString = Except.error e) := by
  obtain ⟨hv1, ve1, hr1⟩ := parse_non_HMAC L now tokenString alg (utils.validateKeyFunc jwtSecret)
    halg hn (by intro token hm; simp [utils.validateKeyFunc, hm])
  obtain ⟨hv2, ve2, hr2⟩ := parse_non_HMAC L now tokenString alg (utils.parseKeyFunc jwtSecret)
    halg hn (by intro token hm; simp [utils.parseKeyFunc, hm])
  refine ⟨hv1, ⟨_, ValidateJWT_error_of_parse L jwtSecret now _ ve1 hr1⟩, hv2, ?_⟩
  refine ⟨jwt.Error.validation ve2, ?_⟩
  simp only [utils.ParseToken]
  rw [show utils.ParseToken.parse L jwtSecret now tokenString
    = jwt.Parse L now tokenString (utils.parseKeyFunc jwtSecret) from rfl, hr2]

/-- C5 at concrete inputs: a token whose header names `RS256`, with the
claims and the signature segment of a token that `GenerateJWT` issued. -/
theorem non_HMAC_method_refused_witness :
    (utils.ValidateJWT.parse hexLib "k" 2000 demo.rs256Token).verifyKey = none ∧
    (∃ e, utils.ValidateJWT hexLib "k" 2000 demo.rs256Token = Except.error e) ∧
    (utils.ParseToken.parse hexLib "k" 2000 demo.rs256Token).verifyKey = none ∧
    (∃ e, utils.ParseToken hexLib "k" 2000 demo.rs256Token = Except.error e) :=
  non_HMAC_method_refused hexLib "k" 2000 demo.rs256Token "RS256" (by rfl) (by intro h; cases h <;> decide)

/-! ## C6: the guard refuses before the store is touched -/

open handler fiber mongo

/-- C6. A request without an `Authorization` header (the empty value) is
answered 401 by `GetUserProfile`, `EditProfile`, `UpdateProductForSeller` and
`DeleteProductForSeller`, none of which calls the store (the store and the log
of driver calls are left as they were), and `GetUserIDFromToken` returns the
nil identifier with an error. -/
theorem missing_header_unauthorized (E : Env) (c : Ctx) (body : Option EditProfileBody)
    (form : Except String Form) (w : World) (h : c.Authorization = "") :
    ((GetUserProfile E c w).1.status = some 401 ∧ (GetUserProfile E c w).2 = w) ∧
    ((EditProfile E c body w).1.status = some 401 ∧ (EditProfile E c body w).2 = w) ∧
    ((UpdateProductForSeller E c form w).1.status = some 401 ∧
      (UpdateProductForSeller E c form w).2 = w) ∧
    ((DeleteProductForSeller E c w).1.status = some 401 ∧
      (DeleteProductForSeller E c w).2 = w) ∧
    utils.GetUserIDFromToken E.L E.now c.Authorization
      = (primitive.NilObjectID, some (jwt.Error.text "authorization header missing")) := by
  simp [GetUserProfile, EditProfile, UpdateProductForSeller, DeleteProductForSeller,
    utils.GetUserIDFromToken, h, reply, Outcome.status, StatusUnauthorized]

/-- C6 at a concrete input: a request without the header, on the demo store. -/
theorem missing_header_unauthorized_witness :
    ((GetUserProfile demo.env (demo.request "") demo.world).1.status = some 401 ∧
      (GetUserProfile demo.env (demo.request "") demo.world).2 = demo.world) ∧
    ((EditProfile demo.env (demo.request "") (some ⟨"budi"⟩) demo.world).1.status
        = some 401 ∧
      (EditProfile demo.env (demo.request "") (some ⟨"budi"⟩) demo.world).2
        = demo.world) ∧
    ((UpdateProductForSeller demo.env (demo.request "") (Except.ok ⟨[], []⟩)
          demo.world).1.status = some 401 ∧
      (UpdateProductForSeller demo.env (demo.request "") (Except.ok ⟨[], []⟩)
          demo.world).2 = demo.world) ∧
    ((DeleteProductForSeller demo.env (demo.request "") demo.world).1.status
        = some 401 ∧
      (DeleteProductForSeller demo.env (demo.request "") demo.world).2
        = demo.world) ∧
    utils.GetUserIDFromToken demo.env.L demo.env.now
        (demo.request "").Authorization
      = (primitive.NilObjectID, some (jwt.Error.text "authorization header missing")) :=
  missing_header_unauthorized demo.env (demo.request "") (some ⟨"budi"⟩)
    (Except.ok ⟨[], []⟩) demo.world rfl

/-! ## C7: a refused bearer token -/

/-- When the string that a guarded handler hands to `ValidateJWT` is refused,
the handler answers 401 and does not call the store.  `GetUserProfile` and
`EditProfile` hand over the header without a leading `Bearer `;
`UpdateProductForSeller` and `DeleteProductForSeller` hand over the header
from its eighth byte on. -/
theorem handed_token_refused_unauthorized (E : Env) (c : Ctx) (body : Option EditProfileBody)
    (form : Except String Form) (w : World) (hne : c.Authorization ≠ "") :
    ((∃ e, utils.ValidateJWT E.L E.jwtSecret E.now
          (strings.TrimPrefix c.Authorization "Bearer ") = Except.error e) →
      ((GetUserProfile E c w).1.status = some 401 ∧ (GetUserProfile E c w).2 = w) ∧
      ((EditProfile E c body w).1.status = some 401 ∧ (EditProfile E c body w).2 = w)) ∧
    (∀ bearer, strings.sliceFrom c.Authorization 7 = some bearer →
      (∃ e, utils.ValidateJWT E.L E.jwtSecret E.now bearer = Except.error e) →
      ((UpdateProductForSeller E c form w).1.status = some 401 ∧
        (UpdateProductForSeller E c form w).2 = w) ∧
      ((DeleteProductForSeller E c w).1.status = some 401 ∧
        (DeleteProductForSeller E c w).2 = w)) := by
  constructor
  · rintro ⟨e, he⟩
    refine ⟨by simp [GetUserProfile, hne, he, reply, Outcome.status, StatusUnauthorized], ?_⟩
    by_cases ht : strings.TrimPrefix c.Authorization "Bearer " = ""
    · simp [EditProfile, hne, ht, reply, Outcome.status, StatusUnauthorized]
    · simp [EditProfile, hne, ht, he, reply, Outcome.status, StatusUnauthorized]
  · rintro bearer hb ⟨e, he⟩
    simp [UpdateProductForSeller, DeleteProductForSeller, hne, hb, he, reply, Outcome.status,
      StatusUnauthorized]

/-- C7 fails on `UpdateProductForSeller` and `DeleteProductForSeller`, which
hand `ValidateJWT` the header without its first seven bytes, whatever these
are.  The header `1234567<token>`, with the token of the owner of the product,
has no `Bearer ` prefix: its bearer token is the header itself, `ValidateJWT`
refuses it, and `GetUserProfile` answers 401 without a store call.
`DeleteProductForSeller` answers it 200 and deletes the product,
`UpdateProductForSeller` answers it 200 and renames the product.  On the
header `abc`, which `ValidateJWT` refuses as well, both handlers end in a
run-time panic. -/
theorem refused_bearer_token_reaches_store :
    utils.GenerateJWT hexLib "k" 1000 "0000000000000000000000aa" "seller" ""
      = Except.ok demo.ownerToken ∧
    strings.TrimPrefix ("1234567" ++ demo.ownerToken) "Bearer "
      = "1234567" ++ demo.ownerToken ∧
    utils.ValidateJWT hexLib "k" 2000 ("1234567" ++ demo.ownerToken)
      = Except.error (jwt.Error.validation ⟨jwt.ValidationErrorMalformed⟩) ∧
    (GetUserProfile demo.env (demo.request ("1234567" ++ demo.ownerToken))
      demo.world).1.status = some 401 ∧
    (GetUserProfile demo.env (demo.request ("1234567" ++ demo.ownerToken))
      demo.world).2.log = [] ∧
    (DeleteProductForSeller demo.env (demo.request ("1234567" ++ demo.ownerToken))
      demo.world).1.status = some 200 ∧
    (DeleteProductForSeller demo.env (demo.request ("1234567" ++ demo.ownerToken))
      demo.world).2.db.products = [] ∧
    (UpdateProductForSeller demo.env (demo.request ("1234567" ++ demo.ownerToken))
      (Except.ok ⟨[("name", ["desk"])], []⟩) demo.world).1.status = some 200 ∧
    (UpdateProductForSeller demo.env (demo.request ("1234567" ++ demo.ownerToken))
      (Except.ok ⟨[("name", ["desk"])], []⟩) demo.world).2.db.products
      = [[("_id", Value.oid demo.productID), ("seller_id", Value.oid demo.otherID),
          ("name", Value.str "desk"), ("price", Value.num 10)]] ∧
    utils.ValidateJWT hexLib "k" 2000 "abc"
      = Except.error (jwt.Error.validation ⟨jwt.ValidationErrorMalformed⟩) ∧
    (DeleteProductForSeller demo.env (demo.request "abc") demo.world).1 = Outcome.panic ∧
    (UpdateProductForSeller demo.env (demo.request "abc") (Except.ok ⟨[], []⟩) demo.world).1
      = Outcome.panic :=
  ⟨by rfl, by rfl, by rfl, by rfl, by rfl, by rfl, by rfl, by rfl, by rfl, by rfl, by rfl,
   by rfl⟩

/-! ## C8: the `Bearer ` prefix -/

/-- C8 fails on `UpdateProductForSeller` and `DeleteProductForSeller`, which
cut seven bytes off the header without looking at them.  On the header `abc`
(shorter than the prefix) both end in a run-time panic; on a header that is
a valid token without the prefix, `GetUserProfile` passes the token on
unchanged and answers 200, while the product handlers pass on the token
without its first seven bytes and answer 401. -/
theorem product_handlers_cut_header_unchecked :
    (UpdateProductForSeller demo.env (demo.request "abc") (Except.ok ⟨[], []⟩) demo.world).1
      = Outcome.panic ∧
    (DeleteProductForSeller demo.env (demo.request "abc") demo.world).1 = Outcome.panic ∧
    strings.TrimPrefix "abc" "Bearer " = "abc" ∧
    strings.TrimPrefix demo.sellerToken "Bearer " = demo.sellerToken ∧
    (GetUserProfile demo.env (demo.request demo.sellerToken) demo.world).1.status = some 200 ∧
    strings.sliceFrom demo.sellerToken 7 = some
      "d734a57543b616c673d7348533235363b.757365725f69643d733530376631663737626366383663643739393433393031313b726f6c653d7373656c6c65723b6578703d6e38373430303b.07b86ebd" ∧
    (UpdateProductForSeller demo.env (demo.request demo.sellerToken) (Except.ok ⟨[], []⟩)
      demo.world).1.status = some 401 ∧
    (DeleteProductForSeller demo.env (demo.request demo.sellerToken) demo.world).1.status
      = some 401 :=
  ⟨by rfl, by rfl, by rfl, by rfl, by rfl, by rfl, by rfl, by rfl⟩

/-! ## C9: products of another seller -/

theorem beq_oid (a b : ObjectID) : Value.beq (Value.oid a) (Value.oid b) = (a == b) := by
  simp [Value.beq]

theorem owner_filter_no_match (objectID sellerID : ObjectID) (p : Doc)
    (h : ∃ i s, Doc.get p "_id" = some (Value.oid i) ∧
      Doc.get p "seller_id" = some (Value.oid s) ∧ (i = objectID → s ≠ sellerID)) :
    Filter.matches [("_id", Cond.eq (Value.oid objectID)),
      ("seller_id", Cond.eq (Value.oid sellerID))] p = false := by
  obtain ⟨i, s, hi, hs, hne⟩ := h
  by_cases hio : i = objectID
  · have := hne hio
    simp [Filter.matches, Cond.holds, eqHolds, hi, hs, beq_oid, this]
  · simp [Filter.matches, Cond.holds, eqHolds, hi, hs, beq_oid, hio]

theorem find_none_of_no_match (f : Filter) (docs : List Doc)
    (h : ∀ p ∈ docs, Filter.matches f p = false) : docs.find? (Filter.matches f) = none := by
  rw [List.find?_eq_none]
  intro p hp
  simp [h p hp]

theorem bearer_ne_empty (s : String) : "Bearer " ++ s ≠ "" := by
  intro e
  have h := congrArg String.length e
  simp [String.length_append] at h
  have : "Bearer ".length = 7 := by decide
  omega

theorem sliceFrom_bearer (s : String) : strings.sliceFrom ("Bearer " ++ s) 7 = some s := by
  have h1 : ("Bearer " ++ s).data = "Bearer ".data ++ s.data := String.data_append _ _
  have h7 : "Bearer ".data.length = 7 := by decide
  have hle : 7 ≤ ("Bearer " ++ s).data.length := by
    rw [h1, List.length_append, h7]; omega
  unfold strings.sliceFrom
  rw [if_pos hle, h1, ← h7, List.drop_left]

/-- C9, as amended. Take a request whose header is `Bearer ` followed by a
token that `ValidateJWT` accepts, whose `user_id` and `id` parameter are
well-formed identifiers, and a store in which no product has both the `_id`
that `id` names and the `user_id` as its `seller_id`.  Then
`UpdateProductForSeller` answers 403, leaves the store as it was and issues
no update, only the lookup; and when the store is reachable
`DeleteProductForSeller` answers 403 and leaves the store as it was: the
delete removes nothing (deleted count 0). -/
theorem non_owner_forbidden (E : Env) (c : Ctx) (form : Except String Form) (w : World)
    (token userID : String) (claims : Doc) (sellerID objectID : ObjectID)
    (hb : c.Authorization = "Bearer " ++ token)
    (hv : utils.ValidateJWT E.L E.jwtSecret E.now token = Except.ok claims)
    (hu : claims.getString "user_id" = some userID)
    (hs : primitive.ObjectIDFromHex userID = some sellerID)
    (hid : primitive.ObjectIDFromHex c.id = some objectID)
    (hprod : ∀ p ∈ w.db.products,
      Filter.matches [("_id", Cond.eq (Value.oid objectID)),
        ("seller_id", Cond.eq (Value.oid sellerID))] p = false) :
    (w.db.down = none →
      (DeleteProductForSeller E c w).1.status = some 403 ∧
      (DeleteProductForSeller E c w).2.db = w.db ∧
      (DeleteOne w Coll.products [("_id", Cond.eq (Value.oid objectID)),
        ("seller_id", Cond.eq (Value.oid sellerID))]).1 = Except.ok 0 ∧
      (DeleteProductForSeller E c w).2.log = w.log ++
        [StoreOp.DeleteOne Coll.products [("_id", Cond.eq (Value.oid objectID)),
          ("seller_id", Cond.eq (Value.oid sellerID))]]) ∧
    ((UpdateProductForSeller E c form w).1.status = some 403 ∧
      (UpdateProductForSeller E c form w).2.db = w.db ∧
      (UpdateProductForSeller E c form w).2.log = w.log ++
        [StoreOp.FindOne Coll.products [("_id", Cond.eq (Value.oid objectID)),
          ("seller_id", Cond.eq (Value.oid sellerID))]]) := by
  have hne : c.Authorization ≠ "" := by rw [hb]; exact bearer_ne_empty token
  have hsl : strings.sliceFrom c.Authorization 7 = some token := by
    rw [hb]; exact sliceFrom_bearer token
  have hu0 : userID ≠ "" := by
    intro e
    rw [e] at hs
    have hnone : primitive.ObjectIDFromHex "" = none := by decide
    rw [hnone] at hs
    exact Option.noConfusion hs
  have hfind : (w.db.coll Coll.products).find?
      (Filter.matches [("_id", Cond.eq (Value.oid objectID)),
        ("seller_id", Cond.eq (Value.oid sellerID))]) = none :=
    find_none_of_no_match _ _ hprod
  refine ⟨?_, ?_⟩
  · intro hup
    simp [DeleteProductForSeller, DeleteOne, hne, hsl, hv, hu, hu0, hs, hid, hup, hfind, reply,
      Outcome.status, StatusForbidden]
  · cases hdown : w.db.down with
    | none =>
      simp [UpdateProductForSeller, FindOne, hne, hsl, hv, hu, hu0, hs, hid, hdown, hfind, reply,
        Outcome.status, StatusForbidden]
    | some msg =>
      simp [UpdateProductForSeller, FindOne, hne, hsl, hv, hu, hu0, hs, hid, hdown, reply,
        Outcome.status, StatusForbidden]

/-- C9 as amended, at a concrete input: the seller `507f1f77bcf86cd799439011`
asks for the product of another seller. -/
theorem non_owner_forbidden_witness :
    (demo.world.db.down = none →
      (DeleteProductForSeller demo.env (demo.request ("Bearer " ++ demo.sellerToken))
        demo.world).1.status = some 403 ∧
      (DeleteProductForSeller demo.env (demo.request ("Bearer " ++ demo.sellerToken))
        demo.world).2.db = demo.world.db ∧
      (DeleteOne demo.world Coll.products [("_id", Cond.eq (Value.oid demo.productID)),
        ("seller_id", Cond.eq (Value.oid demo.sellerID))]).1 = Except.ok 0 ∧
      (DeleteProductForSeller demo.env (demo.request ("Bearer " ++ demo.sellerToken))
        demo.world).2.log = demo.world.log ++
        [StoreOp.DeleteOne Coll.products [("_id", Cond.eq (Value.oid demo.productID)),
          ("seller_id", Cond.eq (Value.oid demo.sellerID))]]) ∧
    ((UpdateProductForSeller demo.env (demo.request ("Bearer " ++ demo.sellerToken))
        (Except.ok ⟨[("name", ["desk"])], []⟩) demo.world).1.status = some 403 ∧
      (UpdateProductForSeller demo.env (demo.request ("Bearer " ++ demo.sellerToken))
        (Except.ok ⟨[("name", ["desk"])], []⟩) demo.world).2.db = demo.world.db ∧
      (UpdateProductForSeller demo.env (demo.request ("Bearer " ++ demo.sellerToken))
        (Except.ok ⟨[("name", ["desk"])], []⟩) demo.world).2.log = demo.world.log ++
        [StoreOp.FindOne Coll.products [("_id", Cond.eq (Value.oid demo.productID)),
          ("seller_id", Cond.eq (Value.oid demo.sellerID))]]) :=
  non_owner_forbidden demo.env (demo.request ("Bearer " ++ demo.sellerToken))
    (Except.ok ⟨[("name", ["desk"])], []⟩) demo.world demo.sellerToken
    "507f1f77bcf86cd799439011" demo.sellerClaims demo.sellerID demo.productID (by rfl) (by rfl)
    (by rfl) (by rfl) (by rfl)
    (by
      intro p hp
      have hp2 : p = [("_id", Value.oid demo.productID), ("seller_id", Value.oid demo.otherID),
          ("name", Value.str "lamp"), ("price", Value.num 10)] := by
        simpa [demo.world, demo.store] using hp
      subst hp2
      rfl)

/-- C9 as stated fails: the token is accepted by `ValidateJWT`, its `user_id`
(`u1`) is not the `seller_id` of product `000000000000000000000001`, and both
handlers answer 400, not 403, because `u1` is not a well-formed identifier. -/
theorem non_owner_malformed_user_id_bad_request :
    utils.ValidateJWT demo.env.L demo.env.jwtSecret demo.env.now demo.shortIDToken
      = Except.ok [("user_id", Value.str "u1"), ("role", Value.str "seller"),
          ("exp", Value.num 87400)] ∧
    (DeleteProductForSeller demo.env (demo.request ("Bearer " ++ demo.shortIDToken))
      demo.world).1.status = some 400 ∧
    (UpdateProductForSeller demo.env (demo.request ("Bearer " ++ demo.shortIDToken))
      (Except.ok ⟨[("name", ["desk"])], []⟩) demo.world).1.status = some 400 :=
  ⟨by rfl, by rfl, by rfl⟩

/-! ## C10: protected fields of a customer -/

theorem firstDisallowed_some (updates : Doc)
    (h : updates.has "password" = true ∨ updates.has "_id" = true ∨ updates.has "roles" = true) :
    ∃ field, firstDisallowed updates ["_id", "password", "roles"] = some field := by
  by_cases h1 : updates.has "_id" = true
  · exact ⟨"_id", by simp [firstDisallowed, h1]⟩
  · by_cases h2 : updates.has "password" = true
    · exact ⟨"password", by simp [firstDisallowed, h1, h2]⟩
    · have h3 : updates.has "roles" = true := by tauto
      exact ⟨"roles", by simp [firstDisallowed, h1, h2, h3]⟩

/-- C10. An `UpdateCustomer` request whose `updates` map binds `password`
(or `_id`, or `roles`) is answered 400 and the store is not called, whatever
the `user_id` and the other keys of the map are. -/
theorem UpdateCustomer_protected_field (c : Ctx) (body : UpdateCustomerBody) (w : World)
    (h : body.Updates.has "password" = true ∨ body.Updates.has "_id" = true ∨
      body.Updates.has "roles" = true) :
    (UpdateCustomer c (some body) w).1.status = some 400 ∧
    (UpdateCustomer c (some body) w).2 = w := by
  obtain ⟨field, hf⟩ := firstDisallowed_some body.Updates h
  unfold UpdateCustomer
  by_cases h1 : body.UserID = ""
  · simp [h1, reply, Outcome.status, StatusBadRequest]
  · cases h2 : primitive.ObjectIDFromHex body.UserID with
    | none => simp [h1, h2, reply, Outcome.status, StatusBadRequest]
    | some userID => simp [h1, h2, hf, reply, Outcome.status, StatusBadRequest]

/-- C10 at the example of the specification: the patch `password: x` for an
existing customer. -/
theorem UpdateCustomer_protected_field_witness :
    (UpdateCustomer (demo.request "")
        (some ⟨"507f1f77bcf86cd799439011", [("password", Value.str "x")]⟩) demo.world).1.status
      = some 400 ∧
    (UpdateCustomer (demo.request "")
        (some ⟨"507f1f77bcf86cd799439011", [("password", Value.str "x")]⟩) demo.world).2
      = demo.world :=
  UpdateCustomer_protected_field (demo.request "")
    ⟨"507f1f77bcf86cd799439011", [("password", Value.str "x")]⟩ demo.world (Or.inl (by rfl))

/-! ## C11: claims without a `user_id` -/

theorem ValidateJWT_ok_of_valid (L : jwt.Lib) (jwtSecret : String) (now : Int)
    (tokenString : String) (claims : Doc)
    (hsig : jwt.signatureValid L jwtSecret tokenString = true)
    (hclaims : jwt.claimsOf L tokenString = some claims)
    (hval : jwt.Valid claims now = 0) :
    utils.ValidateJWT L jwtSecret now tokenString = Except.ok claims := by
  unfold jwt.signatureValid at hsig
  unfold jwt.claimsOf jwt.unverified at hclaims
  cases hp : jwt.ParseUnverified L tokenString with
  | error e => simp [hp] at hsig
  | ok r =>
    obtain ⟨token, parts⟩ := r
    simp only [hp] at hsig
    simp only [hp, Option.map_some', Option.some.injEq] at hclaims
    have hm := verify_true_isHMAC L _ _ _ _ hsig
    subst hclaims
    simp only [utils.ValidateJWT, utils.ValidateJWT.parse, jwt.Parse, hp, utils.validateKeyFunc,
      hm, hsig, hval, if_true]

/-- C11, as amended. `ValidateJWT` does not look at `user_id`: a correctly
signed, unexpired token whose claims bind no string to `user_id` is accepted
and its claims are returned.  The check is made by the handlers that call
`ValidateJWT`: each of them answers such a token with 401 and does not call
the store. -/
theorem missing_user_id_refused_by_handlers (E : Env) (tokenString : String) (claims : Doc)
    (body : Option EditProfileBody) (form : Except String Form) (w : World)
    (hsig : jwt.signatureValid E.L E.jwtSecret tokenString = true)
    (hclaims : jwt.claimsOf E.L tokenString = some claims)
    (hval : jwt.Valid claims E.now = 0)
    (hu : claims.getString "user_id" = none) :
    utils.ValidateJWT E.L E.jwtSecret E.now tokenString = Except.ok claims ∧
    (∀ c : Ctx, c.Authorization ≠ "" →
      strings.TrimPrefix c.Authorization "Bearer " = tokenString →
      ((GetUserProfile E c w).1.status = some 401 ∧ (GetUserProfile E c w).2 = w) ∧
      ((EditProfile E c body w).1.status = some 401 ∧ (EditProfile E c body w).2 = w)) ∧
    (∀ c : Ctx, strings.sliceFrom c.Authorization 7 = some tokenString →
      ((UpdateProductForSeller E c form w).1.status = some 401 ∧
        (UpdateProductForSeller E c form w).2 = w) ∧
      ((DeleteProductForSeller E c w).1.status = some 401 ∧
        (DeleteProductForSeller E c w).2 = w)) := by
  have hv := ValidateJWT_ok_of_valid E.L E.jwtSecret E.now tokenString claims hsig hclaims hval
  refine ⟨hv, ?_, ?_⟩
  · intro c hne ht
    refine ⟨by simp [GetUserProfile, hne, ht, hv, hu, reply, Outcome.status,
      StatusUnauthorized], ?_⟩
    by_cases h0 : tokenString = ""
    · simp [EditProfile, hne, ht, h0, reply, Outcome.status, StatusUnauthorized]
    · simp [EditProfile, hne, ht, h0, hv, hu, reply, Outcome.status, StatusUnauthorized]
  · intro c hb
    have hne : c.Authorization ≠ "" := by
      intro e
      rw [e] at hb
      exact Option.noConfusion hb
    simp [UpdateProductForSeller, DeleteProductForSeller, hne, hb, hv, hu, reply,
      Outcome.status, StatusUnauthorized]

/-- C11 as amended, at a concrete input: the token without `user_id`, sent as
`Bearer <token>`. -/
theorem missing_user_id_refused_by_handlers_witness :
    utils.ValidateJWT demo.env.L demo.env.jwtSecret demo.env.now demo.noUserIDToken
      = Except.ok [("role", Value.str "seller"), ("exp", Value.num 87400)] ∧
    ((GetUserProfile demo.env (demo.request ("Bearer " ++ demo.noUserIDToken))
        demo.world).1.status = some 401 ∧
      (EditProfile demo.env (demo.request ("Bearer " ++ demo.noUserIDToken)) (some ⟨"budi"⟩)
        demo.world).1.status = some 401) ∧
    ((UpdateProductForSeller demo.env (demo.request ("Bearer " ++ demo.noUserIDToken))
        (Except.ok ⟨[], []⟩) demo.world).1.status = some 401 ∧
      (DeleteProductForSeller demo.env (demo.request ("Bearer " ++ demo.noUserIDToken))
        demo.world).1.status = some 401) :=
  have h := missing_user_id_refused_by_handlers demo.env demo.noUserIDToken
    [("role", Value.str "seller"), ("exp", Value.num 87400)] (some ⟨"budi"⟩)
    (Except.ok ⟨[], []⟩) demo.world (by rfl) (by rfl) (by rfl) (by rfl)
  ⟨h.1,
   ⟨(h.2.1 (demo.request ("Bearer " ++ demo.noUserIDToken)) (by decide) (by rfl)).1.1,
    (h.2.1 (demo.request ("Bearer " ++ demo.noUserIDToken)) (by decide) (by rfl)).2.1⟩,
   ⟨(h.2.2 (demo.request ("Bearer " ++ demo.noUserIDToken)) (by rfl)).1.1,
    (h.2.2 (demo.request ("Bearer " ++ demo.noUserIDToken)) (by rfl)).2.1⟩⟩

/-- C11 as stated fails: the token signed under the configured secret whose
claims are a role and an unexpired `exp`, without `user_id`, is accepted by
`ValidateJWT`, which returns these claims. -/
theorem ValidateJWT_accepts_missing_user_id :
    jwt.signatureValid hexLib "k" demo.noUserIDToken = true ∧
    Doc.get [("role", Value.str "seller"), ("exp", Value.num 87400)] "user_id" = none ∧
    utils.ValidateJWT hexLib "k" 2000 demo.noUserIDToken
      = Except.ok [("role", Value.str "seller"), ("exp", Value.num 87400)] :=
  ⟨by rfl, by rfl, by rfl⟩

/-! ## C12: the claims that `GenerateJWT` signs -/

/-- C12. At clock reading `t`, `GenerateJWT` signs with HS256 under
`jwtSecret` exactly these claims: `user_id` = `userID`, `role` = `role`,
`exp` = `t + 86400`, and `seller_id` = `sellerID` if and only if `sellerID` is
not empty; no other key is bound. -/
theorem GenerateJWT_claims_exact (L : jwt.Lib) (jwtSecret : String) (t : Int)
    (userID role sellerID : String) :
    utils.GenerateJWT L jwtSecret t userID role sellerID
      = (jwt.NewWithClaims (jwt.SigningMethod.HMAC jwt.Hash.SHA256)
          (utils.GenerateJWT.claims t userID role sellerID)).SignedString L jwtSecret ∧
    utils.GenerateJWT.claims t userID role sellerID
      = [("user_id", Value.str userID), ("role", Value.str role), ("exp", Value.num (t + 86400))]
        ++ (if sellerID = "" then [] else [("seller_id", Value.str sellerID)]) ∧
    Doc.get (utils.GenerateJWT.claims t userID role sellerID) "user_id"
      = some (Value.str userID) ∧
    Doc.get (utils.GenerateJWT.claims t userID role sellerID) "role" = some (Value.str role) ∧
    Doc.get (utils.GenerateJWT.claims t userID role sellerID) "exp"
      = some (Value.num (t + 86400)) ∧
    (Doc.get (utils.GenerateJWT.claims t userID role sellerID) "seller_id"
      = some (Value.str sellerID) ↔ sellerID ≠ "") ∧
    (sellerID = "" →
      Doc.get (utils.GenerateJWT.claims t userID role sellerID) "seller_id" = none) ∧
    (∀ k, k ∉ ["user_id", "role", "exp", "seller_id"] →
      Doc.get (utils.GenerateJWT.claims t userID role sellerID) k = none) := by
  have hexp : utils.tokenExpiry = 86400 := by decide
  refine ⟨?_, ?_, claims_get_user_id t userID role sellerID, claims_get_role t userID role sellerID,
    ?_, ?_, ?_, ?_⟩
  · simp only [utils.GenerateJWT, jwt.SigningMethodHS256]
    cases (jwt.NewWithClaims (jwt.SigningMethod.HMAC jwt.Hash.SHA256)
      (utils.GenerateJWT.claims t userID role sellerID)).SignedString L jwtSecret <;> rfl
  · by_cases hs : sellerID = "" <;> simp [utils.GenerateJWT.claims, hs, Doc.set, hexp]
  · rw [claims_get_exp, hexp]
  · constructor
    · intro h hs
      simp [utils.GenerateJWT.claims, hs, Doc.get] at h
    · intro hs
      exact claims_get_seller_id t userID role sellerID hs
  · intro hs
    simp [utils.GenerateJWT.claims, hs, Doc.get]
  · intro k hk
    simp only [List.mem_cons, List.mem_singleton, not_or, List.mem_nil_iff, or_false] at hk
    obtain ⟨h1, h2, h3, h4⟩ := hk
    by_cases hs : sellerID = "" <;>
      simp [utils.GenerateJWT.claims, hs, Doc.get, Doc.set, Ne.symm h1, Ne.symm h2, Ne.symm h3,
        Ne.symm h4]

/-! ## C13: protected fields of sellers and dual-role users -/

/-- C13 fails on the code: `UpdateSeller` and `UpdateCustomerSeller` pass the
body to the store as it is.  A patch of `password` for a seller and a patch of
`roles` for a dual-role user are answered 200 and are written to the record;
`UpdateCustomer` answers the same patch with 400. -/
theorem UpdateSeller_writes_protected_fields :
    (UpdateSeller (demo.otherRequest "") (some [("password", Value.str "x")])
      demo.userWorld).1.status = some 200 ∧
    (UpdateSeller (demo.otherRequest "") (some [("password", Value.str "x")])
      demo.userWorld).2.db.users
      = [[("_id", Value.oid demo.otherID), ("username", Value.str "sari"),
          ("email", Value.str "sari@example.com"), ("password", Value.str "x"),
          ("roles", Value.arr [Value.str "seller"]), ("reset_token", Value.str "123456"),
          ("reset_token_expiry", Value.time 1500)], demo.customerRecord] ∧
    (UpdateCustomerSeller (demo.userRequest "")
      (some [("roles", Value.arr [Value.str "customer", Value.str "seller", Value.str "admin"])])
      demo.dualWorld).1.status = some 200 ∧
    (UpdateCustomerSeller (demo.userRequest "")
      (some [("roles", Value.arr [Value.str "customer", Value.str "seller", Value.str "admin"])])
      demo.dualWorld).2.db.users
      = [[("_id", Value.oid demo.sellerID), ("username", Value.str "dewi"),
          ("email", Value.str "dewi@example.com"), ("password", Value.str "$2a$10$dual"),
          ("roles", Value.arr [Value.str "customer", Value.str "seller", Value.str "admin"])]] ∧
    (UpdateCustomer (demo.userRequest "")
      (some ⟨"507f1f77bcf86cd799439011", [("password", Value.str "x")]⟩)
      demo.userWorld).1.status = some 400 :=
  ⟨by rfl, by rfl, by rfl, by rfl, by rfl⟩

/-! ## C14: zero documents matched -/

/-- C14 fails on the code for every listed handler but `UpdateCustomer`: on a
reachable store without documents the store operation succeeds and matches
nothing, and `DeleteCustomer`, `UpdateSeller`, `DeleteSeller`,
`UpdateCustomerSeller`, `DeleteCustomerSeller` and `EditProfile` answer 200;
only `UpdateCustomer` looks at the matched count and answers 404. -/
theorem zero_matched_answered_200 :
    (DeleteOne demo.emptyWorld Coll.users
      [("_id", Cond.eq (Value.oid demo.sellerID)),
       ("roles", Cond.eq (Value.str "customer"))]).1 = Except.ok 0 ∧
    (DeleteCustomer (demo.userRequest "") demo.emptyWorld).1.status = some 200 ∧
    (UpdateSeller (demo.userRequest "") (some [("username", Value.str "x")])
      demo.emptyWorld).1.status = some 200 ∧
    (DeleteSeller (demo.userRequest "") demo.emptyWorld).1.status = some 200 ∧
    (UpdateCustomerSeller (demo.userRequest "") (some [("username", Value.str "x")])
      demo.emptyWorld).1.status = some 200 ∧
    (DeleteCustomerSeller (demo.userRequest "") demo.emptyWorld).1.status = some 200 ∧
    (EditProfile demo.env (demo.userRequest ("Bearer " ++ demo.sellerToken)) (some ⟨"budi"⟩)
      demo.emptyWorld).1.status = some 200 ∧
    (UpdateCustomer (demo.userRequest "")
      (some ⟨"507f1f77bcf86cd799439011", [("username", Value.str "x")]⟩)
      demo.emptyWorld).1.status = some 404 :=
  ⟨by rfl, by rfl, by rfl, by rfl, by rfl, by rfl, by rfl, by rfl⟩

/-! ## C15: the mutating handlers have no guard -/

/-- C15 fails on the code: none of the ten handlers reads the `Authorization`
header.  A request without a token is answered 200 by each of them, and
`DeleteCustomer` removes the customer record. -/
theorem unauthenticated_request_mutates_store :
    (UpdateCustomer (demo.userRequest "")
      (some ⟨"507f1f77bcf86cd799439011", [("username", Value.str "x")]⟩)
      demo.userWorld).1.status = some 200 ∧
    (DeleteCustomer (demo.userRequest "") demo.userWorld).1.status = some 200 ∧
    (DeleteCustomer (demo.userRequest "") demo.userWorld).2.db.users = [demo.sellerRecord] ∧
    (UpdateSeller (demo.otherRequest "") (some [("username", Value.str "x")])
      demo.userWorld).1.status = some 200 ∧
    (DeleteSeller (demo.otherRequest "") demo.userWorld).1.status = some 200 ∧
    (DeleteSeller (demo.otherRequest "") demo.userWorld).2.db.users = [demo.customerRecord] ∧
    (UpdateCustomerSeller (demo.userRequest "") (some [("username", Value.str "x")])
      demo.dualWorld).1.status = some 200 ∧
    (DeleteCustomerSeller (demo.userRequest "") demo.dualWorld).1.status = some 200 ∧
    (DeleteCustomerSeller (demo.userRequest "") demo.dualWorld).2.db.users = [] ∧
    (SuspendUser (demo.userRequest "") demo.userWorld).1.status = some 200 ∧
    (UnsuspendUser (demo.userRequest "") demo.userWorld).1.status = some 200 ∧
    (SuspendSeller (demo.otherRequest "") demo.userWorld).1.status = some 200 ∧
    (UnsuspendSeller (demo.otherRequest "") demo.userWorld).1.status = some 200 :=
  ⟨by rfl, by rfl, by rfl, by rfl, by rfl, by rfl, by rfl, by rfl, by rfl, by rfl, by rfl,
   by rfl, by rfl⟩

/-! ## C16: the seller filter leaves customer-only records alone -/

theorem eqHolds_role (d : Doc) (role : String) :
    eqHolds (Value.str role) (Doc.get d "roles") = hasRole d role := by
  unfold hasRole eqHolds
  cases Doc.get d "roles" with
  | none => rfl
  | some v => cases v <;> simp [Value.beq]

theorem sellerFilter_matches (userID : ObjectID) (d : Doc) :
    Filter.matches (sellerFilter userID) d
      = (eqHolds (Value.oid userID) (Doc.get d "_id") && hasRole d "seller") := by
  simp [Filter.matches, sellerFilter, Cond.holds, eqHolds_role]

theorem deleteFirst_keeps (f : Filter) (p : Doc → Bool)
    (h : ∀ d, Filter.matches f d = true → p d = false) (l : List Doc) :
    List.Sublist (l.filter p) (deleteFirst f l) := by
  induction l with
  | nil => simp [deleteFirst]
  | cons d ds ih =>
    by_cases hm : Filter.matches f d = true
    · simp [deleteFirst, hm, List.filter_cons, h d hm]
    · by_cases hp : p d = true
      · simpa [deleteFirst, hm, List.filter_cons, hp] using ih
      · simpa [deleteFirst, hm, List.filter_cons, hp] using List.Sublist.cons d ih

theorem updateFirst_keeps (f : Filter) (set : Doc) (p : Doc → Bool)
    (h : ∀ d, Filter.matches f d = true → p d = false) (l : List Doc) :
    List.Sublist (l.filter p) (updateFirst f set l) := by
  induction l with
  | nil => simp [updateFirst]
  | cons d ds ih =>
    by_cases hm : Filter.matches f d = true
    · simp [updateFirst, hm, List.filter_cons, h d hm]
    · by_cases hp : p d = true
      · simpa [updateFirst, hm, List.filter_cons, hp] using ih
      · simpa [updateFirst, hm, List.filter_cons, hp] using List.Sublist.cons d ih

theorem DeleteOne_users_keeps (w : World) (f : Filter) (p : Doc → Bool)
    (h : ∀ d, Filter.matches f d = true → p d = false) :
    List.Sublist (w.db.users.filter p) (DeleteOne w Coll.users f).2.db.users := by
  unfold DeleteOne
  cases w.db.down with
  | some msg => exact List.filter_sublist _
  | none =>
    cases (w.db.coll Coll.users).find? f.matches with
    | none => exact List.filter_sublist _
    | some d => exact deleteFirst_keeps f p h _

theorem UpdateOne_users_keeps (w : World) (f : Filter) (set : Doc) (p : Doc → Bool)
    (h : ∀ d, Filter.matches f d = true → p d = false) :
    List.Sublist (w.db.users.filter p) (UpdateOne w Coll.users f set).2.db.users := by
  unfold UpdateOne
  cases w.db.down with
  | some msg => exact List.filter_sublist _
  | none =>
    cases (w.db.coll Coll.users).find? f.matches with
    | none => exact List.filter_sublist _
    | some d =>
      by_cases hc : changesID d set = true
      · simp only [hc, if_true]
        exact List.filter_sublist _
      · simp only [hc]
        exact updateFirst_keeps f set p h _

/-- C16. `DeleteSeller` and `UpdateSeller` build the filter "`_id` is the
identifier and `roles` holds `seller`", so whatever the store, the `id`
parameter and the body are, every record whose roles do not hold `seller` is
left as it was: these records are still in the collection afterwards, in the
same order, also when `id` is the identifier of such a record. -/
theorem seller_handlers_keep_other_records (c : Ctx) (body : Option Doc) (w : World) :
    List.Sublist (w.db.users.filter fun d => !hasRole d "seller")
      (DeleteSeller c w).2.db.users ∧
    List.Sublist (w.db.users.filter fun d => !hasRole d "seller")
      (UpdateSeller c body w).2.db.users ∧
    (∀ d ∈ w.db.users, hasRole d "seller" = false →
      d ∈ (DeleteSeller c w).2.db.users ∧ d ∈ (UpdateSeller c body w).2.db.users) ∧
    (∀ userID d, Filter.matches (sellerFilter userID) d
      = (eqHolds (Value.oid userID) (Doc.get d "_id") && hasRole d "seller")) ∧
    (∀ userID, primitive.ObjectIDFromHex c.id = some userID →
      (DeleteSeller c w).2.log = w.log ++ [StoreOp.DeleteOne Coll.users
        [("_id", Cond.eq (Value.oid userID)), ("roles", Cond.eq (Value.str "seller"))]] ∧
      ∀ updates, body = some updates →
        (UpdateSeller c body w).2.log = w.log ++ [StoreOp.UpdateOne Coll.users
          [("_id", Cond.eq (Value.oid userID)), ("roles", Cond.eq (Value.str "seller"))]
          updates]) := by
  have hkeep : ∀ userID d, Filter.matches (sellerFilter userID) d = true →
      (!hasRole d "seller") = false := by
    intro userID d hm
    rw [sellerFilter_matches] at hm
    simp only [Bool.and_eq_true] at hm
    simp [hm.2]
  have hdel : List.Sublist (w.db.users.filter fun d => !hasRole d "seller")
      (DeleteSeller c w).2.db.users := by
    unfold DeleteSeller
    cases hid : primitive.ObjectIDFromHex c.id with
    | none => exact List.filter_sublist _
    | some userID =>
      have h := DeleteOne_users_keeps w (sellerFilter userID) _ (hkeep userID)
      simp only
      cases hd : DeleteOne w Coll.users (sellerFilter userID) with
      | mk r w1 =>
        rw [hd] at h
        cases r <;> exact h
  have hupd : List.Sublist (w.db.users.filter fun d => !hasRole d "seller")
      (UpdateSeller c body w).2.db.users := by
    unfold UpdateSeller
    cases hid : primitive.ObjectIDFromHex c.id with
    | none => exact List.filter_sublist _
    | some userID =>
      cases body with
      | none => exact List.filter_sublist _
      | some updates =>
        have h := UpdateOne_users_keeps w (sellerFilter userID) updates _ (hkeep userID)
        simp only
        cases hd : UpdateOne w Coll.users (sellerFilter userID) updates with
        | mk r w1 =>
          rw [hd] at h
          cases r <;> exact h
  refine ⟨hdel, hupd, ?_, sellerFilter_matches, ?_⟩
  · intro d hd hr
    have hmem : d ∈ w.db.users.filter fun d => !hasRole d "seller" := by
      simp [List.mem_filter, hd, hr]
    exact ⟨hdel.subset hmem, hupd.subset hmem⟩
  · intro userID hid
    constructor
    · unfold DeleteSeller
      simp only [hid]
      have hl : (DeleteOne w Coll.users (sellerFilter userID)).2.log
          = w.log ++ [StoreOp.DeleteOne Coll.users (sellerFilter userID)] := by
        unfold DeleteOne
        cases w.db.down <;> simp only
        cases (w.db.coll Coll.users).find? (Filter.matches (sellerFilter userID)) <;> rfl
      cases hd : DeleteOne w Coll.users (sellerFilter userID) with
      | mk r w1 =>
        rw [hd] at hl
        cases r <;> exact hl
    · intro updates hb
      subst hb
      unfold UpdateSeller
      simp only [hid]
      have hl : (UpdateOne w Coll.users (sellerFilter userID) updates).2.log
          = w.log ++ [StoreOp.UpdateOne Coll.users (sellerFilter userID) updates] := by
        unfold UpdateOne
        cases w.db.down <;> simp only
        cases (w.db.coll Coll.users).find? (Filter.matches (sellerFilter userID)) with
        | none => rfl
        | some d => by_cases hc : changesID d updates = true <;> simp [hc]
      cases hd : UpdateOne w Coll.users (sellerFilter userID) updates with
      | mk r w1 =>
        rw [hd] at hl
        cases r <;> exact hl

/-! ## C17: the secrets of a record do not reach a response -/

theorem get_public (d1 d2 : Doc) (h : model.sameButSecrets d1 d2) (k : String)
    (hk : k ∉ model.secretKeys) : Doc.get d1 k = Doc.get d2 k := h.2.2 k hk

theorem matches_public (f : Filter) (d1 d2 : Doc) (h : model.sameButSecrets d1 d2)
    (hf : ∀ kc ∈ f, kc.1 ∉ model.secretKeys) :
    Filter.matches f d1 = Filter.matches f d2 := by
  unfold Filter.matches
  induction f with
  | nil => rfl
  | cons kc rest ih =>
    have h1 : kc.1 ∉ model.secretKeys := hf kc (by simp)
    have h2 : ∀ x ∈ rest, x.1 ∉ model.secretKeys := fun x hx => hf x (by simp [hx])
    simp only [List.all_cons, get_public d1 d2 h kc.1 h1, ih h2]

theorem find_related (p : Doc → Bool) (l1 l2 : List Doc)
    (hp : ∀ a b, model.sameButSecrets a b → p a = p b)
    (h : List.Forall₂ model.sameButSecrets l1 l2) :
    (l1.find? p = none ∧ l2.find? p = none) ∨
    ∃ a b, l1.find? p = some a ∧ l2.find? p = some b ∧ model.sameButSecrets a b := by
  induction h with
  | nil => exact Or.inl ⟨rfl, rfl⟩
  | @cons a b l1 l2 hab _ ih =>
    by_cases hpa : p a = true
    · have hpb : p b = true := by rw [← hp a b hab]; exact hpa
      exact Or.inr ⟨a, b, by simp [List.find?, hpa], by simp [List.find?, hpb], hab⟩
    · have hpb : ¬ p b = true := by rw [← hp a b hab]; exact hpa
      simpa [List.find?, hpa, hpb] using ih

theorem filter_related (p : Doc → Bool) (l1 l2 : List Doc)
    (hp : ∀ a b, model.sameButSecrets a b → p a = p b)
    (h : List.Forall₂ model.sameButSecrets l1 l2) :
    List.Forall₂ model.sameButSecrets (l1.filter p) (l2.filter p) := by
  induction h with
  | nil => exact List.Forall₂.nil
  | @cons a b l1 l2 hab _ ih =>
    by_cases hpa : p a = true
    · have hpb : p b = true := by rw [← hp a b hab]; exact hpa
      simpa [List.filter_cons, hpa, hpb] using List.Forall₂.cons hab ih
    · have hpb : ¬ p b = true := by rw [← hp a b hab]; exact hpa
      simpa [List.filter_cons, hpa, hpb] using ih

theorem map_related (view : Doc → Value) (l1 l2 : List Doc)
    (hv : ∀ a b, model.sameButSecrets a b → view a = view b)
    (h : List.Forall₂ model.sameButSecrets l1 l2) : l1.map view = l2.map view := by
  induction h with
  | nil => rfl
  | cons hab _ ih => simp [hv _ _ hab, ih]

theorem decodeUser_public (d1 d2 : Doc) (h : model.sameButSecrets d1 d2) :
    (model.decodeUser d1 = none ∧ model.decodeUser d2 = none) ∨
    ∃ u1 u2, model.decodeUser d1 = some u1 ∧ model.decodeUser d2 = some u2 ∧
      u1.ID = u2.ID ∧ u1.Username = u2.Username ∧ u1.Email = u2.Email ∧
      u1.Roles = u2.Roles ∧ u1.StoreStatus = u2.StoreStatus ∧ u1.StoreInfo = u2.StoreInfo ∧
      u1.Suspended = u2.Suspended := by
  obtain ⟨t1, t2, hk⟩ := h
  simp only [model.secretsTyped, Bool.and_eq_true, Option.isSome_iff_exists] at t1 t2
  obtain ⟨⟨⟨p1, hp1⟩, ⟨r1, hr1⟩⟩, ⟨x1, hx1⟩⟩ := t1
  obtain ⟨⟨⟨p2, hp2⟩, ⟨r2, hr2⟩⟩, ⟨x2, hx2⟩⟩ := t2
  have e1 : model.oidField d1 "_id" = model.oidField d2 "_id" := by
    unfold model.oidField; rw [hk "_id" (by decide)]
  have e2 : model.strField d1 "username" = model.strField d2 "username" := by
    unfold model.strField; rw [hk "username" (by decide)]
  have e3 : model.strField d1 "email" = model.strField d2 "email" := by
    unfold model.strField; rw [hk "email" (by decide)]
  have e4 : model.rolesField d1 = model.rolesField d2 := by
    unfold model.rolesField; rw [hk "roles" (by decide)]
  have e5 : model.optStrField d1 "store_status" = model.optStrField d2 "store_status" := by
    unfold model.optStrField; rw [hk "store_status" (by decide)]
  have e6 : model.storeInfoField d1 = model.storeInfoField d2 := by
    unfold model.storeInfoField; rw [hk "store_info" (by decide)]
  have e7 : model.boolField d1 "suspended" = model.boolField d2 "suspended" := by
    unfold model.boolField; rw [hk "suspended" (by decide)]
  unfold model.decodeUser
  rw [e1, e2, e3, e4, e5, e6, e7, hp1, hr1, hx1, hp2, hr2, hx2]
  cases model.oidField d2 "_id" <;> cases model.strField d2 "username" <;>
    cases model.strField d2 "email" <;> cases model.rolesField d2 <;>
    cases model.optStrField d2 "store_status" <;> cases model.storeInfoField d2 <;>
    cases model.boolField d2 "suspended" <;>
    first
    | exact Or.inl ⟨rfl, rfl⟩
    | exact Or.inr ⟨_, _, rfl, rfl, rfl, rfl, rfl, rfl, rfl, rfl, rfl⟩

/-- What two stores that agree up to secrets answer to the same `FindOne` on
the users, for a filter on keys that are not secret. -/
theorem FindOne_public (w1 w2 : World) (f : Filter)
    (h : Store.sameButSecrets w1.db w2.db) (hf : ∀ kc ∈ f, kc.1 ∉ model.secretKeys) :
    (∃ msg, (FindOne w1 Coll.users f).1 = FindResult.err msg ∧
      (FindOne w2 Coll.users f).1 = FindResult.err msg) ∨
    ((FindOne w1 Coll.users f).1 = FindResult.ErrNoDocuments ∧
      (FindOne w2 Coll.users f).1 = FindResult.ErrNoDocuments) ∨
    ∃ a b, (FindOne w1 Coll.users f).1 = FindResult.found a ∧
      (FindOne w2 Coll.users f).1 = FindResult.found b ∧ model.sameButSecrets a b := by
  obtain ⟨hu, _, hd⟩ := h
  unfold FindOne
  rw [← hd]
  cases w1.db.down with
  | some msg => exact Or.inl ⟨msg, rfl, rfl⟩
  | none =>
    simp only [Store.coll]
    rcases find_related (Filter.matches f) w1.db.users w2.db.users
      (fun a b hab => matches_public f a b hab hf) hu with ⟨h1, h2⟩ | ⟨a, b, h1, h2, hab⟩
    · rw [h1, h2]; exact Or.inr (Or.inl ⟨rfl, rfl⟩)
    · rw [h1, h2]; exact Or.inr (Or.inr ⟨a, b, rfl, rfl, hab⟩)

theorem Find_public (w1 w2 : World) (q : Query) (h : Store.sameButSecrets w1.db w2.db)
    (hq : ∀ a b, model.sameButSecrets a b → q.matches a = q.matches b) :
    (∃ msg, (Find w1 Coll.users q).1 = Except.error msg ∧
      (Find w2 Coll.users q).1 = Except.error msg) ∨
    ∃ l1 l2, (Find w1 Coll.users q).1 = Except.ok l1 ∧ (Find w2 Coll.users q).1 = Except.ok l2 ∧
      List.Forall₂ model.sameButSecrets l1 l2 := by
  obtain ⟨hu, _, hd⟩ := h
  unfold Find
  rw [← hd]
  cases w1.db.down with
  | some msg => exact Or.inl ⟨msg, rfl, rfl⟩
  | none =>
    exact Or.inr ⟨_, _, rfl, rfl, filter_related q.matches _ _ hq hu⟩

theorem id_public : "_id" ∉ model.secretKeys := by decide

theorem roles_public : "roles" ∉ model.secretKeys := by decide

theorem store_status_public : "store_status" ∉ model.secretKeys := by decide

theorem field_public (d1 d2 : Doc) (h : model.sameButSecrets d1 d2) (k : String)
    (hk : k ∉ model.secretKeys) : field d1 k = field d2 k := by
  unfold field; rw [get_public d1 d2 h k hk]

theorem customerView_public (d1 d2 : Doc) (h : model.sameButSecrets d1 d2) :
    customerView d1 = customerView d2 := by
  unfold customerView
  rw [field_public d1 d2 h "_id" (by decide), field_public d1 d2 h "username" (by decide),
    field_public d1 d2 h "email" (by decide), field_public d1 d2 h "roles" (by decide)]

theorem sellerView_public (d1 d2 : Doc) (h : model.sameButSecrets d1 d2) :
    sellerView d1 = sellerView d2 := by
  unfold sellerView getStringOrDefault
  rw [field_public d1 d2 h "_id" (by decide), field_public d1 d2 h "username" (by decide),
    field_public d1 d2 h "email" (by decide), field_public d1 d2 h "roles" (by decide),
    field_public d1 d2 h "store_status" (by decide), get_public d1 d2 h "store_info" (by decide)]

theorem GetUserProfile_public (E : Env) (c : Ctx) (w1 w2 : World)
    (h : Store.sameButSecrets w1.db w2.db) :
    (GetUserProfile E c w1).1 = (GetUserProfile E c w2).1 := by
  unfold GetUserProfile
  by_cases h0 : c.Authorization = ""
  · simp only [h0, if_true, reply]
  · simp only [h0, if_false]
    cases utils.ValidateJWT E.L E.jwtSecret E.now
        (strings.TrimPrefix c.Authorization "Bearer ") with
    | error e => rfl
    | ok claims =>
      simp only []
      cases claims.getString "user_id" with
      | none => rfl
      | some userID =>
        simp only []
        by_cases h1 : userID = ""
        · simp only [h1, if_true, reply]
        · simp only [h1, if_false]
          cases primitive.ObjectIDFromHex userID with
          | none => rfl
          | some objectID =>
            simp only []
            rcases hF1 : FindOne w1 Coll.users [("_id", Cond.eq (Value.oid objectID))]
              with ⟨r1, v1⟩
            rcases hF2 : FindOne w2 Coll.users [("_id", Cond.eq (Value.oid objectID))]
              with ⟨r2, v2⟩
            have hr := FindOne_public w1 w2 [("_id", Cond.eq (Value.oid objectID))] h
              (by intro kc hkc; simp at hkc; subst hkc; exact id_public)
            rw [hF1, hF2] at hr
            rcases hr with ⟨msg, e1, e2⟩ | ⟨e1, e2⟩ | ⟨a, b, e1, e2, hab⟩
            · simp only [] at e1 e2; subst e1; subst e2; rfl
            · simp only [] at e1 e2; subst e1; subst e2; rfl
            · simp only [] at e1 e2; subst e1; subst e2
              simp only []
              rcases decodeUser_public a b hab with ⟨n1, n2⟩ |
                ⟨u1, u2, s1, s2, q1, q2, q3, q4, q5, q6, _⟩
              · rw [n1, n2]; rfl
              · rw [s1, s2]
                simp only [reply, profileData, q1, q2, q3, q4, q5, q6]

theorem GetCustomers_public (w1 w2 : World) (h : Store.sameButSecrets w1.db w2.db) :
    (GetCustomers w1).1 = (GetCustomers w2).1 := by
  unfold GetCustomers
  rcases hF1 : Find w1 Coll.users (Query.filter [("roles", Cond.eq (Value.str "customer"))])
    with ⟨r1, v1⟩
  rcases hF2 : Find w2 Coll.users (Query.filter [("roles", Cond.eq (Value.str "customer"))])
    with ⟨r2, v2⟩
  have hr := Find_public w1 w2 (Query.filter [("roles", Cond.eq (Value.str "customer"))]) h
    (fun a b hab => matches_public _ a b hab
      (by intro kc hkc; simp at hkc; subst hkc; exact roles_public))
  rw [hF1, hF2] at hr
  rcases hr with ⟨msg, e1, e2⟩ | ⟨l1, l2, e1, e2, hl⟩
  · simp only [] at e1 e2; subst e1; subst e2; rfl
  · simp only [] at e1 e2; subst e1; subst e2
    simp only [replyValue, map_related customerView l1 l2 customerView_public hl]

theorem GetSellers_public (w1 w2 : World) (h : Store.sameButSecrets w1.db w2.db) :
    (GetSellers w1).1 = (GetSellers w2).1 := by
  unfold GetSellers
  simp only []
  rcases hF1 : Find w1 Coll.users (Query.or [[("roles", Cond.eq (Value.str "seller"))],
    [("store_status", Cond.eq (Value.str "rejected"))]]) with ⟨r1, v1⟩
  rcases hF2 : Find w2 Coll.users (Query.or [[("roles", Cond.eq (Value.str "seller"))],
    [("store_status", Cond.eq (Value.str "rejected"))]]) with ⟨r2, v2⟩
  have hr := Find_public w1 w2 (Query.or [[("roles", Cond.eq (Value.str "seller"))],
    [("store_status", Cond.eq (Value.str "rejected"))]]) h
    (fun a b hab => by
      simp only [Query.matches, List.any_cons, List.any_nil, Bool.or_false]
      rw [matches_public [("roles", Cond.eq (Value.str "seller"))] a b hab
          (by intro kc hkc; simp at hkc; subst hkc; exact roles_public),
        matches_public [("store_status", Cond.eq (Value.str "rejected"))] a b hab
          (by intro kc hkc; simp at hkc; subst hkc; exact store_status_public)])
  rw [hF1, hF2] at hr
  rcases hr with ⟨msg, e1, e2⟩ | ⟨l1, l2, e1, e2, hl⟩
  · simp only [] at e1 e2; subst e1; subst e2; rfl
  · simp only [] at e1 e2; subst e1; subst e2
    simp only [reply, map_related sellerView l1 l2 sellerView_public hl]

theorem userByIDFilter_public (userID : String) :
    ∀ kc ∈ userByIDFilter userID, kc.1 ∉ model.secretKeys := by
  intro kc hkc
  unfold userByIDFilter at hkc
  split at hkc
  · split at hkc
    · simp at hkc; subst hkc; exact id_public
    · simp at hkc
  · simp at hkc; subst hkc; exact id_public

theorem GetUserByID_public (c : Ctx) (w1 w2 : World) (h : Store.sameButSecrets w1.db w2.db) :
    (GetUserByID c w1).1 = (GetUserByID c w2).1 := by
  unfold GetUserByID
  simp only []
  rcases hF1 : FindOne w1 Coll.users (userByIDFilter c.id) with ⟨r1, v1⟩
  rcases hF2 : FindOne w2 Coll.users (userByIDFilter c.id) with ⟨r2, v2⟩
  have hr := FindOne_public w1 w2 (userByIDFilter c.id) h (userByIDFilter_public c.id)
  rw [hF1, hF2] at hr
  rcases hr with ⟨msg, e1, e2⟩ | ⟨e1, e2⟩ | ⟨a, b, e1, e2, hab⟩
  · simp only [] at e1 e2; subst e1; subst e2; rfl
  · simp only [] at e1 e2; subst e1; subst e2; rfl
  · simp only [] at e1 e2; subst e1; subst e2
    simp only []
    rcases decodeUser_public a b hab with ⟨n1, n2⟩ |
      ⟨u1, u2, s1, s2, q1, q2, q3, q4, q5, q6, _⟩
    · rw [n1, n2]; rfl
    · rw [s1, s2]
      simp only [reply, userByIDData, q1, q2, q3, q4, q5, q6]

theorem GetSellerByID_public (c : Ctx) (w1 w2 : World) (h : Store.sameButSecrets w1.db w2.db) :
    (GetSellerByID c w1).1 = (GetSellerByID c w2).1 := by
  unfold GetSellerByID
  cases primitive.ObjectIDFromHex c.id with
  | none => rfl
  | some userID =>
    simp only []
    rcases hF1 : FindOne w1 Coll.users
      [("_id", Cond.eq (Value.oid userID)), ("roles", Cond.eq (Value.str "seller"))]
      with ⟨r1, v1⟩
    rcases hF2 : FindOne w2 Coll.users
      [("_id", Cond.eq (Value.oid userID)), ("roles", Cond.eq (Value.str "seller"))]
      with ⟨r2, v2⟩
    have hr := FindOne_public w1 w2
      [("_id", Cond.eq (Value.oid userID)), ("roles", Cond.eq (Value.str "seller"))] h
      (by
        intro kc hkc; simp at hkc
        rcases hkc with hkc | hkc
        · subst hkc; exact id_public
        · subst hkc; exact roles_public)
    rw [hF1, hF2] at hr
    rcases hr with ⟨msg, e1, e2⟩ | ⟨e1, e2⟩ | ⟨a, b, e1, e2, hab⟩
    · simp only [] at e1 e2; subst e1; subst e2; rfl
    · simp only [] at e1 e2; subst e1; subst e2; rfl
    · simp only [] at e1 e2; subst e1; subst e2
      simp only []
      rcases decodeUser_public a b hab with ⟨n1, n2⟩ |
        ⟨u1, u2, s1, s2, q1, q2, q3, q4, q5, q6, _⟩
      · rw [n1, n2]; rfl
      · rw [s1, s2]
        simp only [reply, sellerByIDData, q1, q2, q3, q4, q5, q6]

/-- C17: two stores whose user records agree on every field but the password
hash, the reset token and the reset-token expiry (each of the type of
`model.User` in both) get the same response, status and body, from
`GetUserProfile`, `GetCustomers`, `GetSellers`, `GetUserByID` and
`GetSellerByID` to the same request. -/
theorem responses_independent_of_secrets (E : Env) (c : Ctx) (w1 w2 : World)
    (h : Store.sameButSecrets w1.db w2.db) :
    (GetUserProfile E c w1).1 = (GetUserProfile E c w2).1 ∧
    (GetCustomers w1).1 = (GetCustomers w2).1 ∧
    (GetSellers w1).1 = (GetSellers w2).1 ∧
    (GetUserByID c w1).1 = (GetUserByID c w2).1 ∧
    (GetSellerByID c w1).1 = (GetSellerByID c w2).1 :=
  ⟨GetUserProfile_public E c w1 w2 h, GetCustomers_public w1 w2 h, GetSellers_public w1 w2 h,
    GetUserByID_public c w1 w2 h, GetSellerByID_public c w1 w2 h⟩

/-- The seller record under two different sets of secrets: the five handlers
answer alike, and the answer of `GetSellerByID` is the 200 with the record. -/
theorem responses_independent_of_secrets_witness :
    Store.sameButSecrets demo.userWorld.db demo.userStoreOtherSecrets ∧
    Doc.getString demo.sellerRecord "password" ≠
      Doc.getString demo.sellerRecordOtherSecrets "password" ∧
    ((GetUserProfile demo.env (demo.otherRequest ("Bearer " ++ demo.sellerToken))
          demo.userWorld).1 =
        (GetUserProfile demo.env (demo.otherRequest ("Bearer " ++ demo.sellerToken))
          ⟨demo.userStoreOtherSecrets, []⟩).1 ∧
      (GetCustomers demo.userWorld).1 = (GetCustomers ⟨demo.userStoreOtherSecrets, []⟩).1 ∧
      (GetSellers demo.userWorld).1 = (GetSellers ⟨demo.userStoreOtherSecrets, []⟩).1 ∧
      (GetUserByID (demo.otherRequest ("Bearer " ++ demo.sellerToken)) demo.userWorld).1 =
        (GetUserByID (demo.otherRequest ("Bearer " ++ demo.sellerToken))
          ⟨demo.userStoreOtherSecrets, []⟩).1 ∧
      (GetSellerByID (demo.otherRequest ("Bearer " ++ demo.sellerToken)) demo.userWorld).1 =
        (GetSellerByID (demo.otherRequest ("Bearer " ++ demo.sellerToken))
          ⟨demo.userStoreOtherSecrets, []⟩).1) ∧
    (GetSellerByID (demo.otherRequest ("Bearer " ++ demo.sellerToken)) demo.userWorld).1.status =
      some StatusOK := by
  have hs : Store.sameButSecrets demo.userWorld.db demo.userStoreOtherSecrets := by
    refine ⟨List.Forall₂.cons ⟨by rfl, by rfl, ?_⟩
      (List.Forall₂.cons ⟨by rfl, by rfl, fun _ _ => rfl⟩ List.Forall₂.nil), rfl, rfl⟩
    intro k hk
    simp only [model.secretKeys, List.mem_cons, List.mem_singleton, List.not_mem_nil,
      or_false, not_or] at hk
    obtain ⟨h1, h2, h3⟩ := hk
    simp only [demo.sellerRecord, demo.sellerRecordOtherSecrets, Doc.get]
    split_ifs <;> first | rfl | (exfalso; simp_all)
  exact ⟨hs, by decide,
    responses_independent_of_secrets demo.env (demo.otherRequest ("Bearer " ++ demo.sellerToken))
      demo.userWorld ⟨demo.userStoreOtherSecrets, []⟩ hs, by rfl⟩

/-! ## C18: no `JWT_SECRET_KEY` in the environment -/

theorem jwtSecret_absent (environ : List (String × String))
    (habs : ∀ kv ∈ environ, kv.1 ≠ "JWT_SECRET_KEY") : utils.jwtSecret environ = "" := by
  have hnone : environ.find? (fun kv => kv.1 = "JWT_SECRET_KEY") = none := by
    rw [List.find?_eq_none]
    intro kv hkv
    simpa using habs kv hkv
  simp only [utils.jwtSecret, utils.Getenv, hnone]

/-- C18, as amended. When the environment has no `JWT_SECRET_KEY`, the package
variable `jwtSecret` is the empty key; `GenerateJWT` then issues the token
signed with the empty key, and `ValidateJWT` accepts that token at every time
before its expiry and returns its claims.  The segment codec is assumed to
carry the header, the claims and the MAC of this token. -/
theorem absent_secret_gives_empty_key (L : jwt.Lib) (environ : List (String × String))
    (t now : Int) (userID role sellerID : String)
    (habs : ∀ kv ∈ environ, kv.1 ≠ "JWT_SECRET_KEY")
    (hH : L.CarriesDoc (jwt.NewWithClaims jwt.SigningMethodHS256
      (utils.GenerateJWT.claims t userID role sellerID)).Header)
    (hC : L.CarriesDoc (utils.GenerateJWT.claims t userID role sellerID))
    (hS : L.CarriesBytes (jwt.hmacSum L jwt.Hash.SHA256 ""
      ((jwt.NewWithClaims jwt.SigningMethodHS256
        (utils.GenerateJWT.claims t userID role sellerID)).SigningString L)))
    (hnow : now < t + utils.tokenExpiry) :
    utils.jwtSecret environ = "" ∧
    ∃ claims,
      utils.GenerateJWT L (utils.jwtSecret environ) t userID role sellerID =
        (jwt.NewWithClaims jwt.SigningMethodHS256
          (utils.GenerateJWT.claims t userID role sellerID)).SignedString L "" ∧
      utils.GenerateJWT L (utils.jwtSecret environ) t userID role sellerID =
        Except.ok (strings.JoinDot
          ((jwt.NewWithClaims jwt.SigningMethodHS256
            (utils.GenerateJWT.claims t userID role sellerID)).SigningString L)
          (L.EncodeSegment (jwt.hmacSum L jwt.Hash.SHA256 ""
            ((jwt.NewWithClaims jwt.SigningMethodHS256
              (utils.GenerateJWT.claims t userID role sellerID)).SigningString L)))) ∧
      utils.ValidateJWT L (utils.jwtSecret environ) now
        (strings.JoinDot
          ((jwt.NewWithClaims jwt.SigningMethodHS256
            (utils.GenerateJWT.claims t userID role sellerID)).SigningString L)
          (L.EncodeSegment (jwt.hmacSum L jwt.Hash.SHA256 ""
            ((jwt.NewWithClaims jwt.SigningMethodHS256
              (utils.GenerateJWT.claims t userID role sellerID)).SigningString L)))) =
        Except.ok claims ∧
      claims.getString "user_id" = some userID ∧
      claims.getString "role" = some role := by
  have hempty := jwtSecret_absent environ habs
  obtain ⟨token, hget, hparse⟩ := parse_signed L jwt.Hash.SHA256
    (utils.GenerateJWT.claims t userID role sellerID) "" "" now
    (utils.validateKeyFunc "") hH hC hS
    (by intro token hm; simp [utils.validateKeyFunc, hm, jwt.SigningMethod.isHMAC])
  refine ⟨hempty, token.Claims, ?_, ?_, ?_, ?_, ?_⟩
  · rw [hempty]; rfl
  · rw [hempty]; rfl
  · rw [hempty]
    simp only [if_true, claims_valid t now userID role sellerID hnow] at hparse
    simp [utils.ValidateJWT, utils.ValidateJWT.parse, jwt.SigningMethodHS256, hparse]
  · simp [Doc.getString, hget, claims_get_user_id]
  · simp [Doc.getString, hget, claims_get_role]

/-- C18 as amended, on the small instance: an environment that sets only
`PORT`; the token of second 1000 is issued and is accepted at second 2000. -/
theorem absent_secret_gives_empty_key_witness :
    utils.jwtSecret [("PORT", "3000")] = "" ∧
    ∃ claims,
      utils.GenerateJWT hexLib (utils.jwtSecret [("PORT", "3000")]) 1000
          "507f1f77bcf86cd799439011" "seller" "" =
        (jwt.NewWithClaims jwt.SigningMethodHS256
          (utils.GenerateJWT.claims 1000 "507f1f77bcf86cd799439011" "seller" "")).SignedString
          hexLib "" ∧
      utils.GenerateJWT hexLib (utils.jwtSecret [("PORT", "3000")]) 1000
          "507f1f77bcf86cd799439011" "seller" "" =
        Except.ok (strings.JoinDot
          ((jwt.NewWithClaims jwt.SigningMethodHS256
            (utils.GenerateJWT.claims 1000 "507f1f77bcf86cd799439011" "seller" "")).SigningString
            hexLib)
          (hexLib.EncodeSegment (jwt.hmacSum hexLib jwt.Hash.SHA256 ""
            ((jwt.NewWithClaims jwt.SigningMethodHS256
              (utils.GenerateJWT.claims 1000 "507f1f77bcf86cd799439011" "seller"
                "")).SigningString hexLib)))) ∧
      utils.ValidateJWT hexLib (utils.jwtSecret [("PORT", "3000")]) 2000
        (strings.JoinDot
          ((jwt.NewWithClaims jwt.SigningMethodHS256
            (utils.GenerateJWT.claims 1000 "507f1f77bcf86cd799439011" "seller" "")).SigningString
            hexLib)
          (hexLib.EncodeSegment (jwt.hmacSum hexLib jwt.Hash.SHA256 ""
            ((jwt.NewWithClaims jwt.SigningMethodHS256
              (utils.GenerateJWT.claims 1000 "507f1f77bcf86cd799439011" "seller"
                "")).SigningString hexLib)))) =
        Except.ok claims ∧
      claims.getString "user_id" = some "507f1f77bcf86cd799439011" ∧
      claims.getString "role" = some "seller" :=
  absent_secret_gives_empty_key hexLib [("PORT", "3000")] 1000 2000
    "507f1f77bcf86cd799439011" "seller" ""
    (by decide)
    ⟨by decide, _, by rfl, fun _ => rfl⟩ ⟨by decide, _, by rfl, fun _ => rfl⟩
    ⟨by decide, by rfl⟩ (by decide)

/-- C18 refuted: in an environment without `JWT_SECRET_KEY` the configured
secret is the empty key, `GenerateJWT` issues a token signed with it, and
`ValidateJWT` accepts that token and returns its claims. -/
theorem empty_secret_token_issued_and_accepted :
    utils.jwtSecret [("PORT", "3000")] = "" ∧
    utils.GenerateJWT hexLib (utils.jwtSecret [("PORT", "3000")]) 1000
        "507f1f77bcf86cd799439011" "seller" "" = Except.ok demo.emptySecretToken ∧
    utils.ValidateJWT hexLib (utils.jwtSecret [("PORT", "3000")]) 2000 demo.emptySecretToken
      = Except.ok demo.sellerClaims :=
  ⟨by rfl, by rfl, by rfl⟩

/-! ## C19: an expired reset token -/

theorem decodeUser_expiry (d : Doc) (user : model.User) (h : model.decodeUser d = some user) :
    model.timeField d "reset_token_expiry" = some user.ResetTokenExpiry := by
  unfold model.decodeUser at h
  split at h
  · split at h
    · rename_i hx
      simp only [Option.some.injEq] at h
      subst h
      exact hx
    · exact absurd h (by simp)
  · exact absurd h (by simp)

/-- C19: when the store is reachable and the first user record that matches
the `email` and the `reset_token` of the request decodes and has a
`reset_token_expiry` earlier than the reading of `time.Now()`, by however
little (both are instants in nanoseconds), `ResetPassword` answers 401, the
store is unchanged and the lookup is the only driver call (no update is
issued); `VerifyOTP` answers 401 on the same request and store, which it
leaves unchanged too. -/
theorem expired_reset_token_refused (E : Env) (email resetToken newPassword : String)
    (w : World) (d : Doc) (expiry : Int)
    (hup : w.db.down = none)
    (hfind : w.db.users.find? (Filter.matches (resetFilter email resetToken)) = some d)
    (hdec : (model.decodeUser d).isSome = true)
    (hfield : model.timeField d "reset_token_expiry" = some expiry)
    (hexp : expiry < E.nowNano) :
    (ResetPassword E (some ⟨email, resetToken, newPassword⟩) w).1.status
      = some StatusUnauthorized ∧
    (ResetPassword E (some ⟨email, resetToken, newPassword⟩) w).2.db = w.db ∧
    (ResetPassword E (some ⟨email, resetToken, newPassword⟩) w).2.log
      = w.log ++ [StoreOp.FindOne Coll.users (resetFilter email resetToken)] ∧
    (VerifyOTP E (some ⟨email, resetToken⟩) w).1.status = some StatusUnauthorized ∧
    (VerifyOTP E (some ⟨email, resetToken⟩) w).2.db = w.db ∧
    (VerifyOTP E (some ⟨email, resetToken⟩) w).2.log
      = w.log ++ [StoreOp.FindOne Coll.users (resetFilter email resetToken)] := by
  obtain ⟨user, hu⟩ := Option.isSome_iff_exists.mp hdec
  have he : user.ResetTokenExpiry = expiry := by
    have := decodeUser_expiry d user hu
    rw [hfield] at this
    exact (Option.some.inj this).symm
  have hgt : E.nowNano > user.ResetTokenExpiry := by rw [he]; exact hexp
  have hF : FindOne w Coll.users (resetFilter email resetToken) =
      (FindResult.found d,
        { w with log := w.log ++ [StoreOp.FindOne Coll.users (resetFilter email resetToken)] }) := by
    simp only [FindOne, hup, Store.coll, hfind]
  simp only [ResetPassword, VerifyOTP, hF, hu, hgt, if_true, reply, Outcome.status,
    and_self]

/-- C19 at a concrete store, within the second of the expiry: the reset token
`123456` of the seller record expired at millisecond 1500 (nanosecond
1500000000), and the request arrives one nanosecond later. -/
theorem expired_reset_token_refused_witness :
    model.timeField demo.sellerRecord "reset_token_expiry" = some 1500000000 ∧
    demo.envAtExpiry.nowNano = 1500000001 ∧
    (ResetPassword demo.envAtExpiry (some ⟨"sari@example.com", "123456", "new"⟩)
      demo.userWorld).1.status = some StatusUnauthorized ∧
    (ResetPassword demo.envAtExpiry (some ⟨"sari@example.com", "123456", "new"⟩)
      demo.userWorld).2.db = demo.userWorld.db ∧
    (ResetPassword demo.envAtExpiry (some ⟨"sari@example.com", "123456", "new"⟩)
      demo.userWorld).2.log
      = demo.userWorld.log ++
        [StoreOp.FindOne Coll.users (resetFilter "sari@example.com" "123456")] ∧
    (VerifyOTP demo.envAtExpiry (some ⟨"sari@example.com", "123456"⟩) demo.userWorld).1.status
      = some StatusUnauthorized ∧
    (VerifyOTP demo.envAtExpiry (some ⟨"sari@example.com", "123456"⟩) demo.userWorld).2.db
      = demo.userWorld.db ∧
    (VerifyOTP demo.envAtExpiry (some ⟨"sari@example.com", "123456"⟩) demo.userWorld).2.log
      = demo.userWorld.log ++
        [StoreOp.FindOne Coll.users (resetFilter "sari@example.com" "123456")] :=
  ⟨by rfl, by rfl,
    expired_reset_token_refused demo.envAtExpiry "sari@example.com" "123456" "new"
      demo.userWorld demo.sellerRecord 1500000000 (by rfl) (by rfl) (by rfl) (by rfl)
      (by decide)⟩

/-! ## C20: the key of `GetUserIDFromToken` -/

theorem xor_div_128 (a k : Nat) (hk : k < 128) : (a ^^^ k) / 128 = a / 128 := by
  have h : (a ^^^ k) >>> 7 = a >>> 7 := by
    apply Nat.eq_of_testBit_eq
    intro j
    have hpow : 2 ^ 7 ≤ 2 ^ (7 + j) := Nat.pow_le_pow_right (by decide) (Nat.le_add_right 7 j)
    have hkj : k.testBit (7 + j) = false :=
      Nat.testBit_lt_two_pow (lt_of_lt_of_le hk hpow)
    simp [Nat.testBit_shiftRight, Nat.testBit_xor, hkj]
  simpa [Nat.shiftRight_eq_div_pow] using h

theorem xor_valid (a k : Nat) (hk : k < 128) (ha : a.isValidChar) : (a ^^^ k).isValidChar := by
  have h := xor_div_128 a k hk
  unfold Nat.isValidChar at ha ⊢
  omega

theorem xorByte_toNat (k : Nat) (hk : k < 128) (c : Char) :
    (jwt.xorByte k c).toNat = c.toNat ^^^ k := by
  have hv : (c.toNat ^^^ k).isValidChar := xor_valid c.toNat k hk c.valid
  unfold jwt.xorByte Char.ofNat
  rw [dif_pos hv]
  rfl

theorem xorByte_injective (k : Nat) (hk : k < 128) : Function.Injective (jwt.xorByte k) := by
  intro c1 c2 h
  have h1 := congrArg Char.toNat h
  rw [xorByte_toNat k hk, xorByte_toNat k hk] at h1
  have h2 : c1.toNat = c2.toNat := Nat.xor_left_inj.mp h1
  rw [← Char.ofNat_toNat c1, ← Char.ofNat_toNat c2, h2]

theorem keyBlock_length (L : jwt.Lib) (h : jwt.Hash) (key : String) :
    (jwt.keyBlock L h key).length = h.BlockSize := by
  unfold jwt.keyBlock
  simp only [List.length_take, List.length_append, List.length_replicate]
  omega

theorem takeWhile_padded (l : List Char) (n : Nat) (hl : Char.ofNat 0 ∉ l) :
    (l ++ List.replicate n (Char.ofNat 0)).takeWhile (fun c => c ≠ Char.ofNat 0) = l := by
  induction l with
  | nil => cases n <;> simp [List.replicate_succ, List.takeWhile]
  | cons c cs ih =>
    have hc : c ≠ Char.ofNat 0 := fun e => hl (by simp [e])
    have hcs : Char.ofNat 0 ∉ cs := fun e => hl (by simp [e])
    simpa [List.takeWhile, hc] using ih hcs

/-- A key without a zero byte that fits the block has the key block of
`SECRET_KEY` only when it is `SECRET_KEY`. -/
theorem keyBlock_short_ne (L : jwt.Lib) (key : String)
    (hne : key ≠ "SECRET_KEY") (hnul : Char.ofNat 0 ∉ key.data)
    (hlen : key.data.length ≤ jwt.Hash.SHA256.BlockSize) :
    jwt.keyBlock L jwt.Hash.SHA256 key ≠ jwt.keyBlock L jwt.Hash.SHA256 "SECRET_KEY" := by
  intro e
  apply hne
  have h1 : ¬ key.data.length > jwt.Hash.SHA256.BlockSize := by omega
  have hk : jwt.keyBlock L jwt.Hash.SHA256 key
      = key.data ++ List.replicate (jwt.Hash.SHA256.BlockSize - key.data.length) (Char.ofNat 0) := by
    unfold jwt.keyBlock
    simp only [if_neg h1]
    apply List.take_of_length_le
    simp only [List.length_append, List.length_replicate]
    omega
  have hs : jwt.keyBlock L jwt.Hash.SHA256 "SECRET_KEY"
      = "SECRET_KEY".data ++ List.replicate 54 (Char.ofNat 0) := by rfl
  rw [hk, hs] at e
  have e2 := congrArg (List.takeWhile fun c => c ≠ Char.ofNat 0) e
  rw [takeWhile_padded _ _ hnul, takeWhile_padded _ _ (by decide)] at e2
  exact String.ext e2

/-- Two keys with different key blocks have different outer inputs on every
message. -/
theorem hmacOuter_ne (L : jwt.Lib) (h : jwt.Hash) (k1 k2 msg : String)
    (hkb : jwt.keyBlock L h k1 ≠ jwt.keyBlock L h k2) :
    jwt.hmacOuter L h k1 msg ≠ jwt.hmacOuter L h k2 msg := by
  intro e
  apply hkb
  have e1 := congrArg String.data e
  simp only [jwt.hmacOuter, String.data_append] at e1
  have e2 := (List.append_inj e1 (by
    simp only [List.length_map, keyBlock_length])).1
  exact List.map_injective_iff.mpr (xorByte_injective 0x5c (by decide)) e2

theorem TrimPrefix_bearer (s : String) : strings.TrimPrefix ("Bearer " ++ s) "Bearer " = s := by
  have h1 : ("Bearer " ++ s).data = "Bearer ".data ++ s.data := String.data_append _ _
  have hp : strings.HasPrefix ("Bearer " ++ s) "Bearer " = true := by
    unfold strings.HasPrefix
    rw [h1]
    exact List.isPrefixOf_iff_prefix.mpr (List.prefix_append _ _)
  unfold strings.TrimPrefix
  rw [if_pos hp, h1, List.drop_left]

theorem parse_verifyKey (L : jwt.Lib) (now : Int) (tokenString key k : String)
    (h : (jwt.Parse L now tokenString (fun _ => Except.ok key)).verifyKey = some k) :
    k = key := by
  unfold jwt.Parse at h
  split at h
  · simp at h
  · simp only [] at h
    split at h
    · split at h <;> simp at h <;> exact h.symm
    · simp at h; exact h.symm

/-- The key that `jwt.Parse` verifies with, for a token signed by the library,
when the key function hands out `key`. -/
theorem parse_signed_verifyKey (L : jwt.Lib) (h : jwt.Hash) (claims : Doc)
    (signKey key : String) (now : Int) (keyFunc : jwt.Token → Except jwt.Error String)
    (hH : L.CarriesDoc (jwt.NewWithClaims (jwt.SigningMethod.HMAC h) claims).Header)
    (hC : L.CarriesDoc claims)
    (hS : L.CarriesBytes (jwt.hmacSum L h signKey
      ((jwt.NewWithClaims (jwt.SigningMethod.HMAC h) claims).SigningString L)))
    (hk : ∀ token : jwt.Token, token.Method = jwt.SigningMethod.HMAC h →
      keyFunc token = Except.ok key) :
    (jwt.Parse L now
      (strings.JoinDot ((jwt.NewWithClaims (jwt.SigningMethod.HMAC h) claims).SigningString L)
        (L.EncodeSegment (jwt.hmacSum L h signKey
          ((jwt.NewWithClaims (jwt.SigningMethod.HMAC h) claims).SigningString L))))
      keyFunc).verifyKey = some key := by
  obtain ⟨sdot, sdec⟩ := hS
  obtain ⟨token, hparse, hm, _, _⟩ :=
    parseUnverified_signed L (jwt.SigningMethod.HMAC h) claims _ hH hC sdot
  simp only [jwt.Parse, hparse, hk token hm, hm, jwt.SigningMethod.Verify, List.getD_cons_zero,
    List.getD_cons_succ, sdec]
  split_ifs <;> rfl

theorem GetUserIDFromToken_of_parse_error (L : jwt.Lib) (now : Int) (authHeader : String)
    (e : jwt.ValidationError) (hh : authHeader ≠ "")
    (hp : (utils.GetUserIDFromToken.parse L now
      (strings.TrimPrefix authHeader "Bearer ")).result = Except.error e) :
    utils.GetUserIDFromToken L now authHeader
      = (primitive.NilObjectID, some (jwt.Error.text "invalid token")) := by
  simp only [utils.GetUserIDFromToken, if_neg hh, hp]

theorem GetUserIDFromToken_of_parse_ok (L : jwt.Lib) (now : Int) (authHeader userID : String)
    (token : jwt.Token) (oid : ObjectID) (hh : authHeader ≠ "")
    (hp : (utils.GetUserIDFromToken.parse L now
      (strings.TrimPrefix authHeader "Bearer ")).result = Except.ok token)
    (hv : token.Valid = true)
    (hu : token.Claims.getString "user_id" = some userID)
    (ho : primitive.ObjectIDFromHex userID = some oid) :
    utils.GetUserIDFromToken L now authHeader = (oid, none) := by
  simp [utils.GetUserIDFromToken, hh, hp, hv, hu, ho]

/-- C20: `GetUserIDFromToken` verifies against the literal key `SECRET_KEY`
and does not read the configured secret.  (1) Under any two configured
secrets it returns the same result on the same request.  (2) Whenever its
`jwt.Parse` call verifies a signature, the key is `SECRET_KEY`.  (3) The token
that `GenerateJWT` issues when the configured secret is `SECRET_KEY` is
verified with that key and accepted, whatever secret is configured when it
arrives: the result is the identifier of its `user_id`, without an error.
(4) For a configured secret other than `SECRET_KEY` (a value of the
environment, so without a zero byte; when it is longer than the block of the
hash, its digest is assumed not to pad to the block of `SECRET_KEY`), the token
`GenerateJWT` issues at `t` is accepted by `ValidateJWT` before its expiry,
while `GetUserIDFromToken` verifies it with `SECRET_KEY` and answers every
request that carries it with the nil identifier and the error `invalid token`.
The segment codec is assumed to carry the header, the claims and the two MACs,
and the digest not to collide on the outer inputs of the two MACs. -/
theorem GetUserIDFromToken_literal_key (E : Env) (t : Int) (userID role sellerID : String)
    (hH : E.L.CarriesDoc (jwt.NewWithClaims jwt.SigningMethodHS256
      (utils.GenerateJWT.claims t userID role sellerID)).Header)
    (hC : E.L.CarriesDoc (utils.GenerateJWT.claims t userID role sellerID))
    (hS : E.L.CarriesBytes (jwt.hmacSum E.L jwt.Hash.SHA256 E.jwtSecret
      ((jwt.NewWithClaims jwt.SigningMethodHS256
        (utils.GenerateJWT.claims t userID role sellerID)).SigningString E.L)))
    (hSlit : E.L.CarriesBytes (jwt.hmacSum E.L jwt.Hash.SHA256 "SECRET_KEY"
      ((jwt.NewWithClaims jwt.SigningMethodHS256
        (utils.GenerateJWT.claims t userID role sellerID)).SigningString E.L)))
    (hnow : E.now < t + utils.tokenExpiry)
    (hne : E.jwtSecret ≠ "SECRET_KEY")
    (hnul : Char.ofNat 0 ∉ E.jwtSecret.data)
    (hlong : jwt.Hash.SHA256.BlockSize < E.jwtSecret.data.length →
      jwt.keyBlock E.L jwt.Hash.SHA256 E.jwtSecret
        ≠ jwt.keyBlock E.L jwt.Hash.SHA256 "SECRET_KEY")
    (hcoll : E.L.NoCollision jwt.Hash.SHA256
      (jwt.hmacOuter E.L jwt.Hash.SHA256 E.jwtSecret
        ((jwt.NewWithClaims jwt.SigningMethodHS256
          (utils.GenerateJWT.claims t userID role sellerID)).SigningString E.L))
      (jwt.hmacOuter E.L jwt.Hash.SHA256 "SECRET_KEY"
        ((jwt.NewWithClaims jwt.SigningMethodHS256
          (utils.GenerateJWT.claims t userID role sellerID)).SigningString E.L))) :
    (∀ (c : Ctx) (s1 s2 : String),
      userIDFromToken { E with jwtSecret := s1 } c
        = userIDFromToken { E with jwtSecret := s2 } c) ∧
    (∀ (tokenString k : String),
      (utils.GetUserIDFromToken.parse E.L E.now tokenString).verifyKey = some k →
        k = "SECRET_KEY") ∧
    (∃ literalToken,
      utils.GenerateJWT E.L "SECRET_KEY" t userID role sellerID = Except.ok literalToken ∧
      (utils.GetUserIDFromToken.parse E.L E.now literalToken).verifyKey = some "SECRET_KEY" ∧
      ∀ oid, primitive.ObjectIDFromHex userID = some oid →
        ∀ (id s : String),
          userIDFromToken { E with jwtSecret := s } ⟨"Bearer " ++ literalToken, id⟩
            = (oid, none)) ∧
    ∃ tokenString claims,
      utils.GenerateJWT E.L E.jwtSecret t userID role sellerID = Except.ok tokenString ∧
      utils.ValidateJWT E.L E.jwtSecret E.now tokenString = Except.ok claims ∧
      claims.getString "user_id" = some userID ∧
      (utils.GetUserIDFromToken.parse E.L E.now tokenString).verifyKey = some "SECRET_KEY" ∧
      (∀ c : Ctx, c.Authorization ≠ "" →
        strings.TrimPrefix c.Authorization "Bearer " = tokenString →
        userIDFromToken E c
          = (primitive.NilObjectID, some (jwt.Error.text "invalid token"))) ∧
      (∀ id : String, userIDFromToken E ⟨"Bearer " ++ tokenString, id⟩
          = (primitive.NilObjectID, some (jwt.Error.text "invalid token"))) := by
  refine ⟨fun _ _ _ => rfl, fun tok k h => parse_verifyKey E.L E.now tok "SECRET_KEY" k h,
    ?_, ?_⟩
  · obtain ⟨token, hget, hparse⟩ := parse_signed E.L jwt.Hash.SHA256
      (utils.GenerateJWT.claims t userID role sellerID) "SECRET_KEY" "SECRET_KEY" E.now
      (fun _ => Except.ok "SECRET_KEY") hH hC hSlit (fun _ _ => rfl)
    have hkey := parse_signed_verifyKey E.L jwt.Hash.SHA256
      (utils.GenerateJWT.claims t userID role sellerID) "SECRET_KEY" "SECRET_KEY" E.now
      (fun _ => Except.ok "SECRET_KEY") hH hC hSlit (fun _ _ => rfl)
    simp only [if_true, claims_valid t E.now userID role sellerID hnow] at hparse
    refine ⟨_, rfl, hkey, ?_⟩
    intro oid hoid id s
    refine GetUserIDFromToken_of_parse_ok E.L E.now _ userID { token with Valid := true } oid
      (bearer_ne_empty _) ?_ rfl ?_ hoid
    · rw [TrimPrefix_bearer]; exact hparse
    · simp [Doc.getString, hget, claims_get_user_id]
  · obtain ⟨token, hget, hparse⟩ := parse_signed E.L jwt.Hash.SHA256
      (utils.GenerateJWT.claims t userID role sellerID) E.jwtSecret E.jwtSecret E.now
      (utils.validateKeyFunc E.jwtSecret) hH hC hS
      (by intro token hm; simp [utils.validateKeyFunc, hm, jwt.SigningMethod.isHMAC])
    obtain ⟨_, _, hlit⟩ := parse_signed E.L jwt.Hash.SHA256
      (utils.GenerateJWT.claims t userID role sellerID) E.jwtSecret "SECRET_KEY" E.now
      (fun _ => Except.ok "SECRET_KEY") hH hC hS (fun _ _ => rfl)
    have hkey := parse_signed_verifyKey E.L jwt.Hash.SHA256
      (utils.GenerateJWT.claims t userID role sellerID) E.jwtSecret "SECRET_KEY" E.now
      (fun _ => Except.ok "SECRET_KEY") hH hC hS (fun _ _ => rfl)
    have hkb : jwt.keyBlock E.L jwt.Hash.SHA256 E.jwtSecret
        ≠ jwt.keyBlock E.L jwt.Hash.SHA256 "SECRET_KEY" := by
      by_cases hl : jwt.Hash.SHA256.BlockSize < E.jwtSecret.data.length
      · exact hlong hl
      · exact keyBlock_short_ne E.L E.jwtSecret hne hnul (not_lt.mp hl)
    have hmac : jwt.hmacSum E.L jwt.Hash.SHA256 E.jwtSecret
          ((jwt.NewWithClaims (jwt.SigningMethod.HMAC jwt.Hash.SHA256)
            (utils.GenerateJWT.claims t userID role sellerID)).SigningString E.L)
        ≠ jwt.hmacSum E.L jwt.Hash.SHA256 "SECRET_KEY"
          ((jwt.NewWithClaims (jwt.SigningMethod.HMAC jwt.Hash.SHA256)
            (utils.GenerateJWT.claims t userID role sellerID)).SigningString E.L) :=
      hcoll (hmacOuter_ne E.L jwt.Hash.SHA256 E.jwtSecret "SECRET_KEY" _ hkb)
    rw [if_neg hmac] at hlit
    have hrej : ∀ c : Ctx, c.Authorization ≠ "" →
        strings.TrimPrefix c.Authorization "Bearer " = strings.JoinDot
          ((jwt.NewWithClaims (jwt.SigningMethod.HMAC jwt.Hash.SHA256)
            (utils.GenerateJWT.claims t userID role sellerID)).SigningString E.L)
          (E.L.EncodeSegment (jwt.hmacSum E.L jwt.Hash.SHA256 E.jwtSecret
            ((jwt.NewWithClaims (jwt.SigningMethod.HMAC jwt.Hash.SHA256)
              (utils.GenerateJWT.claims t userID role sellerID)).SigningString E.L))) →
        userIDFromToken E c
          = (primitive.NilObjectID, some (jwt.Error.text "invalid token")) := by
      intro c hh ht
      exact GetUserIDFromToken_of_parse_error E.L E.now c.Authorization _ hh
        (by rw [ht]; exact hlit)
    refine ⟨_, token.Claims, rfl, ?_, ?_, hkey, hrej, ?_⟩
    · simp only [if_true, claims_valid t E.now userID role sellerID hnow] at hparse
      simp [utils.ValidateJWT, utils.ValidateJWT.parse, jwt.SigningMethodHS256, hparse]
    · simp [Doc.getString, hget, claims_get_user_id]
    · intro id
      exact hrej ⟨_, id⟩ (bearer_ne_empty _) (TrimPrefix_bearer _)

/-- C20 on the small instance, configured secret `k`: the seller token of
second 1000 is accepted by `ValidateJWT` at second 2000 and answered with
`invalid token` by `GetUserIDFromToken`, which returns the identifier of the
user for the token that `GenerateJWT` issues under `SECRET_KEY`. -/
theorem GetUserIDFromToken_literal_key_witness :
    utils.GenerateJWT hexLib "k" 1000 "507f1f77bcf86cd799439011" "seller" ""
      = Except.ok demo.sellerToken ∧
    utils.ValidateJWT hexLib "k" 2000 demo.sellerToken = Except.ok demo.sellerClaims ∧
    userIDFromToken demo.env (demo.userRequest ("Bearer " ++ demo.sellerToken))
      = (primitive.NilObjectID, some (jwt.Error.text "invalid token")) ∧
    utils.GenerateJWT hexLib "SECRET_KEY" 1000 "507f1f77bcf86cd799439011" "seller" ""
      = Except.ok demo.literalKeyToken ∧
    (utils.GetUserIDFromToken.parse hexLib 2000 demo.literalKeyToken).verifyKey
      = some "SECRET_KEY" ∧
    userIDFromToken demo.env (demo.userRequest ("Bearer " ++ demo.literalKeyToken))
      = (demo.sellerID, none) := by
  have hgen : utils.GenerateJWT hexLib "k" 1000 "507f1f77bcf86cd799439011" "seller" ""
      = Except.ok demo.sellerToken := by rfl
  have hgenlit : utils.GenerateJWT hexLib "SECRET_KEY" 1000 "507f1f77bcf86cd799439011"
      "seller" "" = Except.ok demo.literalKeyToken := by rfl
  obtain ⟨_, _, ⟨literalToken, g1, g2, g3⟩, tokenString, claims, h1, _, _, _, _, h5⟩ :=
    GetUserIDFromToken_literal_key demo.env 1000 "507f1f77bcf86cd799439011" "seller" ""
      ⟨by decide, _, by rfl, fun _ => rfl⟩ ⟨by decide, _, by rfl, fun _ => rfl⟩
      ⟨by decide, by rfl⟩ ⟨by decide, by rfl⟩ (by decide) (by decide) (by decide)
      (fun h => absurd h (by decide)) (fun _ => by decide)
  have htok : tokenString = demo.sellerToken := Except.ok.inj (h1.symm.trans hgen)
  have hlit : literalToken = demo.literalKeyToken := Except.ok.inj (g1.symm.trans hgenlit)
  subst htok
  subst hlit
  exact ⟨hgen, by rfl, h5 "507f1f77bcf86cd799439011", hgenlit, g2,
    g3 demo.sellerID (by rfl) "507f1f77bcf86cd799439011" "k"⟩
